import Mathlib

/-!
Verification development for the HelixMapr research-database application
(`research` Django app).  The definitions below are shallow embeddings of the
functions in `research/dynamic_forms.py`, `research/forms.py`,
`research/models.py`, `research/import_utils.py` and `research/snapshot.py`.
Machine integers are modelled as `Int`/`Nat`; Python runtime values as the
`PyVal` type; fallible Python code returns `Except String _` where the string
names the exception class raised.
-/

namespace HelixMapr

/-- A Python runtime value, covering the shapes that flow through the
custom-field engine: `None`, booleans, integers, strings, dates
(modelled as a day ordinal), lists, string-keyed dicts (JSON objects), and
Django model instances (which expose a `.pk` attribute and a content-type
tag).  JSON numbers in `conditional_logic` trees are modelled as integers;
`str()` of a model instance is modelled by its tag and pk. -/
inductive PyVal where
  | none
  | bool (b : Bool)
  | int (n : Int)
  | str (s : String)
  | date (d : Nat)
  | list (xs : List PyVal)
  | dict (xs : List (String × PyVal))
  | obj (tag : String) (pk : Int)

/-! String primitives, implemented over character lists so that closed
evaluations reduce inside the kernel.  Case mapping is ASCII (the strings it
is applied to — logic operators and role names — are ASCII). -/

/-- `s.upper()`. -/
def strUpper (s : String) : String := ⟨s.data.map Char.toUpper⟩

/-- `s.lower()`. -/
def strLower (s : String) : String := ⟨s.data.map Char.toLower⟩

/-- `s.strip()`: remove leading and trailing whitespace. -/
def strTrim (s : String) : String :=
  ⟨((s.data.dropWhile Char.isWhitespace).reverse.dropWhile Char.isWhitespace).reverse⟩

/-- Is `sub` a prefix of `hay`? -/
def charsPrefix : List Char → List Char → Bool
  | [], _ => true
  | _ :: _, [] => false
  | a :: as, b :: bs => a == b && charsPrefix as bs

/-- Is `sub` an infix of `hay`? -/
def charsInfix (sub : List Char) : List Char → Bool
  | [] => sub.isEmpty
  | b :: bs => charsPrefix sub (b :: bs) || charsInfix sub bs

/-- Substring test: Python `sub in hay` on strings. -/
def strContains (hay sub : String) : Bool := charsInfix sub.data hay.data

/-- Lexicographic `<` on characters lists (Python string comparison). -/
def charsLt : List Char → List Char → Bool
  | [], [] => false
  | [], _ :: _ => true
  | _ :: _, [] => false
  | a :: as, b :: bs => if a < b then true else if b < a then false else charsLt as bs

/-- Digits of a non-empty all-digit character list, as a number. -/
def digitsToNat : List Char → Option Nat
  | [] => Option.none
  | cs =>
      if cs.all Char.isDigit then
        some (cs.foldl (fun acc c => acc * 10 + (c.toNat - '0'.toNat)) 0)
      else Option.none

/-- `int(s)` for a string: optional surrounding whitespace, optional sign,
then decimal digits. -/
def pyIntParse (s : String) : Option Int :=
  match (strTrim s).data with
  | '-' :: rest => (digitsToNat rest).map fun n => -(n : Int)
  | '+' :: rest => (digitsToNat rest).map fun n => (n : Int)
  | cs => (digitsToNat cs).map fun n => (n : Int)


namespace PyVal

/-- Python truthiness: `bool(v)`. -/
def truthy : PyVal → Bool
  | .none => false
  | .bool b => b
  | .int n => n ≠ 0
  | .str s => s ≠ ""
  | .date _ => true
  | .list xs => !xs.isEmpty
  | .dict xs => !xs.isEmpty
  | .obj _ _ => true

mutual

/-- `str(v)`.  Lists are rendered with bracketed comma-separated elements
(Python renders element reprs; for the scalar shapes used here repr and str
agree up to string quoting, which no theorem below depends on). -/
def pyStr : PyVal → String
  | .none => "None"
  | .bool true => "True"
  | .bool false => "False"
  | .int n => toString n
  | .str s => s
  | .date d => toString d
  | .list xs => "[" ++ pyStrList xs ++ "]"
  | .dict _ => "{...}"
  | .obj tag pk => "<" ++ tag ++ ":" ++ toString pk ++ ">"

/-- Comma-separated rendering of a list's elements. -/
def pyStrList : List PyVal → String
  | [] => ""
  | [x] => pyStr x
  | x :: xs => pyStr x ++ ", " ++ pyStrList xs

end

mutual

/-- Python `==`.  Booleans and integers compare numerically (`True == 1`);
values of unrelated types are unequal.  Dict equality is modelled as ordered
association-list equality (no comparison below ever compares two dicts). -/
def pyEq : PyVal → PyVal → Bool
  | .none, .none => true
  | .bool a, .bool b => a == b
  | .bool a, .int n => (if a then (1 : Int) else 0) == n
  | .int n, .bool b => n == (if b then (1 : Int) else 0)
  | .int a, .int b => a == b
  | .str a, .str b => a == b
  | .date a, .date b => a == b
  | .list xs, .list ys => pyEqList xs ys
  | .dict xs, .dict ys => pyEqDict xs ys
  | .obj t a, .obj u b => t == u && a == b
  | _, _ => false

/-- Elementwise Python `==` on lists. -/
def pyEqList : List PyVal → List PyVal → Bool
  | [], [] => true
  | x :: xs, y :: ys => pyEq x y && pyEqList xs ys
  | _, _ => false

/-- Ordered pairwise Python `==` on association lists. -/
def pyEqDict : List (String × PyVal) → List (String × PyVal) → Bool
  | [], [] => true
  | (k, x) :: xs, (l, y) :: ys => k == l && pyEq x y && pyEqDict xs ys
  | _, _ => false

end

/-- Python `<` between values, raising `TypeError` on unorderable pairs
(as CPython does for mixed builtin types). -/
def pyLt : PyVal → PyVal → Except String Bool
  | .bool a, .bool b => .ok ((if a then (1:Int) else 0) < (if b then (1:Int) else 0))
  | .bool a, .int n => .ok ((if a then (1:Int) else 0) < n)
  | .int n, .bool b => .ok (n < (if b then (1:Int) else 0))
  | .int a, .int b => .ok (a < b)
  | .str a, .str b => .ok (charsLt a.data b.data)
  | .date a, .date b => .ok (a < b)
  | _, _ => .error "TypeError"

/-- Lookup in a string-keyed dict (`d.get(k)` for string `k`). -/
def dictGet (xs : List (String × PyVal)) (k : String) : Option PyVal :=
  (xs.find? fun p => p.1 == k).map (·.2)

/-- Python `x or y`: `x` when truthy, else `y`. -/
def pyOr (x y : PyVal) : PyVal := if truthy x then x else y

end PyVal

open PyVal

/-! ## `research/dynamic_forms.py`: `evaluate_condition_logic` (lines 16-44)

The submitted value set is a string-keyed dict, modelled as an association
list.  `logic` is an arbitrary JSON value read from the
`CustomFieldDefinition.conditional_logic` JSON column. -/

/-- `values.get(field_key)` where `field_key` is an arbitrary value: an
unhashable key (list/dict) raises `TypeError`; a hashable non-string key is
absent from the (string-keyed) submitted dict. -/
def valuesGet (values : List (String × PyVal)) : PyVal → Except String (Option PyVal)
  | .list _ => .error "TypeError"
  | .dict _ => .error "TypeError"
  | .str s => .ok (dictGet values s)
  | _ => .ok Option.none

/-- The `.pk` substitution of dynamic_forms.py lines 27-28: a model instance
is replaced by its primary key. -/
def pkAttr : PyVal → PyVal
  | .obj _ pk => .int pk
  | v => v

/-- The `actual` value a condition compares against (dynamic_forms.py
lines 26-28): `values.get(field_key) or values.get(f'custom_{field_key}')`,
then `.pk` substituted when the result is a model instance. -/
def conditionActual (values : List (String × PyVal)) (fieldKey : PyVal) :
    Except String PyVal := do
  let bare := (← valuesGet values fieldKey).getD .none
  let fallback := (dictGet values ("custom_" ++ pyStr fieldKey)).getD .none
  return pkAttr (pyOr bare fallback)

/-- `s.upper()` / `s.lower()`: raises `AttributeError` unless the value is a
string. -/
def pyUpper : PyVal → Except String String
  | .str s => .ok (strUpper s)
  | _ => .error "AttributeError"

def pyLower : PyVal → Except String String
  | .str s => .ok (strLower s)
  | _ => .error "AttributeError"

/-- One iteration of the evaluator's condition loop (dynamic_forms.py
lines 22-43): computes the boolean appended to `results`.  A non-dict
`condition` raises `AttributeError` at `condition.get('field')`. -/
def evalCondition (values : List (String × PyVal)) (condition : PyVal) :
    Except String Bool := do
  let cond ← match condition with
    | .dict xs => pure xs
    | _ => Except.error "AttributeError"
  let fieldKey := (dictGet cond "field").getD .none
  let op ← pyLower (pyOr ((dictGet cond "operator").getD .none) (.str "equals"))
  let expected := (dictGet cond "value").getD .none
  let actual ← conditionActual values fieldKey
  if op = "equals" then
    return pyEq actual expected
  else if op = "not_equals" then
    return !pyEq actual expected
  else if op = "contains" then
    match actual with
    | .list xs => return xs.any fun el => pyEq el expected
    | _ => return strContains (pyStr (pyOr actual (.str ""))) (pyStr expected)
  else if op = "gt" then
    match actual with
    | .none => return false
    | a => do return (← pyLt expected a)
  else if op = "lt" then
    match actual with
    | .none => return false
    | a => do return (← pyLt a expected)
  else
    return false

/-- Python iteration over the `conditions` value: lists yield their elements,
strings their characters, dicts their keys; other truthy values raise
`TypeError` (not iterable). -/
def pyIterate : PyVal → Except String (List PyVal)
  | .list xs => .ok xs
  | .str s => .ok (s.data.map fun c => .str (String.singleton c))
  | .dict xs => .ok (xs.map fun p => .str p.1)
  | _ => .error "TypeError"

/-- `evaluate_condition_logic(logic, values)` (dynamic_forms.py lines 16-44).
A falsy `logic` returns `True`; a truthy non-dict raises `AttributeError` at
`logic.get('operator')`; the top-level operator defaults to `AND` when falsy
and any uppercased value other than `"AND"` combines with `any` (OR). -/
def evaluateConditionLogic (logic : PyVal) (values : List (String × PyVal)) :
    Except String Bool := do
  if !truthy logic then
    return true
  let tree ← match logic with
    | .dict xs => pure xs
    | _ => Except.error "AttributeError"
  let operator ← pyUpper (pyOr ((dictGet tree "operator").getD .none) (.str "AND"))
  let conditions ← pyIterate (pyOr ((dictGet tree "conditions").getD .none) (.list []))
  let results ← conditions.mapM (evalCondition values)
  if operator = "AND" then
    return results.all id
  else
    return results.any id

/-! ## `research/models.py`: the custom-field data model -/

/-- `CustomFieldDefinition.FieldType` (models.py lines 307-319).  The legacy
aliases `NUMBER = 'integer'` and `CHOICE = 'single_select'` (lines 321-322)
denote the same enum values as `integer` and `single_select`, so source
branches such as `ft in {INTEGER, NUMBER}` collapse to a single case here. -/
inductive FieldType where
  | text | long_text | integer | decimal | date | boolean
  | single_select | multi_select | foreign_key | file | url | email
deriving DecidableEq, Repr

/-- The fields of `CustomFieldDefinition` (models.py lines 306-376) read by
the dynamic form builder and the save paths.  JSON columns keep their JSON
value (`PyVal`); role lists are JSON lists of role strings. -/
structure CustomFieldDefinition where
  id : Nat
  name : String := ""
  key : String
  label : String
  field_type : FieldType
  choices : PyVal := .list []
  default_value : List (String × PyVal) := []
  help_text : String := ""
  validation_rules : List (String × PyVal) := []
  is_unique : Bool := false
  conditional_logic : PyVal := .dict []
  order : Nat := 0
  visible_to_roles : List String := []
  editable_to_roles : List String := []
  related_model : Option String := Option.none

/-- A `CustomFieldValue` row (models.py lines 409-426): one row per
(strain, definition) with sixteen typed value columns.  Columns carry their
SQL column type; `value_number` (a float column only ever assigned
`float(int)` here) is modelled by the integer it holds, `value_decimal` by
the decimal's string.  Assigning a runtime value of the wrong shape to a
typed column is modelled as a `TypeError`. -/
structure CustomFieldValue where
  strain_id : Nat
  field_definition_id : Nat
  value_text : Option String := Option.none
  value_long_text : Option String := Option.none
  value_number : Option Int := Option.none
  value_integer : Option Int := Option.none
  value_decimal : Option String := Option.none
  value_date : Option Nat := Option.none
  value_boolean : Option Bool := Option.none
  value_choice : Option String := Option.none
  value_single_select : Option String := Option.none
  value_multi_select : List String := []
  value_fk_content_type : Option String := Option.none
  value_fk_object_id : Option Int := Option.none
  value_file : Option String := Option.none
  value_url : Option String := Option.none
  value_email : Option String := Option.none
deriving DecidableEq, Repr

/-- A user as seen by the role-resolution helpers. -/
structure User where
  id : Nat
  is_authenticated : Bool := true
  is_superuser : Bool := false
deriving DecidableEq, Repr

/-- A `DatabaseMembership` row (models.py lines 138-156): role is one of
`owner`/`admin`/`editor`/`viewer`. -/
structure DatabaseMembershipRow where
  user_id : Nat
  research_database_id : Nat
  role : String
deriving DecidableEq, Repr

/-- `_role_for_user(user, research_database)` (dynamic_forms.py lines 9-13):
`None` for anonymous users, else the role of the first membership row for
(user, database), or `None` when none exists. -/
def roleForUser (memberships : List DatabaseMembershipRow) (user : Option User)
    (database : Nat) : Option String :=
  match user with
  | Option.none => Option.none
  | some u =>
      if !u.is_authenticated then Option.none
      else ((memberships.find? fun m =>
        m.user_id == u.id && m.research_database_id == database).map (·.role))

/-- `ResearchDatabase.get_user_role(user)` (models.py lines 107-111): same
lookup over the database's own membership rows. -/
def getUserRole (memberships : List DatabaseMembershipRow) (database : Nat)
    (user : Option User) : Option String :=
  match user with
  | Option.none => Option.none
  | some u =>
      if !u.is_authenticated then Option.none
      else ((memberships.filter (fun m => m.research_database_id == database)
        |>.find? fun m => m.user_id == u.id).map (·.role))

/-- Lift an optional string column to the Python value it yields. -/
def optStr : Option String → PyVal
  | some s => .str s
  | Option.none => .none

/-- Lift an optional integer column. -/
def optInt : Option Int → PyVal
  | some n => .int n
  | Option.none => .none

/-- `CustomFieldValue.display_value` (models.py lines 441-472).  For
FOREIGN_KEY with both columns set the referenced instance is modelled by its
content-type tag and pk (the source fetches it from the database). -/
def displayValue (d : CustomFieldDefinition) (v : CustomFieldValue) : PyVal :=
  match d.field_type with
  | .text => optStr v.value_text
  | .long_text => optStr v.value_long_text
  | .integer => optInt v.value_integer
  | .decimal => optStr v.value_decimal
  | .date => match v.value_date with
      | some day => .date day
      | Option.none => .none
  | .boolean => match v.value_boolean with
      | Option.none => .str ""
      | some b => .str (if b then "Yes" else "No")
  | .single_select => optStr v.value_single_select
  | .multi_select => .str (String.intercalate ", " v.value_multi_select)
  | .foreign_key =>
      match v.value_fk_content_type, v.value_fk_object_id with
      | some tag, some pk => if pk == 0 then .str "" else .obj tag pk
      | _, _ => .str ""
  | .file => optStr v.value_file
  | .url => optStr v.value_url
  | .email => optStr v.value_email

/-! ## `research/dynamic_forms.py`: `build_dynamic_custom_fields` (lines 72-141)

The function receives the database's definitions in queryset order
(`order_by('group__order', 'order', 'id')`) — the ordering itself is done by
the database layer and is taken as the input list's order here.  Widget
construction (lines 90-124) is presentational; what the loop decides per
definition — inclusion, form field name, required flag, disabled flag and
initial value — is recorded in a `FieldEntry`.  The `unique_lookup` closure
built by `_lookup_factory` (lines 47-69, attached at line 139) is never
called anywhere in the repository and is omitted. -/

structure FieldEntry where
  definition : CustomFieldDefinition
  field_name : String
  required : Bool
  editable : Bool
  initial : Option PyVal

/-- Membership of an optional role in a JSON list of role strings
(`role in definition.visible_to_roles`): `None` is never a member of a list
of strings. -/
def roleMem (role : Option String) (roles : List String) : Bool :=
  match role with
  | some r => roles.contains r
  | Option.none => false

/-- The per-definition body of the builder loop: `none` when the definition
is skipped (invisible to the acting role, line 83-84). -/
def buildFieldEntry (role : Option String) (existing : List CustomFieldValue)
    (d : CustomFieldDefinition) : Option FieldEntry :=
  if !d.visible_to_roles.isEmpty && !roleMem role d.visible_to_roles then
    Option.none
  else
    let required := truthy ((dictGet d.validation_rules "required").getD (.bool false))
    let editable := d.editable_to_roles.isEmpty || roleMem role d.editable_to_roles
    let initial :=
      match existing.find? fun v => v.field_definition_id == d.id with
      | some v => some (displayValue d v)
      | Option.none =>
          if truthy (.dict d.default_value) then
            some ((dictGet d.default_value "value").getD .none)
          else Option.none
    some { definition := d
           field_name := "custom_" ++ d.key
           required := required
           editable := editable
           initial := initial }

/-- `build_dynamic_custom_fields(form, database, instance, user)`:
returns the `field_entries` list.  `existingRows` are the instance's
current custom field values (empty for a new record). -/
def buildDynamicCustomFields (database : Option Nat)
    (definitions : List CustomFieldDefinition)
    (memberships : List DatabaseMembershipRow) (user : Option User)
    (existingRows : List CustomFieldValue) : List FieldEntry :=
  match database with
  | Option.none => []
  | some db =>
      let role := roleForUser memberships user db
      definitions.filterMap (buildFieldEntry role existingRows)

/-! ## `research/dynamic_forms.py`: `save_dynamic_custom_values` (lines 144-198) -/

/-- `value in (None, '', [])` (line 149). -/
def isEmptySubmission (v : PyVal) : Bool :=
  pyEq v .none || pyEq v (.str "") || pyEq v (.list [])

/-- `int(value)`: integers pass through, booleans coerce, numeric strings
parse (`ValueError` otherwise), other shapes raise `TypeError`. -/
def intOf : PyVal → Except String Int
  | .int n => .ok n
  | .bool b => .ok (if b then 1 else 0)
  | .str s => match pyIntParse s with
      | some n => .ok n
      | Option.none => .error "ValueError"
  | _ => .error "TypeError"

/-- Store into a string-typed column. -/
def expectStr : PyVal → Except String String
  | .str s => .ok s
  | _ => .error "TypeError"

/-- Store into the date column. -/
def expectDate : PyVal → Except String Nat
  | .date d => .ok d
  | _ => .error "TypeError"

/-- `list(value)` into the multi-select JSON column (a list of strings):
a string iterates into its characters. -/
def listOfStrings : PyVal → Except String (List String)
  | .list xs => xs.mapM expectStr
  | .str s => .ok (s.data.map String.singleton)
  | _ => .error "TypeError"

/-- Lines 154-167: reset the typed columns before writing.  Every column is
cleared except `value_file`, which the source omits; `value_multi_select` is
reset to the empty list, not NULL. -/
def clearColumns (v : CustomFieldValue) : CustomFieldValue :=
  { v with
    value_text := Option.none
    value_long_text := Option.none
    value_number := Option.none
    value_integer := Option.none
    value_decimal := Option.none
    value_date := Option.none
    value_boolean := Option.none
    value_choice := Option.none
    value_single_select := Option.none
    value_multi_select := []
    value_fk_content_type := Option.none
    value_fk_object_id := Option.none
    value_url := Option.none
    value_email := Option.none }

/-- Lines 169-196: write the submitted value into the column(s) selected by
the definition's `field_type`.  INTEGER writes both `value_integer` and
`value_number`; SINGLE_SELECT writes both `value_single_select` and
`value_choice`; FOREIGN_KEY stores the instance's content type and pk (and
writes nothing when the value is falsy). -/
def writeValue (ft : FieldType) (value : PyVal) (row : CustomFieldValue) :
    Except String CustomFieldValue := do
  match ft with
  | .text => return { row with value_text := some (strTrim (pyStr value)) }
  | .long_text => return { row with value_long_text := some (strTrim (pyStr value)) }
  | .integer =>
      let n ← intOf value
      return { row with value_integer := some n, value_number := some n }
  | .decimal => return { row with value_decimal := some (pyStr value) }
  | .date => return { row with value_date := some (← expectDate value) }
  | .boolean => return { row with value_boolean := some (truthy value) }
  | .single_select =>
      let s ← expectStr value
      return { row with value_single_select := some s, value_choice := some s }
  | .multi_select => return { row with value_multi_select := (← listOfStrings value) }
  | .url => return { row with value_url := some (← expectStr value) }
  | .email => return { row with value_email := some (← expectStr value) }
  | .file => return { row with value_file := some (← expectStr value) }
  | .foreign_key =>
      if truthy value then
        match value with
        | .obj tag pk =>
            return { row with value_fk_content_type := some tag
                              value_fk_object_id := some pk }
        | _ => Except.error "AttributeError"
      else
        return row

/-- `CustomFieldValue.objects.get_or_create(strain=…, field_definition=…)`:
the existing row, or a freshly inserted default row. -/
def getOrCreate (rows : List CustomFieldValue) (strain defId : Nat) :
    CustomFieldValue × Bool :=
  match rows.find? fun v => v.strain_id == strain && v.field_definition_id == defId with
  | some v => (v, false)
  | Option.none => ({ strain_id := strain, field_definition_id := defId }, true)

/-- Persist an updated row: replace the matching row in place, or append the
newly created one. -/
def putRow (rows : List CustomFieldValue) (row : CustomFieldValue) (isNew : Bool) :
    List CustomFieldValue :=
  if isNew then rows ++ [row]
  else rows.map fun v =>
    if v.strain_id == row.strain_id && v.field_definition_id == row.field_definition_id
    then row else v

/-- `save_dynamic_custom_values(form, strain, field_entries)` (lines 144-198):
for each entry, an empty submission (`None`/`''`/`[]`) deletes the row for
(strain, definition); otherwise the row is fetched-or-created, all typed
columns except `value_file` are cleared, and the value is written into the
column(s) for the definition's `field_type`.  No uniqueness or
conditional-logic check appears anywhere in the loop. -/
def saveDynamicCustomValues (cleaned : List (String × PyVal)) (strain : Nat) :
    List FieldEntry → List CustomFieldValue → Except String (List CustomFieldValue)
  | [], rows => .ok rows
  | entry :: rest, rows => do
      let value := (dictGet cleaned entry.field_name).getD .none
      if isEmptySubmission value then
        saveDynamicCustomValues cleaned strain rest
          (rows.filter fun v =>
            !(v.strain_id == strain && v.field_definition_id == entry.definition.id))
      else
        let (row, isNew) := getOrCreate rows strain entry.definition.id
        let row' ← writeValue entry.definition.field_type value (clearColumns row)
        saveDynamicCustomValues cleaned strain rest (putRow rows row' isNew)

/-! ## `research/forms.py`: `StrainForm.save_custom_field_values` (lines 174-205)

The legacy save path: per definition, field name `custom_field_<id>`, only
the five legacy columns, and a BOOLEAN exception to the emptiness deletion. -/

/-- Lines 188-192: the legacy path clears only the five legacy columns. -/
def clearLegacyColumns (v : CustomFieldValue) : CustomFieldValue :=
  { v with
    value_text := Option.none
    value_number := Option.none
    value_date := Option.none
    value_boolean := Option.none
    value_choice := Option.none }

/-- `save_custom_field_values(self, strain)`: `NUMBER` and `CHOICE` are the
`integer` and `single_select` enum values (the form path stores them in the
legacy `value_number`/`value_choice` columns; definitions of the remaining
types fall through every branch and produce a row with all five legacy
columns NULL). -/
def saveCustomFieldValuesForm (cleaned : List (String × PyVal)) (strain : Nat) :
    List CustomFieldDefinition → List CustomFieldValue →
      Except String (List CustomFieldValue)
  | [], rows => .ok rows
  | d :: rest, rows => do
      let submitted := (dictGet cleaned ("custom_field_" ++ toString d.id)).getD .none
      let stripped :=
        match d.field_type, submitted with
        | .text, .str s => PyVal.str (strTrim s)
        | _, v => v
      let isEmpty :=
        match d.field_type, submitted with
        | .text, .str s => strTrim s == ""
        | _, v => pyEq v .none || pyEq v (.str "")
      if isEmpty && d.field_type != .boolean then
        saveCustomFieldValuesForm cleaned strain rest
          (rows.filter fun v =>
            !(v.strain_id == strain && v.field_definition_id == d.id))
      else
        let (row, isNew) := getOrCreate rows strain d.id
        let row0 := clearLegacyColumns row
        let row' ← match d.field_type with
          | .text => (expectStr stripped).map fun s => { row0 with value_text := some s }
          | .integer => (intOf stripped).map fun n => { row0 with value_number := some n }
          | .date => (expectDate stripped).map fun day => { row0 with value_date := some day }
          | .boolean => pure { row0 with value_boolean := some (truthy stripped) }
          | .single_select => (expectStr stripped).map fun s => { row0 with value_choice := some s }
          | _ => pure row0
        saveCustomFieldValuesForm cleaned strain rest (putRow rows row' isNew)

/-! ## Helper lemmas -/

@[simp] theorem exceptBind_ok {α β : Type} (a : α) (f : α → Except String β) :
    (Except.ok a : Except String α) >>= f = f a := rfl

@[simp] theorem exceptBind_error {α β : Type} (e : String) (f : α → Except String β) :
    (Except.error e : Except String α) >>= f = Except.error e := rfl

@[simp] theorem exceptPure_eq_ok {α : Type} (a : α) :
    (pure a : Except String α) = Except.ok a := rfl

@[simp] theorem exceptMapM_nil {α β : Type} (f : α → Except String β) :
    List.mapM f ([] : List α) = Except.ok ([] : List β) := rfl

theorem string_append_left_cancel {p a b : String} (h : p ++ a = p ++ b) : a = b := by
  have hd : (p ++ a).data = (p ++ b).data := congrArg String.data h
  simp only [String.data_append] at hd
  exact String.ext (List.append_cancel_left hd)

theorem dictGet_filter_ne (values : List (String × PyVal)) (k k' : String)
    (hne : k' ≠ k) :
    dictGet (values.filter fun p => p.1 != k) k' = dictGet values k' := by
  induction values with
  | nil => rfl
  | cons p rest ih =>
      by_cases hp : p.1 = k
      · have h1 : (k == k') = false := by
          simp only [beq_eq_false_iff_ne]
          exact Ne.symm hne
        simp [List.filter_cons, dictGet, List.find?_cons, hp, h1, hne] at ih ⊢
        exact ih
      · by_cases hk2 : p.1 = k'
        · simp [List.filter_cons, dictGet, List.find?_cons, hp, hk2, hne]
        · simp [List.filter_cons, dictGet, List.find?_cons, hp, hk2, hne] at ih ⊢
          exact ih

theorem dictGet_filter_self (values : List (String × PyVal)) (k : String) :
    dictGet (values.filter fun p => p.1 != k) k = Option.none := by
  rw [dictGet, List.find?_eq_none.mpr]
  · rfl
  · intro p hp
    have := List.of_mem_filter hp
    simpa using this

/-! ## Claim theorems: role resolution and the form builder -/

/-- C3: for every acting role and every definition whose `visible_to_roles`
is non-empty and excludes that role, the built field set omits the
definition entirely — its `custom_<key>` name never appears among the
produced entries, regardless of `editable_to_roles`. -/
theorem c3_invisible_definition_never_built (database : Nat)
    (definitions : List CustomFieldDefinition)
    (memberships : List DatabaseMembershipRow) (user : Option User)
    (existingRows : List CustomFieldValue) (d : CustomFieldDefinition)
    (hvis : d.visible_to_roles ≠ [])
    (hrole : roleMem (roleForUser memberships user database) d.visible_to_roles = false)
    (hkeys : (definitions.map (·.key)).Nodup) (hd : d ∈ definitions) :
    "custom_" ++ d.key ∉
      (buildDynamicCustomFields (some database) definitions memberships user
        existingRows).map (·.field_name) := by
  intro hmem
  rw [buildDynamicCustomFields] at hmem
  simp only [List.map_filterMap, List.mem_filterMap] at hmem
  obtain ⟨d', hd', hbuild⟩ := hmem
  rw [buildFieldEntry] at hbuild
  by_cases hskip : (!d'.visible_to_roles.isEmpty &&
      !roleMem (roleForUser memberships user database) d'.visible_to_roles) = true
  · rw [if_pos hskip] at hbuild
    exact absurd hbuild (by simp)
  · rw [if_neg hskip] at hbuild
    simp only [Option.map_some', Option.some.injEq] at hbuild
    have hkey : d'.key = d.key := string_append_left_cancel hbuild
    have hdd : d' = d := List.inj_on_of_nodup_map hkeys hd' hd hkey
    subst hdd
    apply hskip
    simp only [Bool.and_eq_true, Bool.not_eq_true']
    exact ⟨by simpa using hvis, by simp [hrole]⟩

/-- C3 witness: a TEXT definition visible only to editors is absent from the
entries built for a viewer. -/
theorem c3_invisible_definition_never_built_witness :
    "custom_" ++ "editor_only" ∉
      (buildDynamicCustomFields (some 1)
        [{ id := 4, key := "editor_only", label := "Editor Only",
           field_type := .text, visible_to_roles := ["editor"],
           editable_to_roles := ["editor"] }]
        [{ user_id := 5, research_database_id := 1, role := "viewer" }]
        (some { id := 5 }) []).map (·.field_name) :=
  c3_invisible_definition_never_built 1 _ _ _ _ _
    (by decide) (by decide) (by decide) (List.mem_singleton.mpr rfl)

/-- C9 counterexample: an authenticated global superuser with no membership
row resolves to no role at all — not to `owner` — through both
`_role_for_user` and `ResearchDatabase.get_user_role`. -/
theorem c9_counterexample :
    roleForUser [] (some { id := 1, is_authenticated := true, is_superuser := true }) 1 ≠
      some "owner" ∧
    getUserRole [] 1 (some { id := 1, is_authenticated := true, is_superuser := true }) ≠
      some "owner" := by
  decide

/-- C9 amended: role resolution ignores `is_superuser` entirely — a global
superuser with no membership row for the database resolves to `None` (no
role), under both `_role_for_user` and `ResearchDatabase.get_user_role`. -/
theorem c9_superuser_without_membership_gets_none
    (memberships : List DatabaseMembershipRow) (u : User) (db : Nat)
    (hsu : u.is_superuser = true)
    (hnm : ∀ m ∈ memberships, m.user_id ≠ u.id ∨ m.research_database_id ≠ db) :
    roleForUser memberships (some u) db = Option.none ∧
    getUserRole memberships db (some u) = Option.none := by
  constructor
  · rw [roleForUser]
    cases hauth : u.is_authenticated with
    | false => simp
    | true =>
        simp only [Bool.not_true, Bool.false_eq_true, if_false]
        rw [List.find?_eq_none.mpr, Option.map_none']
        intro m hm
        rcases hnm m hm with h | h <;> simp [h]
  · rw [getUserRole]
    cases hauth : u.is_authenticated with
    | false => simp
    | true =>
        simp only [Bool.not_true, Bool.false_eq_true, if_false]
        rw [List.find?_eq_none.mpr, Option.map_none']
        intro m hm
        have hm' := List.of_mem_filter hm
        have hmem := List.mem_of_mem_filter hm
        rcases hnm m hmem with h | h
        · simp [h]
        · simp_all

/-- C9 witness: a superuser who is not a member of database 1 (another user
is) resolves to no role. -/
theorem c9_superuser_without_membership_gets_none_witness :
    roleForUser [{ user_id := 2, research_database_id := 1, role := "owner" }]
      (some { id := 1, is_authenticated := true, is_superuser := true }) 1 = Option.none ∧
    getUserRole [{ user_id := 2, research_database_id := 1, role := "owner" }] 1
      (some { id := 1, is_authenticated := true, is_superuser := true }) = Option.none :=
  c9_superuser_without_membership_gets_none _ _ _ rfl
    (by intro m hm; simp only [List.mem_singleton] at hm; subst hm; left; decide)

/-! ## Claim theorems: the conditional-logic evaluator -/

/-- C8 counterexample: fail-open does not hold for malformed trees.  A truthy
non-dict tree (`"AND"`, as a JSON string) raises `AttributeError` at
`logic.get('operator')` instead of returning `True`, and a dict tree with an
unknown operator and no conditions evaluates to `False` (unknown operators
combine with `any`, not `all`). -/
theorem c8_counterexample :
    evaluateConditionLogic (.str "AND") [] = .error "AttributeError" ∧
    evaluateConditionLogic (.dict [("operator", .str "XOR")]) [] = .ok false := by
  constructor <;> rfl

/-- C8 amended: only an *absent* (falsy) tree fails open to `True`; a truthy
non-dict tree raises `AttributeError`, and a dict tree whose operator is a
non-empty string other than (case-insensitively) `AND` is combined as OR, so
with no conditions it evaluates to `False`. -/
theorem c8_fail_open_only_for_absent_trees :
    (∀ logic values, truthy logic = false →
        evaluateConditionLogic logic values = .ok true) ∧
    (∀ s values, s ≠ "" →
        evaluateConditionLogic (.str s) values = .error "AttributeError") ∧
    (∀ op values, op ≠ "" → strUpper op ≠ "AND" →
        evaluateConditionLogic (.dict [("operator", .str op)]) values = .ok false) := by
  refine ⟨?_, ?_, ?_⟩
  · intro logic values h
    simp [evaluateConditionLogic, h]
  · intro s values h
    simp [evaluateConditionLogic, truthy, h]
  · intro op values hne hand
    simp [evaluateConditionLogic, truthy, hne, dictGet, List.find?, pyOr, pyUpper,
      pyIterate, hand, List.mapM.loop]

/-- C8 witness: the three amended facts at concrete inputs (`0` is falsy,
`"oops"` is a truthy non-dict, `"or"` uppercases to `"OR"`). -/
theorem c8_fail_open_only_for_absent_trees_witness :
    evaluateConditionLogic (.int 0) [("x", .int 1)] = .ok true ∧
    evaluateConditionLogic (.str "oops") [("x", .int 1)] = .error "AttributeError" ∧
    evaluateConditionLogic (.dict [("operator", .str "or")]) [("x", .int 1)] = .ok false :=
  ⟨c8_fail_open_only_for_absent_trees.1 _ _ (by decide),
   c8_fail_open_only_for_absent_trees.2.1 "oops" _ (by decide),
   c8_fail_open_only_for_absent_trees.2.2 "or" _ (by decide) (by decide)⟩

/-- C10: when the submitted values map the bare field key to a falsy value,
the condition's `actual` is taken from the `custom_<field>` key instead
(`None` when that key is absent): the comparison value is exactly the custom
fallback, and the condition evaluates as if the bare key were not submitted
at all. -/
theorem c10_falsy_bare_key_uses_custom_fallback
    (values : List (String × PyVal)) (k : String) (v : PyVal)
    (cond : List (String × PyVal))
    (hget : dictGet values k = some v) (hfalsy : truthy v = false)
    (hfield : dictGet cond "field" = some (.str k)) :
    conditionActual values (.str k) =
      .ok (pkAttr ((dictGet values ("custom_" ++ k)).getD .none)) ∧
    evalCondition values (.dict cond) =
      evalCondition (values.filter fun p => p.1 != k) (.dict cond) := by
  have hlen : ("custom_" ++ k) ≠ k := by
    intro h
    have hd := congrArg String.data h
    rw [String.data_append] at hd
    have hl := congrArg List.length hd
    rw [List.length_append] at hl
    have h7 : "custom_".data.length = 7 := rfl
    omega
  have hca : conditionActual values (.str k) =
      .ok (pkAttr ((dictGet values ("custom_" ++ k)).getD .none)) := by
    simp only [conditionActual, valuesGet, hget, exceptBind_ok, Option.getD_some]
    simp only [pyStr]
    simp only [pyOr, hfalsy, Bool.false_eq_true, if_false]
    rfl
  have hbare := dictGet_filter_self values k
  have hfb := dictGet_filter_ne values k ("custom_" ++ k) hlen
  have hca2 : conditionActual (values.filter fun p => p.1 != k) (.str k) =
      .ok (pkAttr ((dictGet values ("custom_" ++ k)).getD .none)) := by
    simp only [conditionActual, valuesGet, hbare, exceptBind_ok, Option.getD_none]
    simp only [pyStr, hfb]
    simp only [pyOr, truthy]
    rfl
  refine ⟨hca, ?_⟩
  simp only [evalCondition, hfield, Option.getD_some, exceptPure_eq_ok, exceptBind_ok]
  rw [hca, hca2]

/-- C10 witness: with `flag` submitted as `False` and `custom_flag` as `2`,
the comparison value is `2` and the condition behaves as if `flag` were
absent. -/
theorem c10_falsy_bare_key_uses_custom_fallback_witness :
    conditionActual [("flag", .bool false), ("custom_flag", .int 2)] (.str "flag") =
      .ok (pkAttr ((dictGet [("flag", .bool false), ("custom_flag", .int 2)]
        ("custom_" ++ "flag")).getD .none)) ∧
    evalCondition [("flag", .bool false), ("custom_flag", .int 2)]
        (.dict [("field", .str "flag"), ("operator", .str "equals"), ("value", .int 2)]) =
      evalCondition ([("flag", .bool false), ("custom_flag", .int 2)].filter
          fun p => p.1 != "flag")
        (.dict [("field", .str "flag"), ("operator", .str "equals"), ("value", .int 2)]) :=
  c10_falsy_bare_key_uses_custom_fallback _ "flag" (.bool false) _ rfl rfl rfl

/-! ## Claim theorems: the save paths -/

/-- A single-entry save with a non-empty submission and no pre-existing row
appends the written row: shared stepping lemma for the save-path claims. -/
theorem saveDynamic_singleton (cleaned : List (String × PyVal)) (strain : Nat)
    (e : FieldEntry) (rows : List CustomFieldValue) (value : PyVal)
    (row' : CustomFieldValue)
    (hget : (dictGet cleaned e.field_name).getD .none = value)
    (hne : isEmptySubmission value = false)
    (hfresh : rows.find? (fun r =>
      r.strain_id == strain && r.field_definition_id == e.definition.id) = Option.none)
    (hw : writeValue e.definition.field_type value
      (clearColumns { strain_id := strain, field_definition_id := e.definition.id }) =
      .ok row') :
    saveDynamicCustomValues cleaned strain [e] rows = .ok (rows ++ [row']) := by
  rw [saveDynamicCustomValues, hget, if_neg (by simp [hne])]
  rw [getOrCreate, hfresh]
  simp only [hw, exceptBind_ok]
  rw [putRow, if_pos rfl]
  rfl

/-- Concrete fixtures for the save-path claims: an `is_unique` TEXT
definition and its form entry, plus a stored value `"dup"` for strain 1. -/
def codeDef : CustomFieldDefinition :=
  { id := 9, key := "code", label := "Code", field_type := .text, is_unique := true }

def codeEntry : FieldEntry :=
  { definition := codeDef, field_name := "custom_code", required := false,
    editable := true, initial := Option.none }

def dupRow1 : CustomFieldValue :=
  { strain_id := 1, field_definition_id := 9, value_text := some "dup" }

def dupRow2 : CustomFieldValue :=
  { strain_id := 2, field_definition_id := 9, value_text := some "dup" }

/-- C1 counterexample: with an `is_unique` TEXT definition whose value
`"dup"` is already stored for strain 1, saving `"dup"` for strain 2 does not
raise a validation error in either save path — both return successfully and
persist the duplicate. -/
theorem c1_counterexample :
    saveDynamicCustomValues [("custom_code", .str "dup")] 2 [codeEntry] [dupRow1] =
      .ok [dupRow1, dupRow2] ∧
    saveCustomFieldValuesForm [("custom_field_9", .str "dup")] 2 [codeDef] [dupRow1] =
      .ok [dupRow1, dupRow2] := by
  constructor <;> rfl

/-- C1 amended: neither save path checks `is_unique` — saving a value equal
to another record's stored value for an `is_unique` definition succeeds with
no validation error, and afterwards both records hold the duplicate value
(in particular a record edited to the value it already had cannot
collide, because nothing collides). -/
theorem c1_save_performs_no_uniqueness_check
    (rows : List CustomFieldValue) (strainA strainB : Nat)
    (d : CustomFieldDefinition) (v : String)
    (hft : d.field_type = .text) (hu : d.is_unique = true)
    (hA : { strain_id := strainA, field_definition_id := d.id,
              value_text := some (strTrim v) : CustomFieldValue } ∈ rows)
    (hB : rows.find? (fun r =>
      r.strain_id == strainB && r.field_definition_id == d.id) = Option.none)
    (hv : isEmptySubmission (.str v) = false) :
    saveDynamicCustomValues [("custom_" ++ d.key, .str v)] strainB
      [{ definition := d, field_name := "custom_" ++ d.key, required := false,
          editable := true, initial := Option.none }] rows =
      .ok (rows ++ [{ strain_id := strainB, field_definition_id := d.id,
                        value_text := some (strTrim v) }]) ∧
    { strain_id := strainA, field_definition_id := d.id,
        value_text := some (strTrim v) : CustomFieldValue } ∈
      (rows ++ [{ strain_id := strainB, field_definition_id := d.id,
                    value_text := some (strTrim v) : CustomFieldValue }]) := by
  refine ⟨?_, List.mem_append_left _ hA⟩
  refine saveDynamic_singleton _ _ _ _ (.str v) _ ?_ hv hB ?_
  · simp [dictGet, List.find?_cons]
  · rw [hft]; rfl

/-- C1 witness: the amended fact at strain 1 already holding `"dup"` and
strain 2 saving `"dup"` for the same `is_unique` definition. -/
theorem c1_save_performs_no_uniqueness_check_witness :
    saveDynamicCustomValues [("custom_" ++ "code", .str "dup")] 2
      [{ definition := codeDef, field_name := "custom_" ++ "code", required := false,
          editable := true, initial := Option.none }]
      [{ strain_id := 1, field_definition_id := 9,
           value_text := some (strTrim "dup") }] =
      .ok ([{ strain_id := 1, field_definition_id := 9,
                value_text := some (strTrim "dup") }] ++
        [{ strain_id := 2, field_definition_id := 9,
             value_text := some (strTrim "dup") }]) ∧
    { strain_id := 1, field_definition_id := 9,
        value_text := some (strTrim "dup") : CustomFieldValue } ∈
      ([{ strain_id := 1, field_definition_id := 9,
            value_text := some (strTrim "dup") }] ++
        [{ strain_id := 2, field_definition_id := 9,
             value_text := some (strTrim "dup") : CustomFieldValue }]) :=
  c1_save_performs_no_uniqueness_check _ 1 2 codeDef "dup" rfl rfl
    (List.mem_singleton.mpr rfl) rfl rfl

/-- The conditional-logic tree the C2 fixtures use: visible only when
`marker` equals `"AMP"`. -/
def markerLogic : PyVal :=
  .dict [("operator", .str "AND"),
         ("conditions", .list [.dict [("field", .str "marker"),
           ("operator", .str "equals"), ("value", .str "AMP")]])]

/-- An INTEGER definition gated by [markerLogic]. -/
def countDef : CustomFieldDefinition :=
  { id := 2, key := "count", label := "Count", field_type := .integer,
    conditional_logic := markerLogic }

def countEntry : FieldEntry :=
  { definition := countDef, field_name := "custom_count", required := false,
    editable := true, initial := Option.none }

/-- C2 counterexample: against the submitted value set the tree evaluates to
`False` (the marker is `"KAN"`), yet the save still writes the submitted
value `3`, replacing the prior stored value `7` — the field is saved and its
prior value is not left untouched. -/
theorem c2_counterexample :
    evaluateConditionLogic markerLogic
      [("custom_marker", .str "KAN"), ("custom_count", .int 3)] = .ok false ∧
    saveDynamicCustomValues
      [("custom_marker", .str "KAN"), ("custom_count", .int 3)] 1 [countEntry]
      [{ strain_id := 1, field_definition_id := 2, value_integer := some 7,
           value_number := some 7 }] =
      .ok [{ strain_id := 1, field_definition_id := 2, value_integer := some 3,
               value_number := some 3 }] := by
  constructor <;> rfl

/-- C2 amended: `save_dynamic_custom_values` never consults
`conditional_logic` — replacing every entry's tree by any other value leaves
the save's result unchanged, and in particular a non-empty submitted value
is written even when the tree evaluates to `False` against the full
submitted value set (the prior value is overwritten, not left untouched). -/
theorem c2_save_ignores_conditional_logic :
    (∀ (cleaned : List (String × PyVal)) (strain : Nat) (entries : List FieldEntry)
        (rows : List CustomFieldValue) (newLogic : PyVal),
      saveDynamicCustomValues cleaned strain
        (entries.map fun e =>
          { e with definition := { e.definition with conditional_logic := newLogic } })
        rows =
      saveDynamicCustomValues cleaned strain entries rows) ∧
    (∀ (cleaned : List (String × PyVal)) (strain : Nat) (e : FieldEntry)
        (rows : List CustomFieldValue) (value : PyVal) (row' : CustomFieldValue),
      evaluateConditionLogic e.definition.conditional_logic cleaned = .ok false →
      (dictGet cleaned e.field_name).getD .none = value →
      isEmptySubmission value = false →
      rows.find? (fun r =>
        r.strain_id == strain && r.field_definition_id == e.definition.id) = Option.none →
      writeValue e.definition.field_type value
        (clearColumns { strain_id := strain, field_definition_id := e.definition.id }) =
        .ok row' →
      saveDynamicCustomValues cleaned strain [e] rows = .ok (rows ++ [row'])) := by
  constructor
  · intro cleaned strain entries rows newLogic
    induction entries generalizing rows with
    | nil => rfl
    | cons e rest ih =>
        simp only [List.map_cons, saveDynamicCustomValues]
        by_cases hempty :
            isEmptySubmission ((dictGet cleaned e.field_name).getD .none) = true
        · rw [if_pos hempty, if_pos hempty]
          exact ih _
        · rw [if_neg hempty, if_neg hempty]
          cases hw : writeValue e.definition.field_type
              ((dictGet cleaned e.field_name).getD .none)
              (clearColumns (getOrCreate rows strain e.definition.id).1) with
          | error msg => simp [getOrCreate, hw]
          | ok row' => simp only [getOrCreate, hw, exceptBind_ok]; exact ih _
  · intro cleaned strain e rows value row' hlogic hget hne hfresh hw
    exact saveDynamic_singleton cleaned strain e rows value row' hget hne hfresh hw

/-- C2 witness: the amended facts at the concrete C2 fixtures. -/
theorem c2_save_ignores_conditional_logic_witness :
    saveDynamicCustomValues [("custom_count", .int 3)] 1
      ([countEntry].map fun e =>
        { e with definition := { e.definition with conditional_logic := PyVal.none } })
      [] =
      saveDynamicCustomValues [("custom_count", .int 3)] 1 [countEntry] [] ∧
    saveDynamicCustomValues
      [("custom_marker", .str "KAN"), ("custom_count", .int 3)] 1 [countEntry] [] =
      .ok ([] ++ [{ strain_id := 1, field_definition_id := 2,
                      value_integer := some 3, value_number := some 3 }]) :=
  ⟨c2_save_ignores_conditional_logic.1 _ 1 [countEntry] [] PyVal.none,
   c2_save_ignores_conditional_logic.2 _ 1 countEntry [] (.int 3) _ rfl rfl rfl rfl rfl⟩

/-! ## C6: which typed columns a save populates -/

/-- Tags for the sixteen typed value columns of `CustomFieldValue` (the two
foreign-key columns count separately). -/
inductive ValueColumn where
  | text | long_text | number | integer | decimal | date | boolean | choice
  | single_select | multi_select | fk_content_type | fk_object_id | file
  | url | email
deriving DecidableEq, Repr

/-- The columns of a row that are populated (non-NULL; the multi-select JSON
list counts as populated when non-empty). -/
def populatedColumns (v : CustomFieldValue) : List ValueColumn :=
  [(ValueColumn.text, v.value_text.isSome),
   (ValueColumn.long_text, v.value_long_text.isSome),
   (ValueColumn.number, v.value_number.isSome),
   (ValueColumn.integer, v.value_integer.isSome),
   (ValueColumn.decimal, v.value_decimal.isSome),
   (ValueColumn.date, v.value_date.isSome),
   (ValueColumn.boolean, v.value_boolean.isSome),
   (ValueColumn.choice, v.value_choice.isSome),
   (ValueColumn.single_select, v.value_single_select.isSome),
   (ValueColumn.multi_select, !v.value_multi_select.isEmpty),
   (ValueColumn.fk_content_type, v.value_fk_content_type.isSome),
   (ValueColumn.fk_object_id, v.value_fk_object_id.isSome),
   (ValueColumn.file, v.value_file.isSome),
   (ValueColumn.url, v.value_url.isSome),
   (ValueColumn.email, v.value_email.isSome)].filterMap
    fun p => if p.2 then some p.1 else Option.none

/-- The columns `save_dynamic_custom_values` actually populates for each
field type. -/
def expectedColumns : FieldType → List ValueColumn
  | .text => [.text]
  | .long_text => [.long_text]
  | .integer => [.number, .integer]
  | .decimal => [.decimal]
  | .date => [.date]
  | .boolean => [.boolean]
  | .single_select => [.choice, .single_select]
  | .multi_select => [.multi_select]
  | .foreign_key => [.fk_content_type, .fk_object_id]
  | .file => [.file]
  | .url => [.url]
  | .email => [.email]

/-- The submitted value has the runtime shape the form layer delivers for
the field type (so the typed-column stores succeed). -/
def wellTyped : FieldType → PyVal → Bool
  | .text, _ => true
  | .long_text, _ => true
  | .integer, v => match intOf v with | .ok _ => true | .error _ => false
  | .decimal, _ => true
  | .date, .date _ => true
  | .date, _ => false
  | .boolean, _ => true
  | .single_select, .str _ => true
  | .single_select, _ => false
  | .multi_select, .list xs =>
      xs.all fun x => match x with | .str _ => true | _ => false
  | .multi_select, .str _ => true
  | .multi_select, _ => false
  | .foreign_key, .obj _ _ => true
  | .foreign_key, _ => false
  | .file, .str _ => true
  | .file, _ => false
  | .url, .str _ => true
  | .url, _ => false
  | .email, .str _ => true
  | .email, _ => false

theorem string_ne_empty_data_ne_nil {s : String} (h : s ≠ "") : s.data ≠ [] := by
  intro hd
  apply h
  cases s
  simp_all

theorem mapM_expectStr_of_all_str (xs : List PyVal)
    (h : (xs.all fun x => match x with | .str _ => true | _ => false) = true) :
    ∃ ls, xs.mapM expectStr = Except.ok ls ∧ ls.length = xs.length := by
  induction xs with
  | nil => exact ⟨[], rfl, rfl⟩
  | cons x rest ih =>
      simp only [List.all_cons, Bool.and_eq_true] at h
      obtain ⟨ls, hls, hlen⟩ := ih h.2
      cases x with
      | str s0 =>
          refine ⟨s0 :: ls, ?_, by simp [hlen]⟩
          have hloop : List.mapM.loop expectStr rest [] = Except.ok ls := hls
          rw [List.mapM_cons]
          simp [expectStr, hloop]
      | none => exact absurd h.1 (by simp)
      | bool b => exact absurd h.1 (by simp)
      | int n => exact absurd h.1 (by simp)
      | date d => exact absurd h.1 (by simp)
      | list ys => exact absurd h.1 (by simp)
      | dict ys => exact absurd h.1 (by simp)
      | obj t pk => exact absurd h.1 (by simp)

/-- The written row of a non-empty, well-shaped submission over a cleared
fresh row: it exists, keeps the row's keys, and populates exactly the
expected columns. -/
theorem writeValue_profile (ft : FieldType) (value : PyVal) (s dId : Nat)
    (hwt : wellTyped ft value = true) (hne : isEmptySubmission value = false) :
    ∃ row', writeValue ft value { strain_id := s, field_definition_id := dId } =
        .ok row' ∧
      row'.strain_id = s ∧ row'.field_definition_id = dId ∧
      populatedColumns row' = expectedColumns ft := by
  cases ft with
  | text =>
      exact ⟨{ strain_id := s, field_definition_id := dId,
                 value_text := some (strTrim (pyStr value)) }, rfl, rfl, rfl, rfl⟩
  | long_text =>
      exact ⟨{ strain_id := s, field_definition_id := dId,
                 value_long_text := some (strTrim (pyStr value)) }, rfl, rfl, rfl, rfl⟩
  | integer =>
      rw [wellTyped] at hwt
      cases hio : intOf value with
      | error msg => rw [hio] at hwt; exact absurd hwt (by simp)
      | ok n =>
          refine ⟨{ strain_id := s, field_definition_id := dId,
                      value_integer := some n, value_number := some n }, ?_, rfl, rfl, rfl⟩
          simp only [writeValue, hio, exceptBind_ok]
          rfl
  | decimal =>
      exact ⟨{ strain_id := s, field_definition_id := dId,
                 value_decimal := some (pyStr value) }, rfl, rfl, rfl, rfl⟩
  | date =>
      cases value <;> simp only [wellTyped, Bool.false_eq_true] at hwt
      case date d =>
        exact ⟨{ strain_id := s, field_definition_id := dId,
                   value_date := some d }, rfl, rfl, rfl, rfl⟩
  | boolean =>
      exact ⟨{ strain_id := s, field_definition_id := dId,
                 value_boolean := some (truthy value) }, rfl, rfl, rfl, rfl⟩
  | single_select =>
      cases value <;> simp only [wellTyped, Bool.false_eq_true] at hwt
      case str s0 =>
        exact ⟨{ strain_id := s, field_definition_id := dId,
                   value_single_select := some s0, value_choice := some s0 },
               rfl, rfl, rfl, rfl⟩
  | multi_select =>
      cases value with
      | list xs =>
          have hxs : xs ≠ [] := by
            intro hx
            subst hx
            exact absurd hne (by simp [isEmptySubmission, pyEq, pyEqList])
          obtain ⟨ls, hls, hlen⟩ := mapM_expectStr_of_all_str xs hwt
          have hls' : ls.isEmpty = false := by
            cases ls with
            | nil => exact absurd (List.length_eq_zero.mp hlen.symm) hxs
            | cons a as => rfl
          refine ⟨{ strain_id := s, field_definition_id := dId,
                      value_multi_select := ls }, ?_, rfl, rfl, ?_⟩
          · simp only [writeValue, listOfStrings, hls, exceptBind_ok]
            rfl
          · simp [populatedColumns, expectedColumns, hls']
      | str str0 =>
          have hs : str0 ≠ "" := by
            intro h0
            subst h0
            exact absurd hne (by simp [isEmptySubmission, pyEq])
          have hchars : (str0.data.map String.singleton).isEmpty = false := by
            cases hc : str0.data with
            | nil => exact absurd (by cases str0; simp_all) hs
            | cons c cs => simp [hc]
          refine ⟨{ strain_id := s, field_definition_id := dId,
                      value_multi_select := str0.data.map String.singleton },
                  rfl, rfl, rfl, ?_⟩
          simp [populatedColumns, expectedColumns, hchars]
      | none => exact absurd hwt (by simp [wellTyped])
      | bool b => exact absurd hwt (by simp [wellTyped])
      | int n => exact absurd hwt (by simp [wellTyped])
      | date d => exact absurd hwt (by simp [wellTyped])
      | dict xs => exact absurd hwt (by simp [wellTyped])
      | obj t pk => exact absurd hwt (by simp [wellTyped])
  | foreign_key =>
      cases value <;> simp only [wellTyped, Bool.false_eq_true] at hwt
      case obj tag pk =>
        exact ⟨{ strain_id := s, field_definition_id := dId,
                   value_fk_content_type := some tag, value_fk_object_id := some pk },
               rfl, rfl, rfl, rfl⟩
  | file =>
      cases value <;> simp only [wellTyped, Bool.false_eq_true] at hwt
      case str s0 =>
        exact ⟨{ strain_id := s, field_definition_id := dId,
                   value_file := some s0 }, rfl, rfl, rfl, rfl⟩
  | url =>
      cases value <;> simp only [wellTyped, Bool.false_eq_true] at hwt
      case str s0 =>
        exact ⟨{ strain_id := s, field_definition_id := dId,
                   value_url := some s0 }, rfl, rfl, rfl, rfl⟩
  | email =>
      cases value <;> simp only [wellTyped, Bool.false_eq_true] at hwt
      case str s0 =>
        exact ⟨{ strain_id := s, field_definition_id := dId,
                   value_email := some s0 }, rfl, rfl, rfl, rfl⟩

theorem clearColumns_fresh (s d : Nat) :
    clearColumns { strain_id := s, field_definition_id := d } =
      { strain_id := s, field_definition_id := d } := rfl

theorem clearColumns_eq_fresh (r : CustomFieldValue) (h : r.value_file = Option.none) :
    clearColumns r = { strain_id := r.strain_id,
                       field_definition_id := r.field_definition_id } := by
  cases r
  simp_all [clearColumns]

/-- A SINGLE_SELECT fixture for the C6 counterexample. -/
def colorDef : CustomFieldDefinition :=
  { id := 8, key := "color", label := "Color", field_type := .single_select }

def colorEntry : FieldEntry :=
  { definition := colorDef, field_name := "custom_color", required := false,
    editable := true, initial := Option.none }

/-- C6 counterexample: saving `5` for an INTEGER definition leaves the row
with the legacy float column `value_number` populated as well (`some 5`) —
not NULL as the claim requires of every column other than `value_integer`;
likewise a SINGLE_SELECT save populates the legacy `value_choice` column. -/
theorem c6_counterexample :
    (saveDynamicCustomValues [("custom_count", .int 5)] 1 [countEntry] []).map
        (fun rows => rows.map fun r => r.value_number) = .ok [some 5] ∧
    (saveDynamicCustomValues [("custom_color", .str "red")] 1 [colorEntry] []).map
        (fun rows => rows.map fun r => r.value_choice) = .ok [some "red"] := by
  constructor <;> rfl

/-- C6 amended: after a successful save of a non-empty, well-shaped value,
the row for (record, definition) populates exactly the columns matching the
definition's `field_type` — a single column for most types, but INTEGER also
mirrors into the legacy `value_number` column, SINGLE_SELECT mirrors into
the legacy `value_choice` column, and FOREIGN_KEY occupies its two
polymorphic-reference columns; all other columns are null (the multi-select
column is reset to an empty list rather than NULL, and the `value_file`
column — which the clearing step skips — stays null provided it was null
before the save). -/
theorem c6_exactly_matching_columns_after_save
    (cleaned : List (String × PyVal)) (strain : Nat) (e : FieldEntry)
    (rows : List CustomFieldValue) (value : PyVal)
    (hget : (dictGet cleaned e.field_name).getD .none = value)
    (hne : isEmptySubmission value = false)
    (hwt : wellTyped e.definition.field_type value = true)
    (hfile : ∀ r ∈ rows, r.strain_id = strain →
      r.field_definition_id = e.definition.id → r.value_file = Option.none) :
    ∃ rows', saveDynamicCustomValues cleaned strain [e] rows = .ok rows' ∧
      ∀ r ∈ rows', r.strain_id = strain → r.field_definition_id = e.definition.id →
        populatedColumns r = expectedColumns e.definition.field_type := by
  obtain ⟨row', hw, hs, hd, hprof⟩ :=
    writeValue_profile e.definition.field_type value strain e.definition.id hwt hne
  cases hfind : rows.find? (fun r =>
      r.strain_id == strain && r.field_definition_id == e.definition.id) with
  | none =>
      refine ⟨rows ++ [row'], ?_, ?_⟩
      · rw [saveDynamicCustomValues, hget, if_neg (by simp [hne]), getOrCreate, hfind]
        simp only [clearColumns_fresh, hw, exceptBind_ok, putRow, if_pos]
        rfl
      · intro r hr hrs hrd
        rcases List.mem_append.mp hr with hr | hr
        · have := List.find?_eq_none.mp hfind r hr
          simp [hrs, hrd] at this
        · simp only [List.mem_singleton] at hr
          subst hr
          exact hprof
  | some r0 =>
      have hmem := List.mem_of_find?_eq_some hfind
      have hpred := List.find?_some hfind
      simp only [Bool.and_eq_true, beq_iff_eq] at hpred
      have hfile0 := hfile r0 hmem hpred.1 hpred.2
      have hclear : clearColumns r0 =
          { strain_id := strain, field_definition_id := e.definition.id } := by
        rw [clearColumns_eq_fresh r0 hfile0, hpred.1, hpred.2]
      refine ⟨putRow rows row' false, ?_, ?_⟩
      · rw [saveDynamicCustomValues, hget, if_neg (by simp [hne]), getOrCreate, hfind]
        simp only [hclear, hw, exceptBind_ok]
        rfl
      · intro r hr hrs hrd
        rw [putRow, if_neg (by simp)] at hr
        obtain ⟨v, hv, hveq⟩ := List.mem_map.mp hr
        by_cases hmatch : (v.strain_id == row'.strain_id &&
            v.field_definition_id == row'.field_definition_id) = true
        · rw [if_pos hmatch] at hveq
          subst hveq
          exact hprof
        · rw [if_neg hmatch] at hveq
          subst hveq
          exact absurd (by simp [hs, hd, hrs, hrd]) hmatch

/-- C6 witness: the amended fact for the INTEGER fixture on an empty store. -/
theorem c6_exactly_matching_columns_after_save_witness :
    ∃ rows', saveDynamicCustomValues [("custom_count", .int 5)] 1 [countEntry] [] =
        .ok rows' ∧
      ∀ r ∈ rows', r.strain_id = 1 → r.field_definition_id = countEntry.definition.id →
        populatedColumns r = expectedColumns countEntry.definition.field_type :=
  c6_exactly_matching_columns_after_save _ 1 countEntry [] (.int 5) rfl rfl rfl
    (fun r hr => absurd hr (List.not_mem_nil r))

/-! ## `research/import_utils.py`: the CSV import reconciler

Rows arrive as string-to-string dicts (`build_mapped_rows` strips every
cell).  The store the importer touches is modelled by `ImportState`; each
row runs inside a nested transaction, so an exception restores the
pre-row state (`except Exception` at line 238 catches it and counts a
skip). -/

structure OrganismRow where
  id : Nat
  research_database_id : Nat
  name : String
deriving DecidableEq, Repr

structure PlasmidRow where
  id : Nat
  research_database_id : Nat
  name : String
  resistance_marker : String := ""
  notes : String := ""
deriving DecidableEq, Repr

/-- A `Strain` row as the importer would create it.  `organism` and
`location` hold what was assigned to those ForeignKey fields. -/
structure ImportStrainRow where
  id : Nat
  research_database_id : Nat
  strain_id : String
  name : String
  organism : PyVal
  genotype : String
  selective_marker : String
  comments : String
  location : PyVal
  created_by : Nat

structure ImportAuditRow where
  database_id : Nat
  user_id : Nat
  action : String
  object_type : String
  object_id : Nat
  metadata_organism : String
deriving DecidableEq, Repr

structure ImportState where
  organisms : List OrganismRow := []
  plasmids : List PlasmidRow := []
  strains : List ImportStrainRow := []
  strainPlasmids : List (Nat × Nat) := []
  customValues : List CustomFieldValue := []
  auditLogs : List ImportAuditRow := []
  nextId : Nat := 1

/-- Case-insensitive string equality (`__iexact`). -/
def strIEq (a b : String) : Bool := strLower a == strLower b

/-- `parse_location_value(raw_value)` (import_utils.py 38-42). -/
def parseLocationValue (raw : String) : Option String :=
  if raw = "" then Option.none
  else
    let value := strTrim raw
    if charsPrefix "Box ".data value.data then some value else Option.none

/-- Split a character list at commas. -/
def charsSplitComma : List Char → List (List Char)
  | [] => [[]]
  | c :: cs =>
      let rest := charsSplitComma cs
      if c == ',' then [] :: rest
      else match rest with
        | [] => [[c]]
        | r :: rs => (c :: r) :: rs

/-- `CustomFieldDefinition.parsed_choices()` (models.py 371-376): `[]` for
non-select types; a comma-separated string or a JSON list is normalized by
trimming and dropping blanks (a non-string, non-list `choices` value cannot
arise from the JSON column and yields `[]`). -/
def parsedChoices (d : CustomFieldDefinition) : List String :=
  if d.field_type != .single_select && d.field_type != .multi_select then []
  else
    match d.choices with
    | .str s => (charsSplitComma s.data).map (fun cs => strTrim ⟨cs⟩)
        |>.filter fun c => c != ""
    | .list xs => (xs.map fun c => strTrim (pyStr c)) |>.filter fun c => c != ""
    | _ => []

/-- Does `float(s)` succeed?  Optional sign, then digits with an optional
decimal point (the scientific/infinite forms Python also accepts do not
occur in the CSVs modelled here). -/
def floatParseable (s : String) : Bool :=
  let cs := (strTrim s).data
  let body := match cs with
    | '-' :: rest => rest
    | '+' :: rest => rest
    | rest => rest
  match body.span Char.isDigit with
  | (intPart, []) => !intPart.isEmpty
  | (intPart, '.' :: frac) =>
      (!intPart.isEmpty || !frac.isEmpty) && frac.all Char.isDigit
  | _ => false

/-- `datetime.strptime(value, '%Y-%m-%d')` succeeding: `YYYY-MM-DD` with a
month of 1-12 and a day of 1-31 (exact per-month day validation is not
reached by any claim).  The parsed date is encoded as `y*10000+m*100+d`. -/
def dateParse (s : String) : Option Nat :=
  match s.data with
  | [y1, y2, y3, y4, '-', m1, m2, '-', d1, d2] =>
      if [y1, y2, y3, y4, m1, m2, d1, d2].all Char.isDigit then
        let num := fun c : Char => c.toNat - '0'.toNat
        let y := ((num y1 * 10 + num y2) * 10 + num y3) * 10 + num y4
        let m := num m1 * 10 + num m2
        let d := num d1 * 10 + num d2
        if 1 ≤ m && m ≤ 12 && 1 ≤ d && d ≤ 31 then some (y * 10000 + m * 100 + d)
        else Option.none
      else Option.none
  | _ => Option.none

/-- Result of `parse_custom_field_value` (import_utils.py 45-76): a pair
`(value_attr, value)` where an error is reported in place of the value.
The float produced for a NUMBER field is modelled by its literal string —
nothing downstream ever reads it (strain creation raises first); only its
parseability matters. -/
inductive CustomParse where
  | blank
  | store (attr : ValueColumn) (v : PyVal)
  | invalid (msg : String)
  | unsupported

def parseCustomFieldValue (d : CustomFieldDefinition) (raw : String) : CustomParse :=
  let value := strTrim raw
  if value = "" then .blank
  else
    match d.field_type with
    | .text => .store .text (.str value)
    | .integer =>
        if floatParseable value then .store .number (.str value)
        else .invalid ("Invalid number for custom field \"" ++ d.name ++ "\".")
    | .date =>
        match dateParse value with
        | some day => .store .date (.date day)
        | Option.none =>
            .invalid ("Invalid date for custom field \"" ++ d.name ++ "\". Use YYYY-MM-DD.")
    | .boolean =>
        if ["true", "1", "yes", "y"].contains (strLower value) then
          .store .boolean (.bool true)
        else if ["false", "0", "no", "n"].contains (strLower value) then
          .store .boolean (.bool false)
        else .invalid ("Invalid boolean for custom field \"" ++ d.name ++ "\".")
    | .single_select =>
        if (parsedChoices d).contains value then .store .choice (.str value)
        else .invalid ("Invalid choice for custom field \"" ++ d.name ++ "\".")
    | _ => .unsupported

/-- `mapped_row.get(k)`, blank-defaulted the way every call site uses it. -/
def rowGet (row : List (String × String)) (k : String) : String :=
  ((row.find? fun p => p.1 == k).map (·.2)).getD ""

/-- `validate_import_row` (import_utils.py 79-101). -/
def validateImportRow (row : List (String × String))
    (customDefsByName : List (String × CustomFieldDefinition)) : List String :=
  let requiredErrors := (["strain_id", "organism", "genotype", "location"].filter
      fun required => rowGet row required == "")
    |>.map fun required => "Missing required field: " ++ required ++ "."
  let locationString := rowGet row "location"
  let locationErrors :=
    if locationString != "" && (parseLocationValue locationString).isNone then
      ["Location must be in \"Box <number> <row><column>\" format."]
    else []
  let customErrors := row.foldr (fun (fieldName, raw) acc =>
    if charsPrefix "custom:".data fieldName.data then
      let definitionName := ⟨fieldName.data.drop 7⟩
      match customDefsByName.find? fun p => p.1 == definitionName with
      | Option.none => ("Unknown custom field mapping: " ++ definitionName ++ ".") :: acc
      | some (_, d) =>
          match parseCustomFieldValue d raw with
          | .invalid msg => msg :: acc
          | _ => acc
    else acc) []
  requiredErrors ++ locationErrors ++ customErrors

/-- `resolve_fk(Organism, database, value)` (import_utils.py 104-128):
case-insensitive lookup, creating the row when absent.  The
`IntegrityError` retry only fires under a concurrent writer and cannot
occur in this single-writer model. -/
def resolveOrganism (st : ImportState) (database : Nat) (value : String) :
    Option OrganismRow × ImportState :=
  if value = "" then (Option.none, st)
  else
    let normalized := strTrim value
    if normalized = "" then (Option.none, st)
    else
      match st.organisms.find? fun o =>
          o.research_database_id == database && strIEq o.name normalized with
      | some existing => (some existing, st)
      | Option.none =>
          let row : OrganismRow :=
            { id := st.nextId, research_database_id := database, name := normalized }
          (some row, { st with organisms := st.organisms ++ [row],
                               nextId := st.nextId + 1 })

/-- `resolve_fk(Plasmid, database, value)`. -/
def resolvePlasmid (st : ImportState) (database : Nat) (value : String) :
    Option PlasmidRow × ImportState :=
  if value = "" then (Option.none, st)
  else
    let normalized := strTrim value
    if normalized = "" then (Option.none, st)
    else
      match st.plasmids.find? fun p =>
          p.research_database_id == database && strIEq p.name normalized with
      | some existing => (some existing, st)
      | Option.none =>
          let row : PlasmidRow :=
            { id := st.nextId, research_database_id := database, name := normalized }
          (some row, { st with plasmids := st.plasmids ++ [row],
                               nextId := st.nextId + 1 })

/-- `Strain.objects.create(...)` as the importer calls it.  `organism` and
`location` are Django ForeignKey fields (models.py lines 228 and 232): the
forward descriptor raises `ValueError` when assigned anything other than a
model instance of the related type, and the importer passes the organism's
*name* and the parsed location *string* (import_utils.py 198-207). -/
def importStrainCreate (st : ImportState) (database : Nat)
    (strainId : String) (organismArg : PyVal) (genotype selectiveMarker
    comments : String) (locationArg : PyVal) (user : Nat) :
    Except String (ImportStrainRow × ImportState) :=
  match organismArg with
  | .obj "organism" _ =>
      match locationArg with
      | .obj "location" _ =>
          let row : ImportStrainRow :=
            { id := st.nextId, research_database_id := database,
              strain_id := strainId, name := strainId, organism := organismArg,
              genotype := genotype, selective_marker := selectiveMarker,
              comments := comments, location := locationArg, created_by := user }
          .ok (row, { st with strains := st.strains ++ [row],
                              nextId := st.nextId + 1 })
      | _ => .error "ValueError"
  | _ => .error "ValueError"

/-- Write one parsed custom value for the new strain (import_utils.py
218-235): clear the five legacy columns, set the parsed one. -/
def importWriteCustom (st : ImportState) (strain : Nat) (defId : Nat)
    (attr : ValueColumn) (v : PyVal) : ImportState :=
  let (row, isNew) := getOrCreate st.customValues strain defId
  let row0 := clearLegacyColumns row
  let row' :=
    match attr, v with
    | .text, .str s => { row0 with value_text := some s }
    | .number, .str s => { row0 with value_decimal := some s }
    | .date, .date day => { row0 with value_date := some day }
    | .boolean, .bool b => { row0 with value_boolean := some b }
    | .choice, .str s => { row0 with value_choice := some s }
    | _, _ => row0
  { st with customValues := putRow st.customValues row' isNew }

/-- One row of the import loop (import_utils.py 156-240), run inside its
nested transaction: `.ok (state, created?)` is a commit, `.error` an
exception that the caller converts to a rollback plus a skip. -/
def importRow (database user : Nat)
    (customDefsByName : List (String × CustomFieldDefinition))
    (st : ImportState) (row : List (String × String)) :
    Except String (ImportState × Bool) :=
  let strainId := strTrim (rowGet row "strain_id")
  if strainId = "" then .ok (st, false)
  else if st.strains.any (fun s =>
      s.research_database_id == database && strIEq s.strain_id strainId) then
    .ok (st, false)
  else if validateImportRow row customDefsByName ≠ [] then .ok (st, false)
  else match parseLocationValue (rowGet row "location") with
  | Option.none => .ok (st, false)
  | some location =>
    let organismName := strTrim (rowGet row "organism")
    let organismExists := st.organisms.any fun o =>
      o.research_database_id == database && strIEq o.name organismName
    match resolveOrganism st database organismName with
    | (Option.none, st₁) => .ok (st₁, false)
    | (some organism, st₁) =>
      let st₂ :=
        if organismExists then st₁
        else { st₁ with auditLogs := st₁.auditLogs ++
          [{ database_id := database, user_id := user,
             action := "AUTO_CREATE_ORGANISM", object_type := "Organism",
             object_id := organism.id, metadata_organism := organism.name }] }
      match importStrainCreate st₂ database strainId
          (.str organism.name) (strTrim (rowGet row "genotype"))
          (strTrim (rowGet row "selective_marker")) (strTrim (rowGet row "comments"))
          (.str location) user with
      | .error e => .error e
      | .ok (strain, st₃) =>
        let plasmidNames := ((charsSplitComma (rowGet row "plasmids").data).map
            fun cs => strTrim ⟨cs⟩) |>.filter fun n => n != ""
        let st₄ := plasmidNames.foldl (fun acc name =>
          match resolvePlasmid acc database name with
          | (some plasmid, acc') =>
              if acc'.strainPlasmids.contains (strain.id, plasmid.id) then acc'
              else { acc' with strainPlasmids :=
                acc'.strainPlasmids ++ [(strain.id, plasmid.id)] }
          | (Option.none, acc') => acc') st₃
        let st₅ := row.foldl (fun acc p =>
          if charsPrefix "custom:".data p.1.data then
            match customDefsByName.find? fun q =>
                q.1 == (⟨p.1.data.drop 7⟩ : String) with
            | Option.none => acc
            | some (_, d) =>
                match parseCustomFieldValue d p.2 with
                | .store attr v => importWriteCustom acc strain.id d.id attr v
                | _ => acc
          else acc) st₄
        .ok (st₅, true)

/-- `import_strains_from_csv_rows` (import_utils.py 151-242): each row in
its own nested transaction; an exception rolls the row back and counts a
skip. -/
def importStrainsFromCsvRows (database user : Nat)
    (customDefsByName : List (String × CustomFieldDefinition))
    (st : ImportState) :
    List (List (String × String)) → (Nat × Nat) × ImportState
  | [] => ((0, 0), st)
  | row :: rest =>
      match importRow database user customDefsByName st row with
      | .ok (st', created) =>
          let ((c, k), stFinal) :=
            importStrainsFromCsvRows database user customDefsByName st' rest
          ((c + (if created then 1 else 0), k + (if created then 0 else 1)), stFinal)
      | .error _ =>
          let ((c, k), stFinal) :=
            importStrainsFromCsvRows database user customDefsByName st rest
          ((c, k + 1), stFinal)

theorem resolveOrganism_none_eq (st : ImportState) (db : Nat) (v : String)
    (h : (resolveOrganism st db v).1 = Option.none) :
    resolveOrganism st db v = (Option.none, st) := by
  rw [resolveOrganism] at h ⊢
  by_cases h1 : v = ""
  · simp [h1]
  · by_cases h2 : strTrim v = ""
    · simp [h1, h2]
    · cases hf : st.organisms.find? (fun o =>
          o.research_database_id == db && strIEq o.name (strTrim v)) with
      | none => simp [h1, h2, hf] at h
      | some o => simp [h1, h2, hf] at h

/-- Every import row either commits as a write-free skip or raises
`ValueError`: the strain-creation call always raises, because the importer
assigns the organism's *name string* and the location *string* to the
`organism`/`location` ForeignKey fields. -/
theorem importRow_never_creates (database user : Nat)
    (defs : List (String × CustomFieldDefinition)) (st : ImportState)
    (row : List (String × String)) :
    importRow database user defs st row = .ok (st, false) ∨
    importRow database user defs st row = .error "ValueError" := by
  rw [importRow]
  split
  · left; rfl
  · split
    · left; rfl
    · split
      · left; rfl
      · split
        · left; rfl
        · dsimp only
          split
          · rename_i st₁ heq
            have h1 : (resolveOrganism st database
                (strTrim (rowGet row "organism"))).1 = Option.none := by
              rw [heq]
            have h2 := resolveOrganism_none_eq st database
              (strTrim (rowGet row "organism")) h1
            rw [h2] at heq
            simp only [Prod.mk.injEq] at heq
            rw [← heq.2]
            left
            rfl
          · rename_i organism st₁ heq
            right
            rfl

/-- Fixture store for C7: database 1 already holds the organism `E. coli`
and no strains. -/
def importFixtureState : ImportState :=
  { organisms := [{ id := 1, research_database_id := 1, name := "E. coli" }],
    nextId := 2 }

/-- The two valid rows of the claimed scenario: equal `strain_id` up to
case. -/
def importFixtureRow1 : List (String × String) :=
  [("strain_id", "S-100"), ("organism", "E. coli"), ("genotype", "WT"),
   ("location", "Box 1 A1"), ("comments", "First")]

def importFixtureRow2 : List (String × String) :=
  [("strain_id", "s-100"), ("organism", "E. coli"), ("genotype", "WT"),
   ("location", "Box 1 A1"), ("comments", "Duplicate")]

/-- C7: the import loop never creates a strain — every row is skipped and
the store is left untouched (each row's creation raises `ValueError`, which
the per-row handler converts into a rollback and a skip).  In particular
the claimed two-row batch returns `created_count = 0, skipped_count = 2`
instead of `(1, 1)`, which is also what the repository's own
`test_editor_can_import_csv_and_duplicates_are_skipped` expects. -/
theorem c7_import_creates_nothing :
    (∀ (database user : Nat) (defs : List (String × CustomFieldDefinition))
        (st : ImportState) (rows : List (List (String × String))),
      importStrainsFromCsvRows database user defs st rows =
        ((0, rows.length), st)) ∧
    importStrainsFromCsvRows 1 1 [] importFixtureState
        [importFixtureRow1, importFixtureRow2] =
      ((0, 2), importFixtureState) := by
  have hgen : ∀ (database user : Nat) (defs : List (String × CustomFieldDefinition))
      (st : ImportState) (rows : List (List (String × String))),
      importStrainsFromCsvRows database user defs st rows =
        ((0, rows.length), st) := by
    intro database user defs st rows
    induction rows generalizing st with
    | nil => rfl
    | cons row rest ih =>
        rw [importStrainsFromCsvRows]
        rcases importRow_never_creates database user defs st row with h | h
        · rw [h]
          simp [ih st]
        · rw [h]
          simp [ih st]
  exact ⟨hgen, hgen 1 1 [] importFixtureState [importFixtureRow1, importFixtureRow2]⟩

/-! ## `research/snapshot.py`: organization export and restore

The state of one organization's data (the module operates strictly within
one organization) plus the global user directory.  Timestamps are clock
ticks (`auto_now_add`/`auto_now` assign the current tick and advance the
clock; `isoformat`/`parse_datetime` round-trip them unchanged).  JSON
pass-through payloads (`choices`, audit `metadata`) are modelled by the
shapes the application writes into them — a list of strings and a
string-to-string map — so that documents stay decidably comparable. -/

structure UserRow where
  id : Nat
  username : String
  email : String
deriving DecidableEq, Repr

structure OrgRow where
  id : Nat
  uuid : String
  name : String
  slug : String
  created_by_id : Nat
  created_at : Nat
deriving DecidableEq, Repr

structure MemberRow where
  user_id : Nat
  role : String
  joined_at : Nat
deriving DecidableEq, Repr

structure DbRow where
  id : Nat
  name : String
  description : String
  created_by_id : Nat
  created_at : Nat
deriving DecidableEq, Repr

structure DbMemberRow where
  research_database_id : Nat
  user_id : Nat
  role : String
  created_at : Nat
deriving DecidableEq, Repr

structure LocationRow where
  id : Nat
  research_database_id : Nat
  building : String
  room : String
  freezer : String
  box : String
  position : String
deriving DecidableEq, Repr

structure StrainRow where
  id : Nat
  research_database_id : Nat
  strain_id : String
  name : String
  organism_id : Nat
  genotype : String
  selective_marker : String
  comments : String
  location_id : Nat
  status : String
  created_by_id : Nat
  created_at : Nat
  updated_at : Nat
  is_active : Bool
  is_archived : Bool
  archived_at : Option Nat
  archived_by_id : Option Nat
deriving DecidableEq, Repr

structure StrainPlasmidRow where
  strain_id : Nat
  plasmid_id : Nat
deriving DecidableEq, Repr

structure FieldDefRow where
  id : Nat
  research_database_id : Nat
  name : String
  field_type : String
  choices : List String
  order : Nat
  created_by_id : Nat
  created_at : Nat
deriving DecidableEq, Repr

structure AuditRow where
  database_id : Option Nat
  user_id : Option Nat
  action : String
  object_type : String
  object_id : Option Int
  metadata : List (String × String)
  timestamp : Nat
deriving DecidableEq, Repr

structure OrgState where
  org : OrgRow
  users : List UserRow
  members : List MemberRow
  databases : List DbRow
  dbMembers : List DbMemberRow
  organisms : List OrganismRow
  locations : List LocationRow
  plasmids : List PlasmidRow
  strains : List StrainRow
  strainPlasmids : List StrainPlasmidRow
  fieldDefs : List FieldDefRow
  fieldValues : List CustomFieldValue
  auditLogs : List AuditRow
  nextId : Nat
  clock : Nat
deriving DecidableEq, Repr

/-! The JSON document `build_organization_snapshot` produces, one record
type per section, with exactly the keys the source serializes. -/

structure DocOrg where
  id : Nat
  uuid : String
  name : String
  slug : String
  created_by_id : Nat
  created_at : Nat
deriving DecidableEq, Repr

structure DocMember where
  user_id : Nat
  username : String
  email : String
  role : String
  joined_at : Nat
deriving DecidableEq, Repr

structure DocDb where
  id : Nat
  name : String
  description : String
  created_by_id : Nat
  created_at : Nat
deriving DecidableEq, Repr

structure DocDbMember where
  research_database_id : Nat
  user_id : Nat
  username : String
  email : String
  role : String
  created_at : Nat
deriving DecidableEq, Repr

structure DocOrganism where
  id : Nat
  research_database_id : Nat
  name : String
deriving DecidableEq, Repr

structure DocLocation where
  id : Nat
  research_database_id : Nat
  building : String
  room : String
  freezer : String
  box : String
  position : String
deriving DecidableEq, Repr

structure DocPlasmid where
  id : Nat
  research_database_id : Nat
  name : String
  resistance_marker : String
  notes : String
deriving DecidableEq, Repr

structure DocStrain where
  id : Nat
  research_database_id : Nat
  strain_id : String
  name : String
  organism_id : Nat
  genotype : String
  selective_marker : String
  comments : String
  location_id : Nat
  status : String
  created_by_id : Nat
  created_at : Nat
  updated_at : Nat
  is_active : Bool
  is_archived : Bool
  archived_at : Option Nat
  archived_by_id : Option Nat
deriving DecidableEq, Repr

structure DocStrainPlasmid where
  strain_id : Nat
  plasmid_id : Nat
deriving DecidableEq, Repr

structure DocField where
  id : Nat
  research_database_id : Nat
  name : String
  field_type : String
  choices : List String
  created_by_id : Nat
  created_at : Nat
deriving DecidableEq, Repr

structure DocFieldValue where
  strain_id : Nat
  field_definition_id : Nat
  value_text : Option String
  value_number : Option Int
  value_date : Option Nat
  value_boolean : Option Bool
  value_choice : Option String
deriving DecidableEq, Repr

structure DocAudit where
  database_id : Nat
  user_id : Option Nat
  action : String
  object_type : String
  object_id : Option Int
  metadata : List (String × String)
  timestamp : Nat
deriving DecidableEq, Repr

structure Doc where
  organization : DocOrg
  members : List DocMember
  databases : List DocDb
  database_memberships : List DocDbMember
  organisms : List DocOrganism
  locations : List DocLocation
  plasmids : List DocPlasmid
  strains : List DocStrain
  strain_plasmids : List DocStrainPlasmid
  custom_fields : List DocField
  field_values : List DocFieldValue
  audit_logs : List DocAudit
  exported_at : Nat
  version : String
deriving DecidableEq, Repr

/-- Non-strict string comparison for SQL `ORDER BY` (binary collation). -/
def strLeB (a b : String) : Bool := !charsLt b.data a.data

/-- Stable insertion into a list sorted by `le`. -/
def insertBy (le : α → α → Bool) (a : α) : List α → List α
  | [] => [a]
  | b :: bs => if le a b then a :: b :: bs else b :: insertBy le a bs

/-- Stable insertion sort by `le` (models a SQL `ORDER BY` over each
queryset; rows the database considers equal keep their stored order). -/
def sortBy (le : α → α → Bool) : List α → List α
  | [] => []
  | a :: rest => insertBy le a (sortBy le rest)

/-- The user a row's FK references (FK integrity makes the lookup total in
the live system). -/
def userOf (st : OrgState) (uid : Nat) : UserRow :=
  ((st.users.find? fun u => u.id == uid).getD { id := uid, username := "", email := "" })

/-- `build_organization_snapshot(organization)` (snapshot.py 31-173).
Each section is the corresponding queryset: filtered to the organization's
databases and ordered by the model's `Meta.ordering` (`ResearchDatabase` by
name, memberships by database name and username, `Strain` by descending
`updated_at`, `CustomFieldDefinition` by `(order, id)`, `AuditLog` by
descending timestamp; `Organism`, `Location`, `Plasmid`, `StrainPlasmid`
and `CustomFieldValue` have no ordering and keep table order). -/
def buildOrganizationSnapshot (st : OrgState) : Doc :=
  let dbIds := st.databases.map (·.id)
  let strains := sortBy (fun a b => decide (b.updated_at ≤ a.updated_at))
    (st.strains.filter fun s => dbIds.contains s.research_database_id)
  let strainIds := strains.map (·.id)
  let custom_fields := sortBy (fun a b =>
      decide (a.order < b.order) || (a.order == b.order && decide (a.id ≤ b.id)))
    (st.fieldDefs.filter fun f => dbIds.contains f.research_database_id)
  let fieldIds := custom_fields.map (·.id)
  { organization :=
      { id := st.org.id, uuid := st.org.uuid, name := st.org.name,
        slug := st.org.slug, created_by_id := st.org.created_by_id,
        created_at := st.org.created_at }
    members := (sortBy (fun a b =>
        strLeB (userOf st a.user_id).username (userOf st b.user_id).username)
        st.members).map fun m =>
      { user_id := m.user_id, username := (userOf st m.user_id).username,
        email := (userOf st m.user_id).email, role := m.role,
        joined_at := m.joined_at }
    databases := (sortBy (fun a b => strLeB a.name b.name) st.databases).map fun d =>
      { id := d.id, name := d.name, description := d.description,
        created_by_id := d.created_by_id, created_at := d.created_at }
    database_memberships := (sortBy (fun a b =>
        let na := ((st.databases.find? fun d => d.id == a.research_database_id).map
          (·.name)).getD ""
        let nb := ((st.databases.find? fun d => d.id == b.research_database_id).map
          (·.name)).getD ""
        charsLt na.data nb.data ||
          (na == nb && strLeB (userOf st a.user_id).username (userOf st b.user_id).username))
        (st.dbMembers.filter fun m => dbIds.contains m.research_database_id)).map fun m =>
      { research_database_id := m.research_database_id, user_id := m.user_id,
        username := (userOf st m.user_id).username,
        email := (userOf st m.user_id).email, role := m.role,
        created_at := m.created_at }
    organisms := (st.organisms.filter fun o =>
        dbIds.contains o.research_database_id).map fun o =>
      { id := o.id, research_database_id := o.research_database_id, name := o.name }
    locations := (st.locations.filter fun l =>
        dbIds.contains l.research_database_id).map fun l =>
      { id := l.id, research_database_id := l.research_database_id,
        building := l.building, room := l.room, freezer := l.freezer,
        box := l.box, position := l.position }
    plasmids := (st.plasmids.filter fun p =>
        dbIds.contains p.research_database_id).map fun p =>
      { id := p.id, research_database_id := p.research_database_id,
        name := p.name, resistance_marker := p.resistance_marker, notes := p.notes }
    strains := strains.map fun s =>
      { id := s.id, research_database_id := s.research_database_id,
        strain_id := s.strain_id, name := s.name, organism_id := s.organism_id,
        genotype := s.genotype, selective_marker := s.selective_marker,
        comments := s.comments, location_id := s.location_id, status := s.status,
        created_by_id := s.created_by_id, created_at := s.created_at,
        updated_at := s.updated_at, is_active := s.is_active,
        is_archived := s.is_archived, archived_at := s.archived_at,
        archived_by_id := s.archived_by_id }
    strain_plasmids := (st.strainPlasmids.filter fun r =>
        strainIds.contains r.strain_id).map fun r =>
      { strain_id := r.strain_id, plasmid_id := r.plasmid_id }
    custom_fields := custom_fields.map fun f =>
      { id := f.id, research_database_id := f.research_database_id,
        name := f.name, field_type := f.field_type, choices := f.choices,
        created_by_id := f.created_by_id, created_at := f.created_at }
    field_values := (st.fieldValues.filter fun v =>
        strainIds.contains v.strain_id && fieldIds.contains v.field_definition_id).map
      fun v =>
      { strain_id := v.strain_id, field_definition_id := v.field_definition_id,
        value_text := v.value_text, value_number := v.value_number,
        value_date := v.value_date, value_boolean := v.value_boolean,
        value_choice := v.value_choice }
    audit_logs := (sortBy (fun a b => decide (b.timestamp ≤ a.timestamp))
        (st.auditLogs.filter fun a =>
          match a.database_id with
          | some d => dbIds.contains d
          | Option.none => false)).map fun a =>
      { database_id := a.database_id.getD 0, user_id := a.user_id,
        action := a.action, object_type := a.object_type,
        object_id := a.object_id, metadata := a.metadata,
        timestamp := a.timestamp }
    exported_at := st.clock
    version := "1.0" }

/-- An old-id-to-new-id mapping built during restore. -/
abbrev IdMap := List (Nat × Nat)

def mapLookup (m : IdMap) (k : Nat) : Option Nat :=
  (List.find? (fun p => p.1 == k) m).map (·.2)

/-- `_resolve_user` (snapshot.py 184-185): by id, then username, then
non-empty email, then the fallback. -/
def resolveUser (users : List UserRow) (uid : Option Nat) (uname : Option String)
    (uemail : Option String) (fallback : Option Nat) : Option Nat :=
  match uid.bind fun i => (users.find? fun u => u.id == i).map (·.id) with
  | some u => some u
  | Option.none =>
    match uname.bind fun n => (users.find? fun u => u.username == n).map (·.id) with
    | some u => some u
    | Option.none =>
      match uemail.bind fun e =>
          (users.find? fun u => u.email == e && u.email != "").map (·.id) with
      | some u => some u
      | Option.none => fallback

/-- Snapshot.py 222-236: `OrganizationMembership.objects.update_or_create`
per document member. -/
def restoreMembers (users : List UserRow) (acting : Nat) (st : OrgState) :
    List DocMember → OrgState
  | [] => st
  | m :: rest =>
      let uid := (resolveUser users (some m.user_id) (some m.username)
        (some m.email) (some acting)).getD acting
      let newMember : MemberRow :=
        { user_id := uid, role := m.role, joined_at := st.clock }
      let st' :=
        if st.members.any fun mem => mem.user_id == uid then
          { st with members := st.members.map fun mem =>
              if mem.user_id == uid then { mem with role := m.role } else mem }
        else
          { st with members := st.members ++ [newMember], clock := st.clock + 1 }
      restoreMembers users acting st' rest

/-- Snapshot.py 238-254. -/
def restoreDatabases (users : List UserRow) (acting : Nat) (st : OrgState)
    (dbMap : IdMap) : List DocDb → OrgState × IdMap
  | [] => (st, dbMap)
  | d :: rest =>
      let creator := (resolveUser users (some d.created_by_id) Option.none
        Option.none (some acting)).getD acting
      let row : DbRow :=
        { id := st.nextId, name := d.name, description := d.description,
          created_by_id := creator, created_at := st.clock }
      restoreDatabases users acting
        { st with databases := st.databases ++ [row], nextId := st.nextId + 1,
                  clock := st.clock + 1 }
        (dbMap ++ [(d.id, row.id)]) rest

/-- Snapshot.py 256-273. -/
def restoreDbMembers (users : List UserRow) (acting : Nat) (dbMap : IdMap)
    (st : OrgState) : List DocDbMember → OrgState
  | [] => st
  | m :: rest =>
      match mapLookup dbMap m.research_database_id with
      | Option.none => restoreDbMembers users acting dbMap st rest
      | some db =>
          let uid := (resolveUser users (some m.user_id) (some m.username)
            (some m.email) (some acting)).getD acting
          let newRow : DbMemberRow :=
            { research_database_id := db, user_id := uid, role := m.role,
              created_at := st.clock }
          let st' :=
            if st.dbMembers.any fun x =>
                x.research_database_id == db && x.user_id == uid then
              { st with dbMembers := st.dbMembers.map fun x =>
                  if x.research_database_id == db && x.user_id == uid then
                    { x with role := m.role }
                  else x }
            else
              { st with dbMembers := st.dbMembers ++ [newRow],
                        clock := st.clock + 1 }
          restoreDbMembers users acting dbMap st' rest

/-- Snapshot.py 275-280. -/
def restoreOrganisms (dbMap : IdMap) (st : OrgState) (organismMap : IdMap) :
    List DocOrganism → OrgState × IdMap
  | [] => (st, organismMap)
  | o :: rest =>
      match mapLookup dbMap o.research_database_id with
      | Option.none => restoreOrganisms dbMap st organismMap rest
      | some db =>
          let row : OrganismRow :=
            { id := st.nextId, research_database_id := db, name := o.name }
          restoreOrganisms dbMap
            { st with organisms := st.organisms ++ [row], nextId := st.nextId + 1 }
            (organismMap ++ [(o.id, row.id)]) rest

/-- Snapshot.py 282-294. -/
def restoreLocations (dbMap : IdMap) (st : OrgState) (locationMap : IdMap) :
    List DocLocation → OrgState × IdMap
  | [] => (st, locationMap)
  | l :: rest =>
      match mapLookup dbMap l.research_database_id with
      | Option.none => restoreLocations dbMap st locationMap rest
      | some db =>
          let row : LocationRow :=
            { id := st.nextId, research_database_id := db, building := l.building,
              room := l.room, freezer := l.freezer, box := l.box,
              position := l.position }
          restoreLocations dbMap
            { st with locations := st.locations ++ [row], nextId := st.nextId + 1 }
            (locationMap ++ [(l.id, row.id)]) rest

/-- Snapshot.py 296-306. -/
def restorePlasmids (dbMap : IdMap) (st : OrgState) (plasmidMap : IdMap) :
    List DocPlasmid → OrgState × IdMap
  | [] => (st, plasmidMap)
  | p :: rest =>
      match mapLookup dbMap p.research_database_id with
      | Option.none => restorePlasmids dbMap st plasmidMap rest
      | some db =>
          let row : PlasmidRow :=
            { id := st.nextId, research_database_id := db, name := p.name,
              resistance_marker := p.resistance_marker, notes := p.notes }
          restorePlasmids dbMap
            { st with plasmids := st.plasmids ++ [row], nextId := st.nextId + 1 }
            (plasmidMap ++ [(p.id, row.id)]) rest

/-- Snapshot.py 308-348: a strain is recreated only when its database,
organism and location all resolve; `created_at`/`updated_at` are assigned
the creation tick. -/
def restoreStrains (users : List UserRow) (acting : Nat) (dbMap organismMap
    locationMap : IdMap) (st : OrgState) (strainMap : IdMap) :
    List DocStrain → OrgState × IdMap
  | [] => (st, strainMap)
  | s :: rest =>
      match mapLookup dbMap s.research_database_id,
          mapLookup organismMap s.organism_id,
          mapLookup locationMap s.location_id with
      | some db, some org, some loc =>
          let creator := (resolveUser users (some s.created_by_id) Option.none
            Option.none (some acting)).getD acting
          let archivedBy := resolveUser users s.archived_by_id Option.none
            Option.none Option.none
          let row : StrainRow :=
            { id := st.nextId, research_database_id := db,
              strain_id := s.strain_id, name := s.name, organism_id := org,
              genotype := s.genotype, selective_marker := s.selective_marker,
              comments := s.comments, location_id := loc, status := s.status,
              created_by_id := creator, created_at := st.clock,
              updated_at := st.clock, is_active := s.is_active,
              is_archived := s.is_archived, archived_at := s.archived_at,
              archived_by_id := archivedBy }
          restoreStrains users acting dbMap organismMap locationMap
            { st with strains := st.strains ++ [row], nextId := st.nextId + 1,
                      clock := st.clock + 1 }
            (strainMap ++ [(s.id, row.id)]) rest
      | _, _, _ =>
          restoreStrains users acting dbMap organismMap locationMap st strainMap rest

/-- Snapshot.py 350-354. -/
def restoreStrainPlasmids (strainMap plasmidMap : IdMap) (st : OrgState) :
    List DocStrainPlasmid → OrgState
  | [] => st
  | r :: rest =>
      match mapLookup strainMap r.strain_id, mapLookup plasmidMap r.plasmid_id with
      | some strain, some plasmid =>
          let newLink : StrainPlasmidRow :=
            { strain_id := strain, plasmid_id := plasmid }
          let st' :=
            if st.strainPlasmids.any fun x =>
                x.strain_id == strain && x.plasmid_id == plasmid then st
            else { st with strainPlasmids := st.strainPlasmids ++ [newLink] }
          restoreStrainPlasmids strainMap plasmidMap st' rest
      | _, _ => restoreStrainPlasmids strainMap plasmidMap st rest

/-- Snapshot.py 356-376: definitions are recreated with only name,
field_type, choices and creator — `order` falls back to its default 0. -/
def restoreFieldDefs (users : List UserRow) (acting : Nat) (dbMap : IdMap)
    (st : OrgState) (fieldMap : IdMap) : List DocField → OrgState × IdMap
  | [] => (st, fieldMap)
  | f :: rest =>
      match mapLookup dbMap f.research_database_id with
      | Option.none => restoreFieldDefs users acting dbMap st fieldMap rest
      | some db =>
          let creator := (resolveUser users (some f.created_by_id) Option.none
            Option.none (some acting)).getD acting
          let row : FieldDefRow :=
            { id := st.nextId, research_database_id := db, name := f.name,
              field_type := f.field_type, choices := f.choices, order := 0,
              created_by_id := creator, created_at := st.clock }
          restoreFieldDefs users acting dbMap
            { st with fieldDefs := st.fieldDefs ++ [row], nextId := st.nextId + 1,
                      clock := st.clock + 1 }
            (fieldMap ++ [(f.id, row.id)]) rest

/-- Snapshot.py 378-393: `update_or_create` writes exactly the five legacy
value columns; a freshly created row has every other typed column at its
default (NULL, or `[]` for the multi-select list). -/
def restoreFieldValues (strainMap fieldMap : IdMap) (st : OrgState) :
    List DocFieldValue → OrgState
  | [] => st
  | v :: rest =>
      match mapLookup strainMap v.strain_id, mapLookup fieldMap v.field_definition_id with
      | some strain, some fieldId =>
          let (row0, isNew) := getOrCreate st.fieldValues strain fieldId
          let row' :=
            { row0 with value_text := v.value_text,
                        value_number := v.value_number,
                        value_date := v.value_date,
                        value_boolean := v.value_boolean,
                        value_choice := v.value_choice }
          restoreFieldValues strainMap fieldMap
            { st with fieldValues := putRow st.fieldValues row' isNew } rest
      | _, _ => restoreFieldValues strainMap fieldMap st rest

/-- Snapshot.py 395-413: replayed audit entries get fresh timestamps; a log
whose database does not resolve is recreated with no database. -/
def restoreAudits (users : List UserRow) (dbMap : IdMap) (st : OrgState) :
    List DocAudit → OrgState
  | [] => st
  | a :: rest =>
      let db := mapLookup dbMap a.database_id
      let uid := resolveUser users a.user_id Option.none Option.none Option.none
      let newLog : AuditRow :=
        { database_id := db, user_id := uid, action := a.action,
          object_type := a.object_type, object_id := a.object_id,
          metadata := a.metadata, timestamp := st.clock }
      restoreAudits users dbMap
        { st with auditLogs := st.auditLogs ++ [newLog],
                  clock := st.clock + 1 } rest

/-- `restore_organization_snapshot(...)` (snapshot.py 188-426): validate the
version and the organization identity token, then — inside one
transaction — delete the organization's dataset in dependency order and
recreate it from the document, ending with a synthetic audit entry.  Both
validations precede every mutation, so an error means zero writes. -/
def restoreOrganizationSnapshot (st : OrgState) (doc : Doc) (actingUser : Nat) :
    Except String OrgState :=
  if doc.version ≠ "1.0" then .error "Unsupported snapshot version."
  else if doc.organization.uuid ≠ st.org.uuid then
    .error "Snapshot organization does not match target organization."
  else
    let users := st.users
    let dbIds := st.databases.map (·.id)
    let keptLogs := st.auditLogs.filter fun a =>
      match a.database_id with
      | some d => !dbIds.contains d
      | Option.none => true
    let newOrg :=
      { st.org with name := doc.organization.name,
                    slug := doc.organization.slug }
    let st0 :=
      { st with
        fieldValues := [], strains := [], strainPlasmids := [], fieldDefs := [],
        auditLogs := keptLogs,
        dbMembers := [], organisms := [], locations := [], plasmids := [],
        databases := [], org := newOrg }
    let st1 := restoreMembers users actingUser st0 doc.members
    let (st2, dbMap) := restoreDatabases users actingUser st1 [] doc.databases
    let st3 := restoreDbMembers users actingUser dbMap st2 doc.database_memberships
    let (st4, organismMap) := restoreOrganisms dbMap st3 [] doc.organisms
    let (st5, locationMap) := restoreLocations dbMap st4 [] doc.locations
    let (st6, plasmidMap) := restorePlasmids dbMap st5 [] doc.plasmids
    let (st7, strainMap) := restoreStrains users actingUser dbMap organismMap
      locationMap st6 [] doc.strains
    let st8 := restoreStrainPlasmids strainMap plasmidMap st7 doc.strain_plasmids
    let (st9, fieldMap) := restoreFieldDefs users actingUser dbMap st8 []
      doc.custom_fields
    let st10 := restoreFieldValues strainMap fieldMap st9 doc.field_values
    let st11 := restoreAudits users dbMap st10 doc.audit_logs
    let restoreLog : AuditRow :=
      { database_id := Option.none, user_id := some actingUser,
        action := "organization_snapshot_restore", object_type := "Organization",
        object_id := some (st.org.id : Int),
        metadata := [("organization_uuid", st.org.uuid),
                     ("restored_at", toString st11.clock),
                     ("version", doc.version)],
        timestamp := st11.clock }
    .ok { st11 with auditLogs := st11.auditLogs ++ [restoreLog],
                    clock := st11.clock + 1 }

/-- C4: restoring a snapshot whose version differs from the supported one,
or whose embedded organization identity token does not match the target,
raises the error before any mutation begins: the function returns the
`ValueError` message produced by the checks at snapshot.py 189-194, which
precede the transaction and every delete/create, and never returns a new
state — the target organization's data is untouched. -/
theorem c4_restore_validates_before_any_mutation
    (st : OrgState) (doc : Doc) (actingUser : Nat)
    (hmismatch : doc.version ≠ "1.0" ∨ doc.organization.uuid ≠ st.org.uuid) :
    restoreOrganizationSnapshot st doc actingUser =
      (if doc.version ≠ "1.0" then
          Except.error "Unsupported snapshot version."
        else Except.error "Snapshot organization does not match target organization.") ∧
    ∀ st', restoreOrganizationSnapshot st doc actingUser ≠ .ok st' := by
  have hmain : restoreOrganizationSnapshot st doc actingUser =
      (if doc.version ≠ "1.0" then
          Except.error "Unsupported snapshot version."
        else
          Except.error "Snapshot organization does not match target organization.") := by
    by_cases hv : doc.version = "1.0"
    · have hu : doc.organization.uuid ≠ st.org.uuid := by
        rcases hmismatch with h | h
        · exact absurd hv h
        · exact h
      rw [restoreOrganizationSnapshot, if_neg (by simp [hv]), if_pos hu,
        if_neg (by simp [hv])]
    · rw [restoreOrganizationSnapshot, if_pos hv, if_pos hv]
  refine ⟨hmain, fun st' h => ?_⟩
  rw [hmain] at h
  by_cases hv : doc.version ≠ "1.0" <;> simp [hv] at h

/-- C4 witness: a version-0.9 document against a concrete organization. -/
theorem c4_restore_validates_before_any_mutation_witness :
    restoreOrganizationSnapshot
      { org := { id := 1, uuid := "org-a", name := "A", slug := "a",
                 created_by_id := 1, created_at := 0 },
        users := [], members := [], databases := [], dbMembers := [],
        organisms := [], locations := [], plasmids := [], strains := [],
        strainPlasmids := [], fieldDefs := [], fieldValues := [],
        auditLogs := [], nextId := 1, clock := 0 }
      { organization := { id := 2, uuid := "org-b", name := "B", slug := "b",
                          created_by_id := 1, created_at := 0 },
        members := [], databases := [], database_memberships := [],
        organisms := [], locations := [], plasmids := [], strains := [],
        strain_plasmids := [], custom_fields := [], field_values := [],
        audit_logs := [], exported_at := 0, version := "0.9" } 1 =
      .error "Unsupported snapshot version." := by
  have h := c4_restore_validates_before_any_mutation
    { org := { id := 1, uuid := "org-a", name := "A", slug := "a",
               created_by_id := 1, created_at := 0 },
      users := [], members := [], databases := [], dbMembers := [],
      organisms := [], locations := [], plasmids := [], strains := [],
      strainPlasmids := [], fieldDefs := [], fieldValues := [],
      auditLogs := [], nextId := 1, clock := 0 }
    { organization := { id := 2, uuid := "org-b", name := "B", slug := "b",
                        created_by_id := 1, created_at := 0 },
      members := [], databases := [], database_memberships := [],
      organisms := [], locations := [], plasmids := [], strains := [],
      strain_plasmids := [], custom_fields := [], field_values := [],
      audit_logs := [], exported_at := 0, version := "0.9" } 1
    (Or.inl (by decide))
  rw [h.1]
  rfl

/-- Fixture for the snapshot round-trip claims: one organization with one
database, two strains (distinct `updated_at`), and one LONG_TEXT custom
value. -/
def snapOrgState : OrgState :=
  { org := { id := 1, uuid := "org-uuid-1", name := "Org", slug := "org",
             created_by_id := 1, created_at := 0 },
    users := [{ id := 1, username := "owner", email := "o@example.com" }],
    members := [{ user_id := 1, role := "admin", joined_at := 1 }],
    databases := [{ id := 10, name := "DB", description := "",
                    created_by_id := 1, created_at := 2 }],
    dbMembers := [{ research_database_id := 10, user_id := 1, role := "owner",
                    created_at := 3 }],
    organisms := [{ id := 20, research_database_id := 10, name := "E. coli" }],
    locations := [{ id := 30, research_database_id := 10, building := "B1",
                    room := "R1", freezer := "F1", box := "BX1",
                    position := "P1" }],
    plasmids := [],
    strains := [
      { id := 40, research_database_id := 10, strain_id := "S-1", name := "One",
        organism_id := 20, genotype := "WT", selective_marker := "",
        comments := "", location_id := 30, status := "draft",
        created_by_id := 1, created_at := 4, updated_at := 4,
        is_active := true, is_archived := false, archived_at := Option.none,
        archived_by_id := Option.none },
      { id := 41, research_database_id := 10, strain_id := "S-2", name := "Two",
        organism_id := 20, genotype := "WT", selective_marker := "",
        comments := "", location_id := 30, status := "draft",
        created_by_id := 1, created_at := 5, updated_at := 5,
        is_active := true, is_archived := false, archived_at := Option.none,
        archived_by_id := Option.none }],
    strainPlasmids := [],
    fieldDefs := [{ id := 50, research_database_id := 10, name := "Notes",
                    field_type := "long_text", choices := [], order := 0,
                    created_by_id := 1, created_at := 6 }],
    fieldValues := [{ strain_id := 40, field_definition_id := 50,
                      value_long_text := some "secret" }],
    auditLogs := [], nextId := 100, clock := 7 }

/-- C5 counterexample: restoring `snapOrgState`'s own export and exporting
again does not reproduce the first document even with timestamps excluded —
the strains array comes back in the opposite order (S-1 before S-2 instead
of S-2 before S-1: restore recreates strains in document order with fresh
`auto_now` stamps and export orders by descending `updated_at`), and the
LONG_TEXT custom value does not survive the round trip: the restored row's
`value_long_text` is NULL where the original held `some "secret"`, because
export serializes only the five legacy value columns. -/
theorem c5_counterexample :
    ((restoreOrganizationSnapshot snapOrgState
        (buildOrganizationSnapshot snapOrgState) 1).map fun st' =>
      ((buildOrganizationSnapshot st').strains.map (·.strain_id),
        st'.fieldValues.map (·.value_long_text))) =
      .ok (["S-1", "S-2"], [Option.none]) ∧
    (buildOrganizationSnapshot snapOrgState).strains.map (·.strain_id) =
      ["S-2", "S-1"] ∧
    snapOrgState.fieldValues.map (·.value_long_text) = [some "secret"] := by
  refine ⟨?_, rfl, rfl⟩
  rfl


/-! ## Generic order and list machinery for the snapshot round-trip -/

theorem list_map_self {α : Type} (l : List α) (f : α → α)
    (h : ∀ x ∈ l, f x = x) : l.map f = l := by
  induction l with
  | nil => rfl
  | cons x rest ih =>
      rw [List.map_cons, h x (by simp), ih fun y hy => h y (by simp [hy])]

theorem insertBy_perm {α : Type} (le : α → α → Bool) (a : α) (l : List α) :
    List.Perm (insertBy le a l) (a :: l) := by
  induction l with
  | nil => simp [insertBy]
  | cons b rest ih =>
      rw [insertBy]
      by_cases h : le a b = true
      · rw [if_pos h]
      · rw [if_neg h]
        exact (List.Perm.cons b ih).trans (List.Perm.swap a b rest)

theorem sortBy_perm {α : Type} (le : α → α → Bool) (l : List α) :
    List.Perm (sortBy le l) l := by
  induction l with
  | nil => simp [sortBy]
  | cons a rest ih =>
      rw [sortBy]
      exact (insertBy_perm le a (sortBy le rest)).trans (List.Perm.cons a ih)

theorem mem_sortBy {α : Type} (le : α → α → Bool) (x : α) (l : List α) :
    x ∈ sortBy le l ↔ x ∈ l :=
  (sortBy_perm le l).mem_iff

theorem list_find?_congr_unique {α : Type} (p : α → Bool) (l₁ l₂ : List α)
    (hmem : ∀ x, x ∈ l₁ ↔ x ∈ l₂)
    (huniq : ∀ x ∈ l₁, ∀ y ∈ l₁, p x = true → p y = true → x = y) :
    l₁.find? p = l₂.find? p := by
  cases hf : l₁.find? p with
  | none =>
      have hnone : ∀ a ∈ l₂, ¬ p a = true := fun a ha hpa =>
        (List.find?_eq_none.mp hf a ((hmem a).mpr ha)) hpa
      exact (List.find?_eq_none.mpr hnone).symm
  | some x =>
      have hx := List.find?_some hf
      have hxm : x ∈ l₁ := List.mem_of_find?_eq_some hf
      cases hg : l₂.find? p with
      | none =>
          exact absurd hx (List.find?_eq_none.mp hg x ((hmem x).mp hxm))
      | some y =>
          have hy := List.find?_some hg
          have hym : y ∈ l₁ := (hmem y).mpr (List.mem_of_find?_eq_some hg)
          rw [huniq x hxm y hym hx hy]

theorem insertBy_chain {α : Type} (le : α → α → Bool)
    (htotal : ∀ a b, le a b = true ∨ le b a = true) (a : α) (l : List α)
    (h : List.Chain' (fun x y => le x y = true) l) :
    List.Chain' (fun x y => le x y = true) (insertBy le a l) := by
  induction l with
  | nil => simp [insertBy]
  | cons b rest ih =>
      rcases List.chain'_cons'.mp h with ⟨hb, hrest⟩
      rw [insertBy]
      by_cases hab : le a b = true
      · rw [if_pos hab]
        exact List.chain'_cons.mpr ⟨hab, h⟩
      · rw [if_neg hab]
        refine List.chain'_cons'.mpr ⟨?_, ih hrest⟩
        intro c hc
        cases rest with
        | nil =>
            simp only [insertBy, List.head?_cons, Option.mem_def,
              Option.some.injEq] at hc
            rw [← hc]
            exact (htotal a b).resolve_left hab
        | cons d ds =>
            rw [insertBy] at hc
            by_cases had : le a d = true
            · rw [if_pos had] at hc
              simp only [List.head?_cons, Option.mem_def, Option.some.injEq] at hc
              rw [← hc]
              exact (htotal a b).resolve_left hab
            · rw [if_neg had] at hc
              simp only [List.head?_cons, Option.mem_def, Option.some.injEq] at hc
              rw [← hc]
              exact hb d rfl

theorem sortBy_chain {α : Type} (le : α → α → Bool)
    (htotal : ∀ a b, le a b = true ∨ le b a = true) (l : List α) :
    List.Chain' (fun x y => le x y = true) (sortBy le l) := by
  induction l with
  | nil => simp [sortBy]
  | cons a rest ih =>
      rw [sortBy]
      exact insertBy_chain le htotal a _ ih

theorem sortBy_eq_self_of_chain {α : Type} (le : α → α → Bool) (l : List α)
    (h : List.Chain' (fun x y => le x y = true) l) : sortBy le l = l := by
  induction l with
  | nil => rfl
  | cons a rest ih =>
      rcases List.chain'_cons'.mp h with ⟨ha, hrest⟩
      rw [sortBy, ih hrest]
      cases rest with
      | nil => rfl
      | cons b bs => rw [insertBy, if_pos (ha b rfl)]

theorem insertBy_append_of_all_neg {α : Type} (le : α → α → Bool) (a : α)
    (l : List α) (h : ∀ x ∈ l, le a x = false) :
    insertBy le a l = l ++ [a] := by
  induction l with
  | nil => rfl
  | cons b rest ih =>
      rw [insertBy, if_neg (by simp [h b (by simp)]),
        ih fun x hx => h x (by simp [hx])]
      rfl

theorem sortBy_eq_reverse_of_pairwise_neg {α : Type} (le : α → α → Bool)
    (l : List α) (h : List.Pairwise (fun x y => le x y = false) l) :
    sortBy le l = l.reverse := by
  induction l with
  | nil => rfl
  | cons a rest ih =>
      rcases List.pairwise_cons.mp h with ⟨ha, hrest⟩
      rw [sortBy, ih hrest,
        insertBy_append_of_all_neg le a _
          fun x hx => ha x (List.mem_reverse.mp hx),
        List.reverse_cons]

theorem charsLt_asymm (a : List Char) :
    ∀ b, charsLt a b = true → charsLt b a = false := by
  induction a with
  | nil =>
      intro b h
      cases b with
      | nil => simp [charsLt] at h
      | cons c cs => simp [charsLt]
  | cons x xs ih =>
      intro b h
      cases b with
      | nil => simp [charsLt] at h
      | cons y ys =>
          rw [charsLt] at h ⊢
          by_cases hxy : x < y
          · rw [if_neg (lt_asymm hxy), if_pos hxy]
          · rw [if_neg hxy] at h
            by_cases hyx : y < x
            · rw [if_pos hyx] at h
              exact absurd h (by simp)
            · rw [if_neg hyx] at h
              rw [if_neg hyx, if_neg hxy]
              exact ih ys h

theorem charsLt_trichotomy (a : List Char) :
    ∀ b, charsLt a b = false → charsLt b a = false → a = b := by
  induction a with
  | nil =>
      intro b h1 _
      cases b with
      | nil => rfl
      | cons c cs => simp [charsLt] at h1
  | cons x xs ih =>
      intro b h1 h2
      cases b with
      | nil => simp [charsLt] at h2
      | cons y ys =>
          rw [charsLt] at h1 h2
          by_cases hxy : x < y
          · rw [if_pos hxy] at h1
            exact absurd h1 (by simp)
          · by_cases hyx : y < x
            · rw [if_pos hyx] at h2
              exact absurd h2 (by simp)
            · rw [if_neg hxy, if_neg hyx] at h1
              rw [if_neg hyx, if_neg hxy] at h2
              rw [le_antisymm (le_of_not_lt hyx) (le_of_not_lt hxy), ih ys h1 h2]

theorem strLeB_total (a b : String) : strLeB a b = true ∨ strLeB b a = true := by
  rw [strLeB, strLeB]
  by_cases h : charsLt b.data a.data = true
  · right
    simp [charsLt_asymm _ _ h]
  · left
    simp only [Bool.not_eq_true] at h
    simp [h]

/-- The consecutive primary keys a run of `n` creations starting at `s`
hands out. -/
def natsFrom (s : Nat) : Nat → List Nat
  | 0 => []
  | n + 1 => s :: natsFrom (s + 1) n

theorem mem_natsFrom (v : Nat) : ∀ (n s : Nat), v ∈ natsFrom s n ↔ s ≤ v ∧ v < s + n := by
  intro n
  induction n with
  | zero => intro s; simp [natsFrom]
  | succ m ih =>
      intro s
      rw [natsFrom, List.mem_cons, ih (s + 1)]
      omega

theorem natsFrom_chain_le : ∀ (n s : Nat), List.Chain' (· ≤ ·) (natsFrom s n) := by
  intro n
  induction n with
  | zero => intro s; simp [natsFrom]
  | succ m ih =>
      intro s
      rw [natsFrom]
      refine List.chain'_cons'.mpr ⟨?_, ih (s + 1)⟩
      intro c hc
      cases m with
      | zero => simp [natsFrom] at hc
      | succ k =>
          simp only [natsFrom, List.head?_cons, Option.mem_def,
            Option.some.injEq] at hc
          omega

theorem natsFrom_pairwise_lt : ∀ (n s : Nat), List.Pairwise (· < ·) (natsFrom s n) := by
  intro n
  induction n with
  | zero => intro s; simp [natsFrom]
  | succ m ih =>
      intro s
      rw [natsFrom]
      refine List.pairwise_cons.mpr ⟨?_, ih (s + 1)⟩
      intro v hv
      have := (mem_natsFrom v m (s + 1)).mp hv
      omega

theorem natsFrom_nodup (n s : Nat) : (natsFrom s n).Nodup :=
  (natsFrom_pairwise_lt n s).imp Nat.ne_of_lt


/-! ## Characterizing the restore loops -/

/-- The id map a creation loop accumulates: each document id maps to the
next fresh primary key. -/
def idMapFrom {α : Type} (key : α → Nat) (nid : Nat) : List α → IdMap
  | [] => []
  | x :: rest => (key x, nid) :: idMapFrom key (nid + 1) rest

theorem mapLookup_cons_eq (p : Nat × Nat) (m : IdMap) (k : Nat)
    (h : p.1 = k) : mapLookup (p :: m) k = some p.2 := by
  simp [mapLookup, List.find?_cons_of_pos, h]

theorem mapLookup_cons_ne (p : Nat × Nat) (m : IdMap) (k : Nat)
    (h : ¬ p.1 = k) : mapLookup (p :: m) k = mapLookup m k := by
  rw [mapLookup, mapLookup, List.find?_cons_of_neg]
  simpa using h

theorem mapLookup_idMapFrom_isSome {α : Type} (key : α → Nat) (k : Nat) :
    ∀ (xs : List α) (nid : Nat), (∃ x ∈ xs, key x = k) →
      ∃ v, mapLookup (idMapFrom key nid xs) k = some v := by
  intro xs
  induction xs with
  | nil =>
      intro nid h
      rcases h with ⟨x, hx, _⟩
      cases hx
  | cons x rest ih =>
      intro nid h
      by_cases hk : key x == k
      · exact ⟨nid, by simp [idMapFrom, mapLookup, hk]⟩
      · rcases h with ⟨y, hy, hyk⟩
        rcases List.mem_cons.mp hy with rfl | hy'
        · exact absurd (by simp [hyk]) hk
        · obtain ⟨v, hv⟩ := ih (nid + 1) ⟨y, hy', hyk⟩
          refine ⟨v, ?_⟩
          simpa [idMapFrom, mapLookup, hk] using hv

theorem mapLookup_idMapFrom_bounds {α : Type} (key : α → Nat) (k : Nat) :
    ∀ (xs : List α) (nid v : Nat),
      mapLookup (idMapFrom key nid xs) k = some v →
      nid ≤ v ∧ v < nid + xs.length := by
  intro xs
  induction xs with
  | nil => intro nid v h; simp [idMapFrom, mapLookup] at h
  | cons x rest ih =>
      intro nid v h
      by_cases hk : key x == k
      · simp [idMapFrom, mapLookup, hk] at h
        simp only [List.length_cons]
        omega
      · rw [idMapFrom, mapLookup_cons_ne _ _ _ (by simpa using hk)] at h
        have := ih (nid + 1) v h
        simp only [List.length_cons]
        omega

theorem mapLookup_idMapFrom_inj {α : Type} (key : α → Nat) (k₁ k₂ : Nat) :
    ∀ (xs : List α) (nid v : Nat),
      mapLookup (idMapFrom key nid xs) k₁ = some v →
      mapLookup (idMapFrom key nid xs) k₂ = some v → k₁ = k₂ := by
  intro xs
  induction xs with
  | nil => intro nid v h; simp [idMapFrom, mapLookup] at h
  | cons x rest ih =>
      intro nid v h₁ h₂
      by_cases hk₁ : key x == k₁
      · by_cases hk₂ : key x == k₂
        · have e₁ : key x = k₁ := by simpa using hk₁
          have e₂ : key x = k₂ := by simpa using hk₂
          rw [← e₁, e₂]
        · simp [idMapFrom, mapLookup, hk₁] at h₁
          rw [idMapFrom, mapLookup_cons_ne _ _ _ (by simpa using hk₂)] at h₂
          have := mapLookup_idMapFrom_bounds key k₂ rest (nid + 1) v h₂
          omega
      · by_cases hk₂ : key x == k₂
        · simp [idMapFrom, mapLookup, hk₂] at h₂
          rw [idMapFrom, mapLookup_cons_ne _ _ _ (by simpa using hk₁)] at h₁
          have := mapLookup_idMapFrom_bounds key k₁ rest (nid + 1) v h₁
          omega
        · rw [idMapFrom, mapLookup_cons_ne _ _ _ (by simpa using hk₁)] at h₁
          rw [idMapFrom, mapLookup_cons_ne _ _ _ (by simpa using hk₂)] at h₂
          exact ih (nid + 1) v h₁ h₂

theorem resolveUser_by_id (users : List UserRow) (i : Nat)
    (un ue : Option String) (fb : Option Nat) (h : ∃ u ∈ users, u.id = i) :
    resolveUser users (some i) un ue fb = some i := by
  obtain ⟨u, hu, hui⟩ := h
  have hfind : ∃ v, users.find? (fun w => w.id == i) = some v := by
    cases hf : users.find? (fun w => w.id == i) with
    | none => exact absurd (by simp [hui]) (List.find?_eq_none.mp hf u hu)
    | some v => exact ⟨v, rfl⟩
  obtain ⟨v, hv⟩ := hfind
  have hvi : v.id = i := by simpa using List.find?_some hv
  simp [resolveUser, hv, hvi]

theorem resolveUser_none (users : List UserRow) :
    resolveUser users Option.none Option.none Option.none Option.none =
      Option.none := by
  simp [resolveUser]

/-- Common shape of every creation loop: one row per document entry, with a
fresh primary key and a fresh clock tick. -/
def rowsFromG {δ ρ : Type} (mk : δ → Nat → Nat → ρ) (nid clock : Nat) :
    List δ → List ρ
  | [] => []
  | d :: rest => mk d nid clock :: rowsFromG mk (nid + 1) (clock + 1) rest

/-- The database rows `_restore_databases` creates, in document order. -/
def dbRowsFrom (users : List UserRow) (acting nid clock : Nat)
    (ds : List DocDb) : List DbRow :=
  rowsFromG (fun d n c =>
    { id := n, name := d.name, description := d.description,
      created_by_id := (resolveUser users (some d.created_by_id) Option.none
        Option.none (some acting)).getD acting,
      created_at := c }) nid clock ds

theorem restoreDatabases_spec (users : List UserRow) (acting : Nat) :
    ∀ (ds : List DocDb) (st : OrgState) (dbMap : IdMap),
      restoreDatabases users acting st dbMap ds =
        ({ st with
            databases := st.databases ++ dbRowsFrom users acting st.nextId st.clock ds,
            nextId := st.nextId + ds.length,
            clock := st.clock + ds.length },
          dbMap ++ idMapFrom (fun d => d.id) st.nextId ds) := by
  intro ds
  induction ds with
  | nil =>
      intro st dbMap
      simp [restoreDatabases, dbRowsFrom, rowsFromG, idMapFrom]
  | cons d rest ih =>
      intro st dbMap
      rw [restoreDatabases, ih]
      have h1 : st.nextId + 1 + rest.length = st.nextId + (rest.length + 1) := by
        omega
      have h2 : st.clock + 1 + rest.length = st.clock + (rest.length + 1) := by
        omega
      simp [dbRowsFrom, rowsFromG, idMapFrom, List.append_assoc, h1, h2]

/-- The organism rows `_restore_organisms` creates (every document organism
whose database resolves). -/
def organismRowsFrom (dbMap : IdMap) (nid : Nat) (os : List DocOrganism) :
    List OrganismRow :=
  rowsFromG (fun o n _ =>
    { id := n,
      research_database_id := (mapLookup dbMap o.research_database_id).getD 0,
      name := o.name }) nid nid os

theorem restoreOrganisms_spec (dbMap : IdMap) :
    ∀ (os : List DocOrganism) (st : OrgState) (oMap : IdMap),
      (∀ o ∈ os, ∃ v, mapLookup dbMap o.research_database_id = some v) →
      restoreOrganisms dbMap st oMap os =
        ({ st with organisms := st.organisms ++ organismRowsFrom dbMap st.nextId os,
                   nextId := st.nextId + os.length },
          oMap ++ idMapFrom (fun o => o.id) st.nextId os) := by
  intro os
  induction os with
  | nil =>
      intro st oMap _
      simp [restoreOrganisms, organismRowsFrom, rowsFromG, idMapFrom]
  | cons o rest ih =>
      intro st oMap h
      obtain ⟨v, hv⟩ := h o (by simp)
      rw [restoreOrganisms, hv]
      dsimp only
      rw [ih _ _ fun x hx => h x (by simp [hx])]
      have h1 : st.nextId + 1 + rest.length = st.nextId + (rest.length + 1) := by
        omega
      simp [organismRowsFrom, rowsFromG, idMapFrom, List.append_assoc, h1, hv]

/-- The location rows `_restore_locations` creates. -/
def locationRowsFrom (dbMap : IdMap) (nid : Nat) (ls : List DocLocation) :
    List LocationRow :=
  rowsFromG (fun l n _ =>
    { id := n,
      research_database_id := (mapLookup dbMap l.research_database_id).getD 0,
      building := l.building, room := l.room, freezer := l.freezer,
      box := l.box, position := l.position }) nid nid ls

theorem restoreLocations_spec (dbMap : IdMap) :
    ∀ (ls : List DocLocation) (st : OrgState) (lMap : IdMap),
      (∀ l ∈ ls, ∃ v, mapLookup dbMap l.research_database_id = some v) →
      restoreLocations dbMap st lMap ls =
        ({ st with locations := st.locations ++ locationRowsFrom dbMap st.nextId ls,
                   nextId := st.nextId + ls.length },
          lMap ++ idMapFrom (fun l => l.id) st.nextId ls) := by
  intro ls
  induction ls with
  | nil =>
      intro st lMap _
      simp [restoreLocations, locationRowsFrom, rowsFromG, idMapFrom]
  | cons l rest ih =>
      intro st lMap h
      obtain ⟨v, hv⟩ := h l (by simp)
      rw [restoreLocations, hv]
      dsimp only
      rw [ih _ _ fun x hx => h x (by simp [hx])]
      have h1 : st.nextId + 1 + rest.length = st.nextId + (rest.length + 1) := by
        omega
      simp [locationRowsFrom, rowsFromG, idMapFrom, List.append_assoc, h1, hv]

/-- The plasmid rows `_restore_plasmids` creates. -/
def plasmidRowsFrom (dbMap : IdMap) (nid : Nat) (ps : List DocPlasmid) :
    List PlasmidRow :=
  rowsFromG (fun p n _ =>
    { id := n,
      research_database_id := (mapLookup dbMap p.research_database_id).getD 0,
      name := p.name, resistance_marker := p.resistance_marker,
      notes := p.notes }) nid nid ps

theorem restorePlasmids_spec (dbMap : IdMap) :
    ∀ (ps : List DocPlasmid) (st : OrgState) (pMap : IdMap),
      (∀ p ∈ ps, ∃ v, mapLookup dbMap p.research_database_id = some v) →
      restorePlasmids dbMap st pMap ps =
        ({ st with plasmids := st.plasmids ++ plasmidRowsFrom dbMap st.nextId ps,
                   nextId := st.nextId + ps.length },
          pMap ++ idMapFrom (fun p => p.id) st.nextId ps) := by
  intro ps
  induction ps with
  | nil =>
      intro st pMap _
      simp [restorePlasmids, plasmidRowsFrom, rowsFromG, idMapFrom]
  | cons p rest ih =>
      intro st pMap h
      obtain ⟨v, hv⟩ := h p (by simp)
      rw [restorePlasmids, hv]
      dsimp only
      rw [ih _ _ fun x hx => h x (by simp [hx])]
      have h1 : st.nextId + 1 + rest.length = st.nextId + (rest.length + 1) := by
        omega
      simp [plasmidRowsFrom, rowsFromG, idMapFrom, List.append_assoc, h1, hv]

/-- The definition rows `_restore_custom_fields` creates: `order` is always
the model default 0. -/
def fieldDefRowsFrom (users : List UserRow) (acting : Nat) (dbMap : IdMap)
    (nid clock : Nat) (fs : List DocField) : List FieldDefRow :=
  rowsFromG (fun f n c =>
    { id := n,
      research_database_id := (mapLookup dbMap f.research_database_id).getD 0,
      name := f.name, field_type := f.field_type, choices := f.choices,
      order := 0,
      created_by_id := (resolveUser users (some f.created_by_id) Option.none
        Option.none (some acting)).getD acting,
      created_at := c }) nid clock fs

theorem restoreFieldDefs_spec (users : List UserRow) (acting : Nat) (dbMap : IdMap) :
    ∀ (fs : List DocField) (st : OrgState) (fMap : IdMap),
      (∀ f ∈ fs, ∃ v, mapLookup dbMap f.research_database_id = some v) →
      restoreFieldDefs users acting dbMap st fMap fs =
        ({ st with
            fieldDefs := st.fieldDefs ++
              fieldDefRowsFrom users acting dbMap st.nextId st.clock fs,
            nextId := st.nextId + fs.length,
            clock := st.clock + fs.length },
          fMap ++ idMapFrom (fun f => f.id) st.nextId fs) := by
  intro fs
  induction fs with
  | nil =>
      intro st fMap _
      simp [restoreFieldDefs, fieldDefRowsFrom, rowsFromG, idMapFrom]
  | cons f rest ih =>
      intro st fMap h
      obtain ⟨v, hv⟩ := h f (by simp)
      rw [restoreFieldDefs, hv]
      dsimp only
      rw [ih _ _ fun x hx => h x (by simp [hx])]
      have h1 : st.nextId + 1 + rest.length = st.nextId + (rest.length + 1) := by
        omega
      have h2 : st.clock + 1 + rest.length = st.clock + (rest.length + 1) := by
        omega
      simp [fieldDefRowsFrom, rowsFromG, idMapFrom, List.append_assoc, h1, h2, hv]

/-- The strain rows `_restore_strains` creates: creation order, fresh
sequential `created_at`/`updated_at` ticks. -/
def strainRowsFrom (users : List UserRow) (acting : Nat)
    (dbMap organismMap locationMap : IdMap) (nid clock : Nat)
    (ss : List DocStrain) : List StrainRow :=
  rowsFromG (fun s n c =>
    { id := n,
      research_database_id := (mapLookup dbMap s.research_database_id).getD 0,
      strain_id := s.strain_id, name := s.name,
      organism_id := (mapLookup organismMap s.organism_id).getD 0,
      genotype := s.genotype, selective_marker := s.selective_marker,
      comments := s.comments,
      location_id := (mapLookup locationMap s.location_id).getD 0,
      status := s.status,
      created_by_id := (resolveUser users (some s.created_by_id) Option.none
        Option.none (some acting)).getD acting,
      created_at := c, updated_at := c,
      is_active := s.is_active, is_archived := s.is_archived,
      archived_at := s.archived_at,
      archived_by_id := resolveUser users s.archived_by_id Option.none
        Option.none Option.none }) nid clock ss

theorem restoreStrains_spec (users : List UserRow) (acting : Nat)
    (dbMap organismMap locationMap : IdMap) :
    ∀ (ss : List DocStrain) (st : OrgState) (sMap : IdMap),
      (∀ s ∈ ss, (∃ v, mapLookup dbMap s.research_database_id = some v) ∧
        (∃ v, mapLookup organismMap s.organism_id = some v) ∧
        (∃ v, mapLookup locationMap s.location_id = some v)) →
      restoreStrains users acting dbMap organismMap locationMap st sMap ss =
        ({ st with
            strains := st.strains ++
              strainRowsFrom users acting dbMap organismMap locationMap
                st.nextId st.clock ss,
            nextId := st.nextId + ss.length,
            clock := st.clock + ss.length },
          sMap ++ idMapFrom (fun s => s.id) st.nextId ss) := by
  intro ss
  induction ss with
  | nil =>
      intro st sMap _
      simp [restoreStrains, strainRowsFrom, rowsFromG, idMapFrom]
  | cons s rest ih =>
      intro st sMap h
      obtain ⟨⟨v₁, hv₁⟩, ⟨v₂, hv₂⟩, ⟨v₃, hv₃⟩⟩ := h s (by simp)
      rw [restoreStrains, hv₁, hv₂, hv₃]
      dsimp only
      rw [ih _ _ fun x hx => h x (by simp [hx])]
      have h1 : st.nextId + 1 + rest.length = st.nextId + (rest.length + 1) := by
        omega
      have h2 : st.clock + 1 + rest.length = st.clock + (rest.length + 1) := by
        omega
      simp [strainRowsFrom, rowsFromG, idMapFrom, List.append_assoc, h1, h2, hv₁, hv₂, hv₃]

/-- The audit rows `_restore_audit_logs` creates: every document entry, in
order, with a fresh timestamp; the database reference is dropped when it
does not resolve. -/
def auditRowsFrom (users : List UserRow) (dbMap : IdMap) (clock : Nat)
    (as' : List DocAudit) : List AuditRow :=
  rowsFromG (fun a _ c =>
    { database_id := mapLookup dbMap a.database_id,
      user_id := resolveUser users a.user_id Option.none Option.none Option.none,
      action := a.action, object_type := a.object_type,
      object_id := a.object_id, metadata := a.metadata,
      timestamp := c }) clock clock as'

theorem restoreAudits_spec (users : List UserRow) (dbMap : IdMap) :
    ∀ (as' : List DocAudit) (st : OrgState),
      restoreAudits users dbMap st as' =
        { st with
            auditLogs := st.auditLogs ++ auditRowsFrom users dbMap st.clock as',
            clock := st.clock + as'.length } := by
  intro as'
  induction as' with
  | nil => intro st; simp [restoreAudits, auditRowsFrom, rowsFromG]
  | cons a rest ih =>
      intro st
      rw [restoreAudits, ih]
      have h2 : st.clock + 1 + rest.length = st.clock + (rest.length + 1) := by
        omega
      simp [auditRowsFrom, rowsFromG, List.append_assoc, h2]

/-- Restoring members over a state that already holds every document member
with the same role touches nothing: `update_or_create` takes the update
branch and writes the role the row already has. -/
theorem restoreMembers_id (users : List UserRow) (acting : Nat) :
    ∀ (ms : List DocMember) (st : OrgState),
      (∀ m ∈ ms,
        (∃ u ∈ users, u.id = m.user_id) ∧
        (∃ mem ∈ st.members, mem.user_id = m.user_id) ∧
        (∀ mem ∈ st.members, mem.user_id = m.user_id → mem.role = m.role)) →
      restoreMembers users acting st ms = st := by
  intro ms
  induction ms with
  | nil => intro st _; rfl
  | cons m rest ih =>
      intro st h
      obtain ⟨hu, ⟨mem, hmem, hmemid⟩, hrole⟩ := h m (by simp)
      have huid : (resolveUser users (some m.user_id) (some m.username)
          (some m.email) (some acting)).getD acting = m.user_id := by
        rw [resolveUser_by_id users m.user_id _ _ _ hu]
        rfl
      rw [restoreMembers]
      rw [huid]
      have hany : (st.members.any fun mem => mem.user_id == m.user_id) = true :=
        List.any_eq_true.mpr ⟨mem, hmem, by simp [hmemid]⟩
      rw [if_pos hany]
      have hmap : (st.members.map fun mem =>
          if mem.user_id == m.user_id then { mem with role := m.role } else mem) =
          st.members := by
        apply list_map_self
        intro x hx
        by_cases hxid : x.user_id == m.user_id
        · rw [if_pos hxid, ← hrole x hx (by simpa using hxid)]
        · rw [if_neg hxid]
      rw [hmap]
      exact ih st fun x hx => h x (by simp [hx])

/-- The membership rows `_restore_database_memberships` creates when every
entry is a fresh pair. -/
def dbMemberRowsFrom (users : List UserRow) (acting : Nat) (dbMap : IdMap)
    (clock : Nat) (ms : List DocDbMember) : List DbMemberRow :=
  rowsFromG (fun m _ c =>
    { research_database_id := (mapLookup dbMap m.research_database_id).getD 0,
      user_id := (resolveUser users (some m.user_id) (some m.username)
        (some m.email) (some acting)).getD acting,
      role := m.role, created_at := c }) clock clock ms

theorem restoreDbMembers_spec (users : List UserRow) (acting : Nat) (dbMap : IdMap) :
    ∀ (ms : List DocDbMember) (st : OrgState),
      (∀ m ∈ ms, ∃ v, mapLookup dbMap m.research_database_id = some v) →
      (∀ m ∈ ms, ∀ x ∈ st.dbMembers,
        ¬(x.research_database_id = (mapLookup dbMap m.research_database_id).getD 0 ∧
          x.user_id = (resolveUser users (some m.user_id) (some m.username)
            (some m.email) (some acting)).getD acting)) →
      List.Pairwise (fun m₁ m₂ =>
        ¬((mapLookup dbMap m₁.research_database_id).getD 0 =
            (mapLookup dbMap m₂.research_database_id).getD 0 ∧
          (resolveUser users (some m₁.user_id) (some m₁.username)
              (some m₁.email) (some acting)).getD acting =
            (resolveUser users (some m₂.user_id) (some m₂.username)
              (some m₂.email) (some acting)).getD acting)) ms →
      restoreDbMembers users acting dbMap st ms =
        { st with
            dbMembers := st.dbMembers ++
              dbMemberRowsFrom users acting dbMap st.clock ms,
            clock := st.clock + ms.length } := by
  intro ms
  induction ms with
  | nil =>
      intro st _ _ _
      simp [restoreDbMembers, dbMemberRowsFrom, rowsFromG]
  | cons m rest ih =>
      intro st hres hnew hpw
      obtain ⟨v, hv⟩ := hres m (by simp)
      have hgd : (mapLookup dbMap m.research_database_id).getD 0 = v := by
        rw [hv]
        rfl
      rcases List.pairwise_cons.mp hpw with ⟨hhead, htail⟩
      rw [restoreDbMembers, hv]
      dsimp only
      have hany : (st.dbMembers.any fun x =>
          x.research_database_id == v &&
            x.user_id == (resolveUser users (some m.user_id) (some m.username)
              (some m.email) (some acting)).getD acting) = false := by
        apply List.any_eq_false.mpr
        intro x hx
        have hn := hnew m (by simp) x hx
        rw [hgd] at hn
        simp only [Bool.and_eq_true, beq_iff_eq, not_and]
        intro h1 h2
        exact hn ⟨h1, h2⟩
      rw [if_neg (by simp [hany])]
      refine Eq.trans (ih _ (fun x hx => hres x (by simp [hx])) ?_ htail) ?_
      · intro m' hm' x hx
        dsimp only at hx
        rcases List.mem_append.mp hx with hold | hnewrow
        · exact hnew m' (by simp [hm']) x hold
        · have hxe := List.mem_singleton.mp hnewrow
          subst hxe
          have hd := hhead m' hm'
          rw [hgd] at hd
          intro hc
          exact hd hc
      · have h2 : st.clock + 1 + rest.length = st.clock + (rest.length + 1) := by
          omega
        simp [dbMemberRowsFrom, rowsFromG, List.append_assoc, h2, hv]

/-- The links `_restore_strain_plasmids` creates when every document link is
a fresh pair. -/
def strainPlasmidRowsFrom (strainMap plasmidMap : IdMap)
    (rs : List DocStrainPlasmid) : List StrainPlasmidRow :=
  rs.map fun r =>
    { strain_id := (mapLookup strainMap r.strain_id).getD 0,
      plasmid_id := (mapLookup plasmidMap r.plasmid_id).getD 0 }

theorem restoreStrainPlasmids_spec (strainMap plasmidMap : IdMap) :
    ∀ (rs : List DocStrainPlasmid) (st : OrgState),
      (∀ r ∈ rs, (∃ v, mapLookup strainMap r.strain_id = some v) ∧
        (∃ v, mapLookup plasmidMap r.plasmid_id = some v)) →
      (∀ r ∈ rs, ∀ x ∈ st.strainPlasmids,
        ¬(x.strain_id = (mapLookup strainMap r.strain_id).getD 0 ∧
          x.plasmid_id = (mapLookup plasmidMap r.plasmid_id).getD 0)) →
      List.Pairwise (fun r₁ r₂ =>
        ¬((mapLookup strainMap r₁.strain_id).getD 0 =
            (mapLookup strainMap r₂.strain_id).getD 0 ∧
          (mapLookup plasmidMap r₁.plasmid_id).getD 0 =
            (mapLookup plasmidMap r₂.plasmid_id).getD 0)) rs →
      restoreStrainPlasmids strainMap plasmidMap st rs =
        { st with strainPlasmids := st.strainPlasmids ++
            strainPlasmidRowsFrom strainMap plasmidMap rs } := by
  intro rs
  induction rs with
  | nil =>
      intro st _ _ _
      simp [restoreStrainPlasmids, strainPlasmidRowsFrom, rowsFromG]
  | cons r rest ih =>
      intro st hres hnew hpw
      obtain ⟨⟨v₁, hv₁⟩, ⟨v₂, hv₂⟩⟩ := hres r (by simp)
      have hg₁ : (mapLookup strainMap r.strain_id).getD 0 = v₁ := by
        rw [hv₁]
        rfl
      have hg₂ : (mapLookup plasmidMap r.plasmid_id).getD 0 = v₂ := by
        rw [hv₂]
        rfl
      rcases List.pairwise_cons.mp hpw with ⟨hhead, htail⟩
      rw [restoreStrainPlasmids, hv₁, hv₂]
      dsimp only
      have hany : (st.strainPlasmids.any fun x =>
          x.strain_id == v₁ && x.plasmid_id == v₂) = false := by
        apply List.any_eq_false.mpr
        intro x hx
        have hn := hnew r (by simp) x hx
        rw [hg₁, hg₂] at hn
        simp only [Bool.and_eq_true, beq_iff_eq, not_and]
        intro h1 h2
        exact hn ⟨h1, h2⟩
      rw [if_neg (by simp [hany])]
      refine Eq.trans (ih _ (fun x hx => hres x (by simp [hx])) ?_ htail) ?_
      · intro r' hr' x hx
        dsimp only at hx
        rcases List.mem_append.mp hx with hold | hnewrow
        · exact hnew r' (by simp [hr']) x hold
        · have hxe := List.mem_singleton.mp hnewrow
          subst hxe
          have hd := hhead r' hr'
          rw [hg₁, hg₂] at hd
          intro hc
          exact hd hc
      · simp [strainPlasmidRowsFrom, rowsFromG, List.append_assoc, hv₁, hv₂]

/-- The value rows `_restore_custom_values` creates when every entry is a
fresh (strain, definition) pair: only the five legacy columns carry data,
every other typed column keeps its model default. -/
def fieldValueRowsFrom (strainMap fieldMap : IdMap)
    (vs : List DocFieldValue) : List CustomFieldValue :=
  vs.map fun v =>
    { strain_id := (mapLookup strainMap v.strain_id).getD 0,
      field_definition_id := (mapLookup fieldMap v.field_definition_id).getD 0,
      value_text := v.value_text, value_number := v.value_number,
      value_date := v.value_date, value_boolean := v.value_boolean,
      value_choice := v.value_choice }

theorem restoreFieldValues_spec (strainMap fieldMap : IdMap) :
    ∀ (vs : List DocFieldValue) (st : OrgState),
      (∀ v ∈ vs, (∃ w, mapLookup strainMap v.strain_id = some w) ∧
        (∃ w, mapLookup fieldMap v.field_definition_id = some w)) →
      (∀ v ∈ vs, ∀ x ∈ st.fieldValues,
        ¬(x.strain_id = (mapLookup strainMap v.strain_id).getD 0 ∧
          x.field_definition_id =
            (mapLookup fieldMap v.field_definition_id).getD 0)) →
      List.Pairwise (fun v₁ v₂ =>
        ¬((mapLookup strainMap v₁.strain_id).getD 0 =
            (mapLookup strainMap v₂.strain_id).getD 0 ∧
          (mapLookup fieldMap v₁.field_definition_id).getD 0 =
            (mapLookup fieldMap v₂.field_definition_id).getD 0)) vs →
      restoreFieldValues strainMap fieldMap st vs =
        { st with fieldValues := st.fieldValues ++
            fieldValueRowsFrom strainMap fieldMap vs } := by
  intro vs
  induction vs with
  | nil =>
      intro st _ _ _
      simp [restoreFieldValues, fieldValueRowsFrom, rowsFromG]
  | cons v rest ih =>
      intro st hres hnew hpw
      obtain ⟨⟨w₁, hw₁⟩, ⟨w₂, hw₂⟩⟩ := hres v (by simp)
      have hg₁ : (mapLookup strainMap v.strain_id).getD 0 = w₁ := by
        rw [hw₁]
        rfl
      have hg₂ : (mapLookup fieldMap v.field_definition_id).getD 0 = w₂ := by
        rw [hw₂]
        rfl
      rcases List.pairwise_cons.mp hpw with ⟨hhead, htail⟩
      have hfind : (st.fieldValues.find? fun x =>
          x.strain_id == w₁ && x.field_definition_id == w₂) = Option.none := by
        apply List.find?_eq_none.mpr
        intro x hx
        have hn := hnew v (by simp) x hx
        rw [hg₁, hg₂] at hn
        simp only [Bool.and_eq_true, beq_iff_eq, not_and]
        intro h1 h2
        exact hn ⟨h1, h2⟩
      have hgo : getOrCreate st.fieldValues w₁ w₂ =
          ({ strain_id := w₁, field_definition_id := w₂ }, true) := by
        rw [getOrCreate, hfind]
      rw [restoreFieldValues, hw₁, hw₂]
      dsimp only
      rw [hgo]
      dsimp only
      rw [putRow, if_pos rfl]
      refine Eq.trans (ih _ (fun x hx => hres x (by simp [hx])) ?_ htail) ?_
      · intro v' hv' x hx
        dsimp only at hx
        rcases List.mem_append.mp hx with hold | hnewrow
        · exact hnew v' (by simp [hv']) x hold
        · have hxe := List.mem_singleton.mp hnewrow
          subst hxe
          have hd := hhead v' hv'
          rw [hg₁, hg₂] at hd
          intro hc
          exact hd hc
      · simp [fieldValueRowsFrom, rowsFromG, List.append_assoc, hw₁, hw₂]


/-! ## Transporting document content across a creation loop -/

theorem rowsFromG_map {δ ρ γ : Type} (mk : δ → Nat → Nat → ρ) (g : ρ → γ)
    (g' : δ → γ) (hg : ∀ d n c, g (mk d n c) = g' d) :
    ∀ (ds : List δ) (nid clock : Nat),
      (rowsFromG mk nid clock ds).map g = ds.map g' := by
  intro ds
  induction ds with
  | nil => intro nid clock; rfl
  | cons d rest ih =>
      intro nid clock
      rw [rowsFromG, List.map_cons, List.map_cons, hg, ih]

theorem rowsFromG_map_id {δ ρ : Type} (mk : δ → Nat → Nat → ρ) (idOf : ρ → Nat)
    (hid : ∀ d n c, idOf (mk d n c) = n) :
    ∀ (ds : List δ) (nid clock : Nat),
      (rowsFromG mk nid clock ds).map idOf = natsFrom nid ds.length := by
  intro ds
  induction ds with
  | nil => intro nid clock; rfl
  | cons d rest ih =>
      intro nid clock
      rw [rowsFromG, List.map_cons, hid, List.length_cons, natsFrom, ih]

theorem rowsFromG_map_ts {δ ρ : Type} (mk : δ → Nat → Nat → ρ) (ts : ρ → Nat)
    (hts : ∀ d n c, ts (mk d n c) = c) :
    ∀ (ds : List δ) (nid clock : Nat),
      (rowsFromG mk nid clock ds).map ts = natsFrom clock ds.length := by
  intro ds
  induction ds with
  | nil => intro nid clock; rfl
  | cons d rest ih =>
      intro nid clock
      rw [rowsFromG, List.map_cons, hts, List.length_cons, natsFrom, ih]

theorem mem_rowsFromG {δ ρ : Type} (mk : δ → Nat → Nat → ρ) :
    ∀ (ds : List δ) (nid clock : Nat) (r : ρ), r ∈ rowsFromG mk nid clock ds →
      ∃ d ∈ ds, ∃ n c : Nat, r = mk d n c := by
  intro ds
  induction ds with
  | nil => intro nid clock r h; simp [rowsFromG] at h
  | cons d rest ih =>
      intro nid clock r h
      rw [rowsFromG, List.mem_cons] at h
      rcases h with rfl | h
      · exact ⟨d, by simp, nid, clock, rfl⟩
      · obtain ⟨d', hd', n, c, hr⟩ := ih (nid + 1) (clock + 1) r h
        exact ⟨d', by simp [hd'], n, c, hr⟩

/-- `find?` commutes with `map`. -/
theorem list_find?_map {α β : Type} (f : α → β) (p : β → Bool) :
    ∀ l : List α, (l.map f).find? p = (l.find? fun a => p (f a)).map f := by
  intro l
  induction l with
  | nil => rfl
  | cons a rest ih =>
      by_cases h : p (f a)
      · rw [List.map_cons]
        simp [List.find?_cons, h]
      · rw [List.map_cons]
        simp only [List.find?_cons, h, if_false, cond_false]
        simpa [h] using ih

theorem natsFrom_contains (v : Nat) (n s : Nat) (h₁ : s ≤ v) (h₂ : v < s + n) :
    (natsFrom s n).contains v = true := by
  have hmem : v ∈ natsFrom s n := (mem_natsFrom v n s).mpr ⟨h₁, h₂⟩
  exact List.elem_eq_true_of_mem hmem

/-- Looking a fresh id up among the created rows projects to the same value
as looking the old id up in the document section the loop consumed. -/
theorem rowsFromG_find_proj {δ ρ γ : Type} (mk : δ → Nat → Nat → ρ)
    (idOf : ρ → Nat) (g : ρ → γ) (g' : δ → γ) (key : δ → Nat)
    (hid : ∀ d n c, idOf (mk d n c) = n)
    (hg : ∀ d n c, g (mk d n c) = g' d) :
    ∀ (ds : List δ) (nid clock k v : Nat),
      mapLookup (idMapFrom key nid ds) k = some v →
      ((rowsFromG mk nid clock ds).find? fun r => idOf r == v).map g =
        (ds.find? fun d => key d == k).map g' := by
  intro ds
  induction ds with
  | nil => intro nid clock k v h; simp [idMapFrom, mapLookup] at h
  | cons d rest ih =>
      intro nid clock k v h
      by_cases hk : (key d == k) = true
      · rw [idMapFrom, mapLookup_cons_eq _ _ _ (by simpa using hk)] at h
        have hv : v = nid := by
          have h' := h.symm
          simpa using h'
        have hidv : (idOf (mk d nid clock) == v) = true := by simp [hid, hv]
        rw [rowsFromG]
        simp only [List.find?_cons, hidv, hk, cond_true, Option.map_some']
        rw [hg]
      · rw [idMapFrom, mapLookup_cons_ne _ _ _ (by simpa using hk)] at h
        have hb := mapLookup_idMapFrom_bounds key k rest (nid + 1) v h
        have hidv : (idOf (mk d nid clock) == v) = false := by
          simp [hid]
          omega
        have hk' : (key d == k) = false := by
          simpa using hk
        rw [rowsFromG]
        simp only [List.find?_cons, hidv, hk', cond_false]
        exact ih (nid + 1) (clock + 1) k v h

/-! ## Natural-key content of a snapshot document

A document's numeric ids are database-assigned surrogates that legitimately
change across a restore; the content of a row is what remains after each
foreign key is replaced by the referenced row's own content (database name,
organism name, location tuple, plasmid name, strain identifier, field
name). -/

def dbNameOf (doc : Doc) (i : Nat) : String :=
  ((doc.databases.find? fun d => d.id == i).map fun d => d.name).getD ""

def organismNameOf (doc : Doc) (i : Nat) : String :=
  ((doc.organisms.find? fun o => o.id == i).map fun o => o.name).getD ""

def locationKeyOf (doc : Doc) (i : Nat) : List String :=
  ((doc.locations.find? fun l => l.id == i).map fun l =>
    [l.building, l.room, l.freezer, l.box, l.position]).getD []

def plasmidNameOf (doc : Doc) (i : Nat) : String :=
  ((doc.plasmids.find? fun p => p.id == i).map fun p => p.name).getD ""

def strainKeyOf (doc : Doc) (i : Nat) : String :=
  ((doc.strains.find? fun s => s.id == i).map fun s => s.strain_id).getD ""

def fieldNameOf (doc : Doc) (i : Nat) : String :=
  ((doc.custom_fields.find? fun f => f.id == i).map fun f => f.name).getD ""

def dbContent (d : DocDb) : String × String × Nat :=
  (d.name, d.description, d.created_by_id)

def dbMemberContent (doc : Doc) (m : DocDbMember) :
    String × Nat × String × String × String :=
  (dbNameOf doc m.research_database_id, m.user_id, m.username, m.email, m.role)

def organismContent (doc : Doc) (o : DocOrganism) : String × String :=
  (dbNameOf doc o.research_database_id, o.name)

def locationContent (doc : Doc) (l : DocLocation) : String × List String :=
  (dbNameOf doc l.research_database_id,
    [l.building, l.room, l.freezer, l.box, l.position])

def plasmidContent (doc : Doc) (p : DocPlasmid) : String × String × String × String :=
  (dbNameOf doc p.research_database_id, p.name, p.resistance_marker, p.notes)

/-- Everything about a strain except its surrogate ids and its
`created_at`/`updated_at` stamps (which restore reassigns). -/
structure StrainContent where
  database : String
  strain_id : String
  name : String
  organism : String
  genotype : String
  selective_marker : String
  comments : String
  location : List String
  status : String
  created_by_id : Nat
  is_active : Bool
  is_archived : Bool
  archived_at : Option Nat
  archived_by_id : Option Nat
deriving DecidableEq, Repr

def strainContent (doc : Doc) (s : DocStrain) : StrainContent :=
  { database := dbNameOf doc s.research_database_id, strain_id := s.strain_id,
    name := s.name, organism := organismNameOf doc s.organism_id,
    genotype := s.genotype, selective_marker := s.selective_marker,
    comments := s.comments, location := locationKeyOf doc s.location_id,
    status := s.status, created_by_id := s.created_by_id,
    is_active := s.is_active, is_archived := s.is_archived,
    archived_at := s.archived_at, archived_by_id := s.archived_by_id }

def strainPlasmidContent (doc : Doc) (r : DocStrainPlasmid) : String × String :=
  (strainKeyOf doc r.strain_id, plasmidNameOf doc r.plasmid_id)

def fieldContent (doc : Doc) (f : DocField) :
    String × String × String × List String × Nat :=
  (dbNameOf doc f.research_database_id, f.name, f.field_type, f.choices,
    f.created_by_id)

def fieldValueContent (doc : Doc) (v : DocFieldValue) :
    String × String × Option String × Option Int × Option Nat × Option Bool ×
      Option String :=
  (strainKeyOf doc v.strain_id, fieldNameOf doc v.field_definition_id,
    v.value_text, v.value_number, v.value_date, v.value_boolean, v.value_choice)

def auditContent (doc : Doc) (a : DocAudit) :
    String × Option Nat × String × String × Option Int × List (String × String) :=
  (dbNameOf doc a.database_id, a.user_id, a.action, a.object_type, a.object_id,
    a.metadata)

/-! ## A well-formed organization state

The invariants Django's schema enforces on a live database: primary keys
are unique, foreign keys reference existing rows, and the unique-together
constraints on memberships, links and values hold.  `SnapWF` is decidable
so concrete states can discharge it by evaluation. -/

def SnapWF (st : OrgState) : Bool :=
  decide ((st.databases.map fun d => d.id).Nodup) &&
  decide ((st.members.map fun m => m.user_id).Nodup) &&
  (st.members.all fun m => st.users.any fun u => u.id == m.user_id) &&
  (st.dbMembers.all fun m =>
    (st.databases.map fun d => d.id).contains m.research_database_id &&
    (st.users.any fun u => u.id == m.user_id)) &&
  decide ((st.dbMembers.map fun m => (m.research_database_id, m.user_id)).Nodup) &&
  (st.organisms.all fun o =>
    (st.databases.map fun d => d.id).contains o.research_database_id) &&
  (st.locations.all fun l =>
    (st.databases.map fun d => d.id).contains l.research_database_id) &&
  (st.plasmids.all fun p =>
    (st.databases.map fun d => d.id).contains p.research_database_id) &&
  (st.databases.all fun d => st.users.any fun u => u.id == d.created_by_id) &&
  (st.strains.all fun s =>
    (st.databases.map fun d => d.id).contains s.research_database_id &&
    (st.organisms.map fun o => o.id).contains s.organism_id &&
    (st.locations.map fun l => l.id).contains s.location_id &&
    (st.users.any fun u => u.id == s.created_by_id) &&
    (match s.archived_by_id with
     | Option.none => true
     | some u => st.users.any fun w => w.id == u)) &&
  (st.strainPlasmids.all fun r =>
    (st.strains.map fun s => s.id).contains r.strain_id &&
    (st.plasmids.map fun p => p.id).contains r.plasmid_id) &&
  decide ((st.strainPlasmids.map fun r => (r.strain_id, r.plasmid_id)).Nodup) &&
  (st.fieldDefs.all fun f =>
    (st.databases.map fun d => d.id).contains f.research_database_id &&
    (st.users.any fun u => u.id == f.created_by_id)) &&
  (st.fieldValues.all fun v =>
    (st.strains.map fun s => s.id).contains v.strain_id &&
    (st.fieldDefs.map fun f => f.id).contains v.field_definition_id) &&
  decide ((st.fieldValues.map fun v => (v.strain_id, v.field_definition_id)).Nodup) &&
  (st.auditLogs.all fun a =>
    (match a.database_id with
     | Option.none => true
     | some d => (st.databases.map fun x => x.id).contains d) &&
    (match a.user_id with
     | Option.none => true
     | some u => st.users.any fun w => w.id == u))

/-- The state a successful restore of a state's own export produces,
written out loop by loop. -/
def roundTripState (st : OrgState) (acting : Nat) : OrgState :=
  let doc := buildOrganizationSnapshot st
  let users := st.users
  let dbIds := st.databases.map fun d => d.id
  let keptLogs := st.auditLogs.filter fun a =>
    match a.database_id with
    | some d => !dbIds.contains d
    | Option.none => true
  let n0 := st.nextId
  let c0 := st.clock
  let dbMap := idMapFrom (fun d => d.id) n0 doc.databases
  let n1 := n0 + doc.databases.length
  let c1 := c0 + doc.databases.length
  let c2 := c1 + doc.database_memberships.length
  let oMap := idMapFrom (fun o => o.id) n1 doc.organisms
  let n2 := n1 + doc.organisms.length
  let lMap := idMapFrom (fun l => l.id) n2 doc.locations
  let n3 := n2 + doc.locations.length
  let pMap := idMapFrom (fun p => p.id) n3 doc.plasmids
  let n4 := n3 + doc.plasmids.length
  let sMap := idMapFrom (fun s => s.id) n4 doc.strains
  let n5 := n4 + doc.strains.length
  let c3 := c2 + doc.strains.length
  let fMap := idMapFrom (fun f => f.id) n5 doc.custom_fields
  let n6 := n5 + doc.custom_fields.length
  let c4 := c3 + doc.custom_fields.length
  let c5 := c4 + doc.audit_logs.length
  { org :=
      { st.org with name := doc.organization.name, slug := doc.organization.slug }
    users := st.users
    members := st.members
    databases := dbRowsFrom users acting n0 c0 doc.databases
    dbMembers := dbMemberRowsFrom users acting dbMap c1 doc.database_memberships
    organisms := organismRowsFrom dbMap n1 doc.organisms
    locations := locationRowsFrom dbMap n2 doc.locations
    plasmids := plasmidRowsFrom dbMap n3 doc.plasmids
    strains := strainRowsFrom users acting dbMap oMap lMap n4 c2 doc.strains
    strainPlasmids := strainPlasmidRowsFrom sMap pMap doc.strain_plasmids
    fieldDefs := fieldDefRowsFrom users acting dbMap n5 c3 doc.custom_fields
    fieldValues := fieldValueRowsFrom sMap fMap doc.field_values
    auditLogs := (keptLogs ++ auditRowsFrom users dbMap c4 doc.audit_logs) ++
      [{ database_id := Option.none, user_id := some acting,
         action := "organization_snapshot_restore",
         object_type := "Organization",
         object_id := some (st.org.id : Int),
         metadata := [("organization_uuid", st.org.uuid),
                      ("restored_at", toString c5), ("version", doc.version)],
         timestamp := c5 }]
    nextId := n6
    clock := c5 + 1 }

/-! Projections of the export document, stated once so later proofs can
rewrite section by section. -/

theorem build_version (st : OrgState) :
    (buildOrganizationSnapshot st).version = "1.0" := rfl

theorem build_exported_at (st : OrgState) :
    (buildOrganizationSnapshot st).exported_at = st.clock := rfl

theorem build_organization (st : OrgState) :
    (buildOrganizationSnapshot st).organization =
      { id := st.org.id, uuid := st.org.uuid, name := st.org.name,
        slug := st.org.slug, created_by_id := st.org.created_by_id,
        created_at := st.org.created_at } := rfl

theorem build_members (st : OrgState) :
    (buildOrganizationSnapshot st).members =
      (sortBy (fun a b =>
        strLeB (userOf st a.user_id).username (userOf st b.user_id).username)
        st.members).map fun m =>
      { user_id := m.user_id, username := (userOf st m.user_id).username,
        email := (userOf st m.user_id).email, role := m.role,
        joined_at := m.joined_at } := rfl

theorem build_databases (st : OrgState) :
    (buildOrganizationSnapshot st).databases =
      (sortBy (fun a b => strLeB a.name b.name) st.databases).map fun d =>
      { id := d.id, name := d.name, description := d.description,
        created_by_id := d.created_by_id, created_at := d.created_at } := rfl

theorem build_database_memberships (st : OrgState) :
    (buildOrganizationSnapshot st).database_memberships =
      (sortBy (fun a b =>
        let na := ((st.databases.find? fun d => d.id == a.research_database_id).map
          fun d => d.name).getD ""
        let nb := ((st.databases.find? fun d => d.id == b.research_database_id).map
          fun d => d.name).getD ""
        charsLt na.data nb.data ||
          (na == nb &&
            strLeB (userOf st a.user_id).username (userOf st b.user_id).username))
        (st.dbMembers.filter fun m =>
          (st.databases.map fun d => d.id).contains m.research_database_id)).map
        fun m =>
      { research_database_id := m.research_database_id, user_id := m.user_id,
        username := (userOf st m.user_id).username,
        email := (userOf st m.user_id).email, role := m.role,
        created_at := m.created_at } := rfl

theorem build_organisms (st : OrgState) :
    (buildOrganizationSnapshot st).organisms =
      (st.organisms.filter fun o =>
        (st.databases.map fun d => d.id).contains o.research_database_id).map
        fun o =>
      { id := o.id, research_database_id := o.research_database_id,
        name := o.name } := rfl

theorem build_locations (st : OrgState) :
    (buildOrganizationSnapshot st).locations =
      (st.locations.filter fun l =>
        (st.databases.map fun d => d.id).contains l.research_database_id).map
        fun l =>
      { id := l.id, research_database_id := l.research_database_id,
        building := l.building, room := l.room, freezer := l.freezer,
        box := l.box, position := l.position } := rfl

theorem build_plasmids (st : OrgState) :
    (buildOrganizationSnapshot st).plasmids =
      (st.plasmids.filter fun p =>
        (st.databases.map fun d => d.id).contains p.research_database_id).map
        fun p =>
      { id := p.id, research_database_id := p.research_database_id,
        name := p.name, resistance_marker := p.resistance_marker,
        notes := p.notes } := rfl

theorem build_strains (st : OrgState) :
    (buildOrganizationSnapshot st).strains =
      (sortBy (fun a b => decide (b.updated_at ≤ a.updated_at))
        (st.strains.filter fun s =>
          (st.databases.map fun d => d.id).contains s.research_database_id)).map
        fun s =>
      { id := s.id, research_database_id := s.research_database_id,
        strain_id := s.strain_id, name := s.name, organism_id := s.organism_id,
        genotype := s.genotype, selective_marker := s.selective_marker,
        comments := s.comments, location_id := s.location_id, status := s.status,
        created_by_id := s.created_by_id, created_at := s.created_at,
        updated_at := s.updated_at, is_active := s.is_active,
        is_archived := s.is_archived, archived_at := s.archived_at,
        archived_by_id := s.archived_by_id } := rfl

theorem build_strain_plasmids (st : OrgState) :
    (buildOrganizationSnapshot st).strain_plasmids =
      (st.strainPlasmids.filter fun r =>
        ((sortBy (fun a b => decide (b.updated_at ≤ a.updated_at))
          (st.strains.filter fun s =>
            (st.databases.map fun d => d.id).contains s.research_database_id)).map
          fun s => s.id).contains r.strain_id).map fun r =>
      { strain_id := r.strain_id, plasmid_id := r.plasmid_id } := rfl

theorem build_custom_fields (st : OrgState) :
    (buildOrganizationSnapshot st).custom_fields =
      (sortBy (fun a b =>
        decide (a.order < b.order) || (a.order == b.order && decide (a.id ≤ b.id)))
        (st.fieldDefs.filter fun f =>
          (st.databases.map fun d => d.id).contains f.research_database_id)).map
        fun f =>
      { id := f.id, research_database_id := f.research_database_id,
        name := f.name, field_type := f.field_type, choices := f.choices,
        created_by_id := f.created_by_id, created_at := f.created_at } := rfl

theorem build_field_values (st : OrgState) :
    (buildOrganizationSnapshot st).field_values =
      (st.fieldValues.filter fun v =>
        ((sortBy (fun a b => decide (b.updated_at ≤ a.updated_at))
          (st.strains.filter fun s =>
            (st.databases.map fun d => d.id).contains s.research_database_id)).map
          fun s => s.id).contains v.strain_id &&
        ((sortBy (fun a b =>
          decide (a.order < b.order) || (a.order == b.order && decide (a.id ≤ b.id)))
          (st.fieldDefs.filter fun f =>
            (st.databases.map fun d => d.id).contains f.research_database_id)).map
          fun f => f.id).contains v.field_definition_id).map fun v =>
      { strain_id := v.strain_id, field_definition_id := v.field_definition_id,
        value_text := v.value_text, value_number := v.value_number,
        value_date := v.value_date, value_boolean := v.value_boolean,
        value_choice := v.value_choice } := rfl

theorem build_audit_logs (st : OrgState) :
    (buildOrganizationSnapshot st).audit_logs =
      (sortBy (fun a b => decide (b.timestamp ≤ a.timestamp))
        (st.auditLogs.filter fun a =>
          match a.database_id with
          | some d => (st.databases.map fun x => x.id).contains d
          | Option.none => false)).map fun a =>
      { database_id := a.database_id.getD 0, user_id := a.user_id,
        action := a.action, object_type := a.object_type,
        object_id := a.object_id, metadata := a.metadata,
        timestamp := a.timestamp } := rfl

/-! ## The export of a well-formed state satisfies every loop's hypotheses -/

theorem pairwise_ne_of_nodup_map {α β : Type} (f : α → β) (l : List α)
    (h : (l.map f).Nodup) : l.Pairwise fun a b => f a ≠ f b :=
  List.pairwise_map.mp h

theorem inj_of_nodup_map {α β : Type} (f : α → β) (l : List α)
    (h : (l.map f).Nodup) :
    ∀ x ∈ l, ∀ y ∈ l, f x = f y → x = y := by
  induction l with
  | nil => intro x hx; cases hx
  | cons a rest ih =>
      intro x hx y hy hxy
      rw [List.map_cons, List.nodup_cons] at h
      rcases List.mem_cons.mp hx with rfl | hx' <;>
        rcases List.mem_cons.mp hy with rfl | hy'
      · rfl
      · exact absurd (hxy ▸ List.mem_map_of_mem f hy') h.1
      · exact absurd (hxy ▸ List.mem_map_of_mem f hx') h.1
      · exact ih h.2 x hx' y hy' hxy

/-- Every database id of the state appears in the exported `databases`
section, so it is a key of the id map the databases loop builds. -/
theorem docdb_key (st : OrgState) (base i : Nat)
    (hi : (st.databases.map fun d => d.id).contains i = true) :
    ∃ v, mapLookup (idMapFrom (fun d => d.id) base
      (buildOrganizationSnapshot st).databases) i = some v := by
  apply mapLookup_idMapFrom_isSome
  have hmem : i ∈ st.databases.map fun d => d.id := List.mem_of_elem_eq_true hi
  rw [List.mem_map] at hmem
  obtain ⟨r, hr, hri⟩ := hmem
  refine
    ⟨{ id := r.id, name := r.name, description := r.description,
       created_by_id := r.created_by_id, created_at := r.created_at },
     ?_, hri⟩
  rw [build_databases, List.mem_map]
  exact ⟨r, (mem_sortBy _ _ _).mpr hr, rfl⟩

/-- The members section satisfies the update-only hypotheses of
`restoreMembers_id`. -/
theorem doc_members_hyp (st : OrgState)
    (w2 : ((st.members.map fun m => m.user_id).Nodup))
    (w3 : (st.members.all fun m => st.users.any fun u => u.id == m.user_id) = true) :
    ∀ m ∈ (buildOrganizationSnapshot st).members,
      (∃ u ∈ st.users, u.id = m.user_id) ∧
      (∃ mem ∈ st.members, mem.user_id = m.user_id) ∧
      (∀ mem ∈ st.members, mem.user_id = m.user_id → mem.role = m.role) := by
  intro m hm
  rw [build_members, List.mem_map] at hm
  obtain ⟨r, hr, rfl⟩ := hm
  have hrmem : r ∈ st.members := (mem_sortBy _ _ _).mp hr
  refine ⟨?_, ⟨r, hrmem, rfl⟩, ?_⟩
  · obtain ⟨u, hu, huid⟩ := List.any_eq_true.mp ((List.all_eq_true.mp w3) r hrmem)
    exact ⟨u, hu, by simpa using huid⟩
  · intro mem hmem hid
    have : mem = r := inj_of_nodup_map _ _ w2 mem hmem r hrmem hid
    rw [this]

/-- Each exported database-membership references an exported database. -/
theorem doc_dbm_res (st : OrgState) (base : Nat) :
    ∀ m ∈ (buildOrganizationSnapshot st).database_memberships,
      ∃ v, mapLookup (idMapFrom (fun d => d.id) base
        (buildOrganizationSnapshot st).databases) m.research_database_id = some v := by
  intro m hm
  rw [build_database_memberships, List.mem_map] at hm
  obtain ⟨r, hr, rfl⟩ := hm
  have hrmem := (mem_sortBy _ _ _).mp hr
  exact docdb_key st base _ (List.mem_filter.mp hrmem).2

/-- Each exported organism references an exported database. -/
theorem doc_org_res (st : OrgState) (base : Nat) :
    ∀ o ∈ (buildOrganizationSnapshot st).organisms,
      ∃ v, mapLookup (idMapFrom (fun d => d.id) base
        (buildOrganizationSnapshot st).databases) o.research_database_id = some v := by
  intro o ho
  rw [build_organisms, List.mem_map] at ho
  obtain ⟨r, hr, rfl⟩ := ho
  exact docdb_key st base _ (List.mem_filter.mp hr).2

/-- Each exported location references an exported database. -/
theorem doc_loc_res (st : OrgState) (base : Nat) :
    ∀ l ∈ (buildOrganizationSnapshot st).locations,
      ∃ v, mapLookup (idMapFrom (fun d => d.id) base
        (buildOrganizationSnapshot st).databases) l.research_database_id = some v := by
  intro l hl
  rw [build_locations, List.mem_map] at hl
  obtain ⟨r, hr, rfl⟩ := hl
  exact docdb_key st base _ (List.mem_filter.mp hr).2

/-- Each exported plasmid references an exported database. -/
theorem doc_plas_res (st : OrgState) (base : Nat) :
    ∀ p ∈ (buildOrganizationSnapshot st).plasmids,
      ∃ v, mapLookup (idMapFrom (fun d => d.id) base
        (buildOrganizationSnapshot st).databases) p.research_database_id = some v := by
  intro p hp
  rw [build_plasmids, List.mem_map] at hp
  obtain ⟨r, hr, rfl⟩ := hp
  exact docdb_key st base _ (List.mem_filter.mp hr).2

/-- Each exported custom-field definition references an exported database. -/
theorem doc_field_res (st : OrgState) (base : Nat) :
    ∀ f ∈ (buildOrganizationSnapshot st).custom_fields,
      ∃ v, mapLookup (idMapFrom (fun d => d.id) base
        (buildOrganizationSnapshot st).databases) f.research_database_id = some v := by
  intro f hf
  rw [build_custom_fields, List.mem_map] at hf
  obtain ⟨r, hr, rfl⟩ := hf
  have hrmem := (mem_sortBy _ _ _).mp hr
  exact docdb_key st base _ (List.mem_filter.mp hrmem).2

/-- Each exported strain references an exported database, organism and
location. -/
theorem doc_strain_res (st : OrgState) (b₁ b₂ b₃ : Nat)
    (w6 : (st.organisms.all fun o =>
      (st.databases.map fun d => d.id).contains o.research_database_id) = true)
    (w7 : (st.locations.all fun l =>
      (st.databases.map fun d => d.id).contains l.research_database_id) = true)
    (w10 : (st.strains.all fun s =>
      (st.databases.map fun d => d.id).contains s.research_database_id &&
      (st.organisms.map fun o => o.id).contains s.organism_id &&
      (st.locations.map fun l => l.id).contains s.location_id &&
      (st.users.any fun u => u.id == s.created_by_id) &&
      (match s.archived_by_id with
       | Option.none => true
       | some u => st.users.any fun w => w.id == u)) = true) :
    ∀ s ∈ (buildOrganizationSnapshot st).strains,
      (∃ v, mapLookup (idMapFrom (fun d => d.id) b₁
        (buildOrganizationSnapshot st).databases) s.research_database_id = some v) ∧
      (∃ v, mapLookup (idMapFrom (fun o => o.id) b₂
        (buildOrganizationSnapshot st).organisms) s.organism_id = some v) ∧
      (∃ v, mapLookup (idMapFrom (fun l => l.id) b₃
        (buildOrganizationSnapshot st).locations) s.location_id = some v) := by
  intro s hs
  rw [build_strains, List.mem_map] at hs
  obtain ⟨r, hr, rfl⟩ := hs
  have hrf := (mem_sortBy _ _ _).mp hr
  have hrmem := (List.mem_filter.mp hrf).1
  have hrdb := (List.mem_filter.mp hrf).2
  have hw := (List.all_eq_true.mp w10) r hrmem
  simp only [Bool.and_eq_true] at hw
  refine ⟨docdb_key st b₁ _ hrdb, ?_, ?_⟩
  · apply mapLookup_idMapFrom_isSome
    have hmem : r.organism_id ∈ st.organisms.map fun o => o.id :=
      List.mem_of_elem_eq_true hw.1.1.1.2
    rw [List.mem_map] at hmem
    obtain ⟨orow, ho, hoid⟩ := hmem
    refine
      ⟨{ id := orow.id, research_database_id := orow.research_database_id,
         name := orow.name },
       ?_, hoid⟩
    rw [build_organisms, List.mem_map]
    refine ⟨orow, List.mem_filter.mpr ⟨ho, ?_⟩, rfl⟩
    exact (List.all_eq_true.mp w6) orow ho
  · apply mapLookup_idMapFrom_isSome
    have hmem : r.location_id ∈ st.locations.map fun l => l.id :=
      List.mem_of_elem_eq_true hw.1.1.2
    rw [List.mem_map] at hmem
    obtain ⟨lrow, hl, hlid⟩ := hmem
    refine
      ⟨{ id := lrow.id, research_database_id := lrow.research_database_id,
         building := lrow.building, room := lrow.room, freezer := lrow.freezer,
         box := lrow.box, position := lrow.position },
       ?_, hlid⟩
    rw [build_locations, List.mem_map]
    refine ⟨lrow, List.mem_filter.mpr ⟨hl, ?_⟩, rfl⟩
    exact (List.all_eq_true.mp w7) lrow hl

/-- Each exported strain-plasmid link references an exported strain and an
exported plasmid. -/
theorem doc_sp_res (st : OrgState) (b₁ b₂ : Nat)
    (w8 : (st.plasmids.all fun p =>
      (st.databases.map fun d => d.id).contains p.research_database_id) = true)
    (w11 : (st.strainPlasmids.all fun r =>
      (st.strains.map fun s => s.id).contains r.strain_id &&
      (st.plasmids.map fun p => p.id).contains r.plasmid_id) = true) :
    ∀ r ∈ (buildOrganizationSnapshot st).strain_plasmids,
      (∃ v, mapLookup (idMapFrom (fun s => s.id) b₁
        (buildOrganizationSnapshot st).strains) r.strain_id = some v) ∧
      (∃ v, mapLookup (idMapFrom (fun p => p.id) b₂
        (buildOrganizationSnapshot st).plasmids) r.plasmid_id = some v) := by
  intro r hr
  rw [build_strain_plasmids, List.mem_map] at hr
  obtain ⟨x, hx, rfl⟩ := hr
  have hxmem := (List.mem_filter.mp hx).1
  have hxstr := (List.mem_filter.mp hx).2
  constructor
  · apply mapLookup_idMapFrom_isSome
    have hmem : x.strain_id ∈ (sortBy (fun a b => decide (b.updated_at ≤ a.updated_at))
        (st.strains.filter fun s =>
          (st.databases.map fun d => d.id).contains s.research_database_id)).map
        fun s => s.id :=
      List.mem_of_elem_eq_true hxstr
    rw [List.mem_map] at hmem
    obtain ⟨srow, hsrow, hsid⟩ := hmem
    refine
      ⟨{ id := srow.id, research_database_id := srow.research_database_id,
         strain_id := srow.strain_id, name := srow.name,
         organism_id := srow.organism_id, genotype := srow.genotype,
         selective_marker := srow.selective_marker, comments := srow.comments,
         location_id := srow.location_id, status := srow.status,
         created_by_id := srow.created_by_id, created_at := srow.created_at,
         updated_at := srow.updated_at, is_active := srow.is_active,
         is_archived := srow.is_archived, archived_at := srow.archived_at,
         archived_by_id := srow.archived_by_id },
       ?_, hsid⟩
    rw [build_strains, List.mem_map]
    exact ⟨srow, hsrow, rfl⟩
  · apply mapLookup_idMapFrom_isSome
    have hw := (List.all_eq_true.mp w11) x hxmem
    simp only [Bool.and_eq_true] at hw
    have hmem : x.plasmid_id ∈ st.plasmids.map fun p => p.id :=
      List.mem_of_elem_eq_true hw.2
    rw [List.mem_map] at hmem
    obtain ⟨prow, hp, hpid⟩ := hmem
    refine
      ⟨{ id := prow.id, research_database_id := prow.research_database_id,
         name := prow.name, resistance_marker := prow.resistance_marker,
         notes := prow.notes },
       ?_, hpid⟩
    rw [build_plasmids, List.mem_map]
    refine ⟨prow, List.mem_filter.mpr ⟨hp, ?_⟩, rfl⟩
    exact (List.all_eq_true.mp w8) prow hp

/-- Each exported custom value references an exported strain and an exported
definition. -/
theorem doc_fv_res (st : OrgState) (b₁ b₂ : Nat) :
    ∀ v ∈ (buildOrganizationSnapshot st).field_values,
      (∃ w, mapLookup (idMapFrom (fun s => s.id) b₁
        (buildOrganizationSnapshot st).strains) v.strain_id = some w) ∧
      (∃ w, mapLookup (idMapFrom (fun f => f.id) b₂
        (buildOrganizationSnapshot st).custom_fields) v.field_definition_id = some w) := by
  intro v hv
  rw [build_field_values, List.mem_map] at hv
  obtain ⟨x, hx, rfl⟩ := hv
  have hxcond := (List.mem_filter.mp hx).2
  simp only [Bool.and_eq_true] at hxcond
  constructor
  · apply mapLookup_idMapFrom_isSome
    have hmem := List.mem_of_elem_eq_true hxcond.1
    rw [List.mem_map] at hmem
    obtain ⟨srow, hsrow, hsid⟩ := hmem
    refine
      ⟨{ id := srow.id, research_database_id := srow.research_database_id,
         strain_id := srow.strain_id, name := srow.name,
         organism_id := srow.organism_id, genotype := srow.genotype,
         selective_marker := srow.selective_marker, comments := srow.comments,
         location_id := srow.location_id, status := srow.status,
         created_by_id := srow.created_by_id, created_at := srow.created_at,
         updated_at := srow.updated_at, is_active := srow.is_active,
         is_archived := srow.is_archived, archived_at := srow.archived_at,
         archived_by_id := srow.archived_by_id },
       ?_, hsid⟩
    rw [build_strains, List.mem_map]
    exact ⟨srow, hsrow, rfl⟩
  · apply mapLookup_idMapFrom_isSome
    have hmem := List.mem_of_elem_eq_true hxcond.2
    rw [List.mem_map] at hmem
    obtain ⟨frow, hfrow, hfid⟩ := hmem
    refine
      ⟨{ id := frow.id, research_database_id := frow.research_database_id,
         name := frow.name, field_type := frow.field_type,
         choices := frow.choices, created_by_id := frow.created_by_id,
         created_at := frow.created_at },
       ?_, hfid⟩
    rw [build_custom_fields, List.mem_map]
    exact ⟨frow, hfrow, rfl⟩

/-- A document membership row's user resolves to itself. -/
theorem doc_dbm_user (st : OrgState)
    (w4 : (st.dbMembers.all fun m =>
      (st.databases.map fun d => d.id).contains m.research_database_id &&
      (st.users.any fun u => u.id == m.user_id)) = true) :
    ∀ m ∈ (buildOrganizationSnapshot st).database_memberships,
      ∃ u ∈ st.users, u.id = m.user_id := by
  intro m hm
  rw [build_database_memberships, List.mem_map] at hm
  obtain ⟨r, hr, rfl⟩ := hm
  have hrmem := (List.mem_filter.mp ((mem_sortBy _ _ _).mp hr)).1
  have hw := (List.all_eq_true.mp w4) r hrmem
  simp only [Bool.and_eq_true] at hw
  obtain ⟨u, hu, huid⟩ := List.any_eq_true.mp hw.2
  exact ⟨u, hu, by simpa using huid⟩

/-- Distinct exported memberships stay distinct after id remapping and user
resolution. -/
theorem doc_dbm_pairs (st : OrgState) (base acting : Nat)
    (w4 : (st.dbMembers.all fun m =>
      (st.databases.map fun d => d.id).contains m.research_database_id &&
      (st.users.any fun u => u.id == m.user_id)) = true)
    (w5 : ((st.dbMembers.map fun m =>
      (m.research_database_id, m.user_id)).Nodup)) :
    List.Pairwise (fun m₁ m₂ =>
      ¬((mapLookup (idMapFrom (fun d => d.id) base
            (buildOrganizationSnapshot st).databases) m₁.research_database_id).getD 0 =
          (mapLookup (idMapFrom (fun d => d.id) base
            (buildOrganizationSnapshot st).databases) m₂.research_database_id).getD 0 ∧
        (resolveUser st.users (some m₁.user_id) (some m₁.username)
            (some m₁.email) (some acting)).getD acting =
          (resolveUser st.users (some m₂.user_id) (some m₂.username)
            (some m₂.email) (some acting)).getD acting))
      (buildOrganizationSnapshot st).database_memberships := by
  have hnodup : ((buildOrganizationSnapshot st).database_memberships.map fun m =>
      (m.research_database_id, m.user_id)).Nodup := by
    rw [build_database_memberships, List.map_map]
    show ((sortBy _ (st.dbMembers.filter _)).map fun m =>
      (m.research_database_id, m.user_id)).Nodup
    refine ((sortBy_perm _ _).map _).nodup_iff.mpr ?_
    refine List.Nodup.sublist ?_ w5
    exact List.Sublist.map _ (List.filter_sublist _)
  refine List.Pairwise.imp_of_mem ?_ (pairwise_ne_of_nodup_map _ _ hnodup)
  intro m₁ m₂ hm₁ hm₂ hne hc
  obtain ⟨v₁, hv₁⟩ := doc_dbm_res st base m₁ hm₁
  obtain ⟨v₂, hv₂⟩ := doc_dbm_res st base m₂ hm₂
  obtain ⟨u₁, hu₁mem, hu₁⟩ := doc_dbm_user st w4 m₁ hm₁
  obtain ⟨u₂, hu₂mem, hu₂⟩ := doc_dbm_user st w4 m₂ hm₂
  have hr₁ : (resolveUser st.users (some m₁.user_id) (some m₁.username)
      (some m₁.email) (some acting)).getD acting = m₁.user_id := by
    rw [resolveUser_by_id st.users m₁.user_id _ _ _ ⟨u₁, hu₁mem, hu₁⟩]
    rfl
  have hr₂ : (resolveUser st.users (some m₂.user_id) (some m₂.username)
      (some m₂.email) (some acting)).getD acting = m₂.user_id := by
    rw [resolveUser_by_id st.users m₂.user_id _ _ _ ⟨u₂, hu₂mem, hu₂⟩]
    rfl
  rw [hr₁, hr₂, hv₁, hv₂] at hc
  have hc1 : v₁ = v₂ := hc.1
  have hc2 : m₁.user_id = m₂.user_id := hc.2
  have hv₂' : mapLookup (idMapFrom (fun d => d.id) base
      (buildOrganizationSnapshot st).databases) m₂.research_database_id =
      some v₁ := by
    rw [hc1]
    exact hv₂
  have hdb : m₁.research_database_id = m₂.research_database_id :=
    mapLookup_idMapFrom_inj _ _ _ _ _ _ hv₁ hv₂'
  exact hne (by rw [hdb, hc2])

/-- Distinct exported links stay distinct after id remapping. -/
theorem doc_sp_pairs (st : OrgState) (b₁ b₂ : Nat)
    (w8 : (st.plasmids.all fun p =>
      (st.databases.map fun d => d.id).contains p.research_database_id) = true)
    (w11 : (st.strainPlasmids.all fun r =>
      (st.strains.map fun s => s.id).contains r.strain_id &&
      (st.plasmids.map fun p => p.id).contains r.plasmid_id) = true)
    (w12 : ((st.strainPlasmids.map fun r => (r.strain_id, r.plasmid_id)).Nodup)) :
    List.Pairwise (fun r₁ r₂ =>
      ¬((mapLookup (idMapFrom (fun s => s.id) b₁
            (buildOrganizationSnapshot st).strains) r₁.strain_id).getD 0 =
          (mapLookup (idMapFrom (fun s => s.id) b₁
            (buildOrganizationSnapshot st).strains) r₂.strain_id).getD 0 ∧
        (mapLookup (idMapFrom (fun p => p.id) b₂
            (buildOrganizationSnapshot st).plasmids) r₁.plasmid_id).getD 0 =
          (mapLookup (idMapFrom (fun p => p.id) b₂
            (buildOrganizationSnapshot st).plasmids) r₂.plasmid_id).getD 0))
      (buildOrganizationSnapshot st).strain_plasmids := by
  have hnodup : ((buildOrganizationSnapshot st).strain_plasmids.map fun r =>
      (r.strain_id, r.plasmid_id)).Nodup := by
    rw [build_strain_plasmids, List.map_map]
    show ((st.strainPlasmids.filter _).map fun r =>
      (r.strain_id, r.plasmid_id)).Nodup
    refine List.Nodup.sublist ?_ w12
    exact List.Sublist.map _ (List.filter_sublist _)
  refine List.Pairwise.imp_of_mem ?_ (pairwise_ne_of_nodup_map _ _ hnodup)
  intro r₁ r₂ hr₁ hr₂ hne hc
  obtain ⟨⟨v₁, hv₁⟩, ⟨w₁, hw₁⟩⟩ := doc_sp_res st b₁ b₂ w8 w11 r₁ hr₁
  obtain ⟨⟨v₂, hv₂⟩, ⟨w₂, hw₂⟩⟩ := doc_sp_res st b₁ b₂ w8 w11 r₂ hr₂
  rw [hv₁, hv₂, hw₁, hw₂] at hc
  have hc1 : v₁ = v₂ := hc.1
  have hc2 : w₁ = w₂ := hc.2
  have hv₂' : mapLookup (idMapFrom (fun s => s.id) b₁
      (buildOrganizationSnapshot st).strains) r₂.strain_id = some v₁ := by
    rw [hc1]
    exact hv₂
  have hw₂' : mapLookup (idMapFrom (fun p => p.id) b₂
      (buildOrganizationSnapshot st).plasmids) r₂.plasmid_id = some w₁ := by
    rw [hc2]
    exact hw₂
  have hs : r₁.strain_id = r₂.strain_id :=
    mapLookup_idMapFrom_inj _ _ _ _ _ _ hv₁ hv₂'
  have hp : r₁.plasmid_id = r₂.plasmid_id :=
    mapLookup_idMapFrom_inj _ _ _ _ _ _ hw₁ hw₂'
  exact hne (by rw [hs, hp])

/-- Distinct exported values stay distinct after id remapping. -/
theorem doc_fv_pairs (st : OrgState) (b₁ b₂ : Nat)
    (w15 : ((st.fieldValues.map fun v =>
      (v.strain_id, v.field_definition_id)).Nodup)) :
    List.Pairwise (fun v₁ v₂ =>
      ¬((mapLookup (idMapFrom (fun s => s.id) b₁
            (buildOrganizationSnapshot st).strains) v₁.strain_id).getD 0 =
          (mapLookup (idMapFrom (fun s => s.id) b₁
            (buildOrganizationSnapshot st).strains) v₂.strain_id).getD 0 ∧
        (mapLookup (idMapFrom (fun f => f.id) b₂
            (buildOrganizationSnapshot st).custom_fields) v₁.field_definition_id).getD 0 =
          (mapLookup (idMapFrom (fun f => f.id) b₂
            (buildOrganizationSnapshot st).custom_fields) v₂.field_definition_id).getD 0))
      (buildOrganizationSnapshot st).field_values := by
  have hnodup : ((buildOrganizationSnapshot st).field_values.map fun v =>
      (v.strain_id, v.field_definition_id)).Nodup := by
    rw [build_field_values, List.map_map]
    show ((st.fieldValues.filter _).map fun v =>
      (v.strain_id, v.field_definition_id)).Nodup
    refine List.Nodup.sublist ?_ w15
    exact List.Sublist.map _ (List.filter_sublist _)
  refine List.Pairwise.imp_of_mem ?_ (pairwise_ne_of_nodup_map _ _ hnodup)
  intro v₁ v₂ hv₁m hv₂m hne hc
  obtain ⟨⟨a₁, ha₁⟩, ⟨b₁', hb₁⟩⟩ := doc_fv_res st b₁ b₂ v₁ hv₁m
  obtain ⟨⟨a₂, ha₂⟩, ⟨b₂', hb₂⟩⟩ := doc_fv_res st b₁ b₂ v₂ hv₂m
  rw [ha₁, ha₂, hb₁, hb₂] at hc
  have hc1 : a₁ = a₂ := hc.1
  have hc2 : b₁' = b₂' := hc.2
  have ha₂' : mapLookup (idMapFrom (fun s => s.id) b₁
      (buildOrganizationSnapshot st).strains) v₂.strain_id = some a₁ := by
    rw [hc1]
    exact ha₂
  have hb₂' : mapLookup (idMapFrom (fun f => f.id) b₂
      (buildOrganizationSnapshot st).custom_fields) v₂.field_definition_id =
      some b₁' := by
    rw [hc2]
    exact hb₂
  have hs : v₁.strain_id = v₂.strain_id :=
    mapLookup_idMapFrom_inj _ _ _ _ _ _ ha₁ ha₂'
  have hf : v₁.field_definition_id = v₂.field_definition_id :=
    mapLookup_idMapFrom_inj _ _ _ _ _ _ hb₁ hb₂'
  exact hne (by rw [hs, hf])

/-- Restoring a well-formed state's own export succeeds and produces exactly
the loop-by-loop `roundTripState`. -/
theorem restore_steps (st : OrgState) (acting : Nat) (hwf : SnapWF st = true) :
    restoreOrganizationSnapshot st (buildOrganizationSnapshot st) acting =
      Except.ok (roundTripState st acting) := by
  simp only [SnapWF, Bool.and_eq_true] at hwf
  obtain ⟨⟨⟨⟨⟨⟨⟨⟨⟨⟨⟨⟨⟨⟨⟨w1, w2⟩, w3⟩, w4⟩, w5⟩, w6⟩, w7⟩, w8⟩, w9⟩, w10⟩,
    w11⟩, w12⟩, w13⟩, w14⟩, w15⟩, w16⟩ := hwf
  have w2' := of_decide_eq_true w2
  have w5' := of_decide_eq_true w5
  have w12' := of_decide_eq_true w12
  have w15' := of_decide_eq_true w15
  have e1 : restoreMembers st.users acting
      { st with
          fieldValues := [], strains := [], strainPlasmids := [],
          fieldDefs := [],
          auditLogs := (st.auditLogs.filter fun a => (match a.database_id with | some d => !(st.databases.map fun d => d.id).contains d | Option.none => true)),
          dbMembers := [], organisms := [], locations := [],
          plasmids := [], databases := [],
          org := { st.org with name := (buildOrganizationSnapshot st).organization.name, slug := (buildOrganizationSnapshot st).organization.slug } }
      (buildOrganizationSnapshot st).members =
      { st with
          fieldValues := [], strains := [], strainPlasmids := [],
          fieldDefs := [],
          auditLogs := (st.auditLogs.filter fun a => (match a.database_id with | some d => !(st.databases.map fun d => d.id).contains d | Option.none => true)),
          dbMembers := [], organisms := [], locations := [],
          plasmids := [], databases := [],
          org := { st.org with name := (buildOrganizationSnapshot st).organization.name, slug := (buildOrganizationSnapshot st).organization.slug } } :=
    restoreMembers_id st.users acting (buildOrganizationSnapshot st).members _
      (doc_members_hyp st w2' w3)
  have e2 : restoreDatabases st.users acting
      { st with
          fieldValues := [], strains := [], strainPlasmids := [],
          fieldDefs := [],
          auditLogs := (st.auditLogs.filter fun a => (match a.database_id with | some d => !(st.databases.map fun d => d.id).contains d | Option.none => true)),
          dbMembers := [], organisms := [], locations := [],
          plasmids := [], databases := [],
          org := { st.org with name := (buildOrganizationSnapshot st).organization.name, slug := (buildOrganizationSnapshot st).organization.slug } }
      [] (buildOrganizationSnapshot st).databases =
      ({ org := { st.org with name := (buildOrganizationSnapshot st).organization.name, slug := (buildOrganizationSnapshot st).organization.slug },
          users := st.users,
          members := st.members,
          databases := (dbRowsFrom st.users acting st.nextId st.clock (buildOrganizationSnapshot st).databases),
          dbMembers := [],
          organisms := [],
          locations := [],
          plasmids := [],
          strains := [],
          strainPlasmids := [],
          fieldDefs := [],
          fieldValues := [],
          auditLogs := (st.auditLogs.filter fun a => (match a.database_id with | some d => !(st.databases.map fun d => d.id).contains d | Option.none => true)),
          nextId := st.nextId + (buildOrganizationSnapshot st).databases.length,
          clock := st.clock + (buildOrganizationSnapshot st).databases.length },
       (idMapFrom (fun d => d.id) st.nextId (buildOrganizationSnapshot st).databases)) := by
    rw [restoreDatabases_spec]
    rfl
  have e3 : restoreDbMembers st.users acting (idMapFrom (fun d => d.id) st.nextId (buildOrganizationSnapshot st).databases)
      { org := { st.org with name := (buildOrganizationSnapshot st).organization.name, slug := (buildOrganizationSnapshot st).organization.slug },
          users := st.users,
          members := st.members,
          databases := (dbRowsFrom st.users acting st.nextId st.clock (buildOrganizationSnapshot st).databases),
          dbMembers := [],
          organisms := [],
          locations := [],
          plasmids := [],
          strains := [],
          strainPlasmids := [],
          fieldDefs := [],
          fieldValues := [],
          auditLogs := (st.auditLogs.filter fun a => (match a.database_id with | some d => !(st.databases.map fun d => d.id).contains d | Option.none => true)),
          nextId := st.nextId + (buildOrganizationSnapshot st).databases.length,
          clock := st.clock + (buildOrganizationSnapshot st).databases.length }
      (buildOrganizationSnapshot st).database_memberships =
      { org := { st.org with name := (buildOrganizationSnapshot st).organization.name, slug := (buildOrganizationSnapshot st).organization.slug },
          users := st.users,
          members := st.members,
          databases := (dbRowsFrom st.users acting st.nextId st.clock (buildOrganizationSnapshot st).databases),
          dbMembers := (dbMemberRowsFrom st.users acting (idMapFrom (fun d => d.id) st.nextId (buildOrganizationSnapshot st).databases) (st.clock + (buildOrganizationSnapshot st).databases.length) (buildOrganizationSnapshot st).database_memberships),
          organisms := [],
          locations := [],
          plasmids := [],
          strains := [],
          strainPlasmids := [],
          fieldDefs := [],
          fieldValues := [],
          auditLogs := (st.auditLogs.filter fun a => (match a.database_id with | some d => !(st.databases.map fun d => d.id).contains d | Option.none => true)),
          nextId := st.nextId + (buildOrganizationSnapshot st).databases.length,
          clock := st.clock + (buildOrganizationSnapshot st).databases.length + (buildOrganizationSnapshot st).database_memberships.length } := by
    rw [restoreDbMembers_spec st.users acting (idMapFrom (fun d => d.id) st.nextId (buildOrganizationSnapshot st).databases)
      (buildOrganizationSnapshot st).database_memberships _
      (doc_dbm_res st st.nextId)
      (by intro m hm x hx; exact absurd hx (List.not_mem_nil x))
      (doc_dbm_pairs st st.nextId acting w4 w5')]
    rfl
  have e4 : restoreOrganisms (idMapFrom (fun d => d.id) st.nextId (buildOrganizationSnapshot st).databases)
      { org := { st.org with name := (buildOrganizationSnapshot st).organization.name, slug := (buildOrganizationSnapshot st).organization.slug },
          users := st.users,
          members := st.members,
          databases := (dbRowsFrom st.users acting st.nextId st.clock (buildOrganizationSnapshot st).databases),
          dbMembers := (dbMemberRowsFrom st.users acting (idMapFrom (fun d => d.id) st.nextId (buildOrganizationSnapshot st).databases) (st.clock + (buildOrganizationSnapshot st).databases.length) (buildOrganizationSnapshot st).database_memberships),
          organisms := [],
          locations := [],
          plasmids := [],
          strains := [],
          strainPlasmids := [],
          fieldDefs := [],
          fieldValues := [],
          auditLogs := (st.auditLogs.filter fun a => (match a.database_id with | some d => !(st.databases.map fun d => d.id).contains d | Option.none => true)),
          nextId := st.nextId + (buildOrganizationSnapshot st).databases.length,
          clock := st.clock + (buildOrganizationSnapshot st).databases.length + (buildOrganizationSnapshot st).database_memberships.length }
      [] (buildOrganizationSnapshot st).organisms =
      ({ org := { st.org with name := (buildOrganizationSnapshot st).organization.name, slug := (buildOrganizationSnapshot st).organization.slug },
          users := st.users,
          members := st.members,
          databases := (dbRowsFrom st.users acting st.nextId st.clock (buildOrganizationSnapshot st).databases),
          dbMembers := (dbMemberRowsFrom st.users acting (idMapFrom (fun d => d.id) st.nextId (buildOrganizationSnapshot st).databases) (st.clock + (buildOrganizationSnapshot st).databases.length) (buildOrganizationSnapshot st).database_memberships),
          organisms := (organismRowsFrom (idMapFrom (fun d => d.id) st.nextId (buildOrganizationSnapshot st).databases) (st.nextId + (buildOrganizationSnapshot st).databases.length) (buildOrganizationSnapshot st).organisms),
          locations := [],
          plasmids := [],
          strains := [],
          strainPlasmids := [],
          fieldDefs := [],
          fieldValues := [],
          auditLogs := (st.auditLogs.filter fun a => (match a.database_id with | some d => !(st.databases.map fun d => d.id).contains d | Option.none => true)),
          nextId := st.nextId + (buildOrganizationSnapshot st).databases.length + (buildOrganizationSnapshot st).organisms.length,
          clock := st.clock + (buildOrganizationSnapshot st).databases.length + (buildOrganizationSnapshot st).database_memberships.length },
       (idMapFrom (fun o => o.id) (st.nextId + (buildOrganizationSnapshot st).databases.length) (buildOrganizationSnapshot st).organisms)) := by
    rw [restoreOrganisms_spec (idMapFrom (fun d => d.id) st.nextId (buildOrganizationSnapshot st).databases) (buildOrganizationSnapshot st).organisms _ []
      (doc_org_res st st.nextId)]
    rfl
  have e5 : restoreLocations (idMapFrom (fun d => d.id) st.nextId (buildOrganizationSnapshot st).databases)
      { org := { st.org with name := (buildOrganizationSnapshot st).organization.name, slug := (buildOrganizationSnapshot st).organization.slug },
          users := st.users,
          members := st.members,
          databases := (dbRowsFrom st.users acting st.nextId st.clock (buildOrganizationSnapshot st).databases),
          dbMembers := (dbMemberRowsFrom st.users acting (idMapFrom (fun d => d.id) st.nextId (buildOrganizationSnapshot st).databases) (st.clock + (buildOrganizationSnapshot st).databases.length) (buildOrganizationSnapshot st).database_memberships),
          organisms := (organismRowsFrom (idMapFrom (fun d => d.id) st.nextId (buildOrganizationSnapshot st).databases) (st.nextId + (buildOrganizationSnapshot st).databases.length) (buildOrganizationSnapshot st).organisms),
          locations := [],
          plasmids := [],
          strains := [],
          strainPlasmids := [],
          fieldDefs := [],
          fieldValues := [],
          auditLogs := (st.auditLogs.filter fun a => (match a.database_id with | some d => !(st.databases.map fun d => d.id).contains d | Option.none => true)),
          nextId := st.nextId + (buildOrganizationSnapshot st).databases.length + (buildOrganizationSnapshot st).organisms.length,
          clock := st.clock + (buildOrganizationSnapshot st).databases.length + (buildOrganizationSnapshot st).database_memberships.length }
      [] (buildOrganizationSnapshot st).locations =
      ({ org := { st.org with name := (buildOrganizationSnapshot st).organization.name, slug := (buildOrganizationSnapshot st).organization.slug },
          users := st.users,
          members := st.members,
          databases := (dbRowsFrom st.users acting st.nextId st.clock (buildOrganizationSnapshot st).databases),
          dbMembers := (dbMemberRowsFrom st.users acting (idMapFrom (fun d => d.id) st.nextId (buildOrganizationSnapshot st).databases) (st.clock + (buildOrganizationSnapshot st).databases.length) (buildOrganizationSnapshot st).database_memberships),
          organisms := (organismRowsFrom (idMapFrom (fun d => d.id) st.nextId (buildOrganizationSnapshot st).databases) (st.nextId + (buildOrganizationSnapshot st).databases.length) (buildOrganizationSnapshot st).organisms),
          locations := (locationRowsFrom (idMapFrom (fun d => d.id) st.nextId (buildOrganizationSnapshot st).databases) (st.nextId + (buildOrganizationSnapshot st).databases.length + (buildOrganizationSnapshot st).organisms.length) (buildOrganizationSnapshot st).locations),
          plasmids := [],
          strains := [],
          strainPlasmids := [],
          fieldDefs := [],
          fieldValues := [],
          auditLogs := (st.auditLogs.filter fun a => (match a.database_id with | some d => !(st.databases.map fun d => d.id).contains d | Option.none => true)),
          nextId := st.nextId + (buildOrganizationSnapshot st).databases.length + (buildOrganizationSnapshot st).organisms.length + (buildOrganizationSnapshot st).locations.length,
          clock := st.clock + (buildOrganizationSnapshot st).databases.length + (buildOrganizationSnapshot st).database_memberships.length },
       (idMapFrom (fun l => l.id) (st.nextId + (buildOrganizationSnapshot st).databases.length + (buildOrganizationSnapshot st).organisms.length) (buildOrganizationSnapshot st).locations)) := by
    rw [restoreLocations_spec (idMapFrom (fun d => d.id) st.nextId (buildOrganizationSnapshot st).databases) (buildOrganizationSnapshot st).locations _ []
      (doc_loc_res st st.nextId)]
    rfl
  have e6 : restorePlasmids (idMapFrom (fun d => d.id) st.nextId (buildOrganizationSnapshot st).databases)
      { org := { st.org with name := (buildOrganizationSnapshot st).organization.name, slug := (buildOrganizationSnapshot st).organization.slug },
          users := st.users,
          members := st.members,
          databases := (dbRowsFrom st.users acting st.nextId st.clock (buildOrganizationSnapshot st).databases),
          dbMembers := (dbMemberRowsFrom st.users acting (idMapFrom (fun d => d.id) st.nextId (buildOrganizationSnapshot st).databases) (st.clock + (buildOrganizationSnapshot st).databases.length) (buildOrganizationSnapshot st).database_memberships),
          organisms := (organismRowsFrom (idMapFrom (fun d => d.id) st.nextId (buildOrganizationSnapshot st).databases) (st.nextId + (buildOrganizationSnapshot st).databases.length) (buildOrganizationSnapshot st).organisms),
          locations := (locationRowsFrom (idMapFrom (fun d => d.id) st.nextId (buildOrganizationSnapshot st).databases) (st.nextId + (buildOrganizationSnapshot st).databases.length + (buildOrganizationSnapshot st).organisms.length) (buildOrganizationSnapshot st).locations),
          plasmids := [],
          strains := [],
          strainPlasmids := [],
          fieldDefs := [],
          fieldValues := [],
          auditLogs := (st.auditLogs.filter fun a => (match a.database_id with | some d => !(st.databases.map fun d => d.id).contains d | Option.none => true)),
          nextId := st.nextId + (buildOrganizationSnapshot st).databases.length + (buildOrganizationSnapshot st).organisms.length + (buildOrganizationSnapshot st).locations.length,
          clock := st.clock + (buildOrganizationSnapshot st).databases.length + (buildOrganizationSnapshot st).database_memberships.length }
      [] (buildOrganizationSnapshot st).plasmids =
      ({ org := { st.org with name := (buildOrganizationSnapshot st).organization.name, slug := (buildOrganizationSnapshot st).organization.slug },
          users := st.users,
          members := st.members,
          databases := (dbRowsFrom st.users acting st.nextId st.clock (buildOrganizationSnapshot st).databases),
          dbMembers := (dbMemberRowsFrom st.users acting (idMapFrom (fun d => d.id) st.nextId (buildOrganizationSnapshot st).databases) (st.clock + (buildOrganizationSnapshot st).databases.length) (buildOrganizationSnapshot st).database_memberships),
          organisms := (organismRowsFrom (idMapFrom (fun d => d.id) st.nextId (buildOrganizationSnapshot st).databases) (st.nextId + (buildOrganizationSnapshot st).databases.length) (buildOrganizationSnapshot st).organisms),
          locations := (locationRowsFrom (idMapFrom (fun d => d.id) st.nextId (buildOrganizationSnapshot st).databases) (st.nextId + (buildOrganizationSnapshot st).databases.length + (buildOrganizationSnapshot st).organisms.length) (buildOrganizationSnapshot st).locations),
          plasmids := (plasmidRowsFrom (idMapFrom (fun d => d.id) st.nextId (buildOrganizationSnapshot st).databases) (st.nextId + (buildOrganizationSnapshot st).databases.length + (buildOrganizationSnapshot st).organisms.length + (buildOrganizationSnapshot st).locations.length) (buildOrganizationSnapshot st).plasmids),
          strains := [],
          strainPlasmids := [],
          fieldDefs := [],
          fieldValues := [],
          auditLogs := (st.auditLogs.filter fun a => (match a.database_id with | some d => !(st.databases.map fun d => d.id).contains d | Option.none => true)),
          nextId := st.nextId + (buildOrganizationSnapshot st).databases.length + (buildOrganizationSnapshot st).organisms.length + (buildOrganizationSnapshot st).locations.length + (buildOrganizationSnapshot st).plasmids.length,
          clock := st.clock + (buildOrganizationSnapshot st).databases.length + (buildOrganizationSnapshot st).database_memberships.length },
       (idMapFrom (fun p => p.id) (st.nextId + (buildOrganizationSnapshot st).databases.length + (buildOrganizationSnapshot st).organisms.length + (buildOrganizationSnapshot st).locations.length) (buildOrganizationSnapshot st).plasmids)) := by
    rw [restorePlasmids_spec (idMapFrom (fun d => d.id) st.nextId (buildOrganizationSnapshot st).databases) (buildOrganizationSnapshot st).plasmids _ []
      (doc_plas_res st st.nextId)]
    rfl
  have e7 : restoreStrains st.users acting (idMapFrom (fun d => d.id) st.nextId (buildOrganizationSnapshot st).databases) (idMapFrom (fun o => o.id) (st.nextId + (buildOrganizationSnapshot st).databases.length) (buildOrganizationSnapshot st).organisms) (idMapFrom (fun l => l.id) (st.nextId + (buildOrganizationSnapshot st).databases.length + (buildOrganizationSnapshot st).organisms.length) (buildOrganizationSnapshot st).locations)
      { org := { st.org with name := (buildOrganizationSnapshot st).organization.name, slug := (buildOrganizationSnapshot st).organization.slug },
          users := st.users,
          members := st.members,
          databases := (dbRowsFrom st.users acting st.nextId st.clock (buildOrganizationSnapshot st).databases),
          dbMembers := (dbMemberRowsFrom st.users acting (idMapFrom (fun d => d.id) st.nextId (buildOrganizationSnapshot st).databases) (st.clock + (buildOrganizationSnapshot st).databases.length) (buildOrganizationSnapshot st).database_memberships),
          organisms := (organismRowsFrom (idMapFrom (fun d => d.id) st.nextId (buildOrganizationSnapshot st).databases) (st.nextId + (buildOrganizationSnapshot st).databases.length) (buildOrganizationSnapshot st).organisms),
          locations := (locationRowsFrom (idMapFrom (fun d => d.id) st.nextId (buildOrganizationSnapshot st).databases) (st.nextId + (buildOrganizationSnapshot st).databases.length + (buildOrganizationSnapshot st).organisms.length) (buildOrganizationSnapshot st).locations),
          plasmids := (plasmidRowsFrom (idMapFrom (fun d => d.id) st.nextId (buildOrganizationSnapshot st).databases) (st.nextId + (buildOrganizationSnapshot st).databases.length + (buildOrganizationSnapshot st).organisms.length + (buildOrganizationSnapshot st).locations.length) (buildOrganizationSnapshot st).plasmids),
          strains := [],
          strainPlasmids := [],
          fieldDefs := [],
          fieldValues := [],
          auditLogs := (st.auditLogs.filter fun a => (match a.database_id with | some d => !(st.databases.map fun d => d.id).contains d | Option.none => true)),
          nextId := st.nextId + (buildOrganizationSnapshot st).databases.length + (buildOrganizationSnapshot st).organisms.length + (buildOrganizationSnapshot st).locations.length + (buildOrganizationSnapshot st).plasmids.length,
          clock := st.clock + (buildOrganizationSnapshot st).databases.length + (buildOrganizationSnapshot st).database_memberships.length }
      [] (buildOrganizationSnapshot st).strains =
      ({ org := { st.org with name := (buildOrganizationSnapshot st).organization.name, slug := (buildOrganizationSnapshot st).organization.slug },
          users := st.users,
          members := st.members,
          databases := (dbRowsFrom st.users acting st.nextId st.clock (buildOrganizationSnapshot st).databases),
          dbMembers := (dbMemberRowsFrom st.users acting (idMapFrom (fun d => d.id) st.nextId (buildOrganizationSnapshot st).databases) (st.clock + (buildOrganizationSnapshot st).databases.length) (buildOrganizationSnapshot st).database_memberships),
          organisms := (organismRowsFrom (idMapFrom (fun d => d.id) st.nextId (buildOrganizationSnapshot st).databases) (st.nextId + (buildOrganizationSnapshot st).databases.length) (buildOrganizationSnapshot st).organisms),
          locations := (locationRowsFrom (idMapFrom (fun d => d.id) st.nextId (buildOrganizationSnapshot st).databases) (st.nextId + (buildOrganizationSnapshot st).databases.length + (buildOrganizationSnapshot st).organisms.length) (buildOrganizationSnapshot st).locations),
          plasmids := (plasmidRowsFrom (idMapFrom (fun d => d.id) st.nextId (buildOrganizationSnapshot st).databases) (st.nextId + (buildOrganizationSnapshot st).databases.length + (buildOrganizationSnapshot st).organisms.length + (buildOrganizationSnapshot st).locations.length) (buildOrganizationSnapshot st).plasmids),
          strains := (strainRowsFrom st.users acting (idMapFrom (fun d => d.id) st.nextId (buildOrganizationSnapshot st).databases) (idMapFrom (fun o => o.id) (st.nextId + (buildOrganizationSnapshot st).databases.length) (buildOrganizationSnapshot st).organisms) (idMapFrom (fun l => l.id) (st.nextId + (buildOrganizationSnapshot st).databases.length + (buildOrganizationSnapshot st).organisms.length) (buildOrganizationSnapshot st).locations) (st.nextId + (buildOrganizationSnapshot st).databases.length + (buildOrganizationSnapshot st).organisms.length + (buildOrganizationSnapshot st).locations.length + (buildOrganizationSnapshot st).plasmids.length) (st.clock + (buildOrganizationSnapshot st).databases.length + (buildOrganizationSnapshot st).database_memberships.length) (buildOrganizationSnapshot st).strains),
          strainPlasmids := [],
          fieldDefs := [],
          fieldValues := [],
          auditLogs := (st.auditLogs.filter fun a => (match a.database_id with | some d => !(st.databases.map fun d => d.id).contains d | Option.none => true)),
          nextId := st.nextId + (buildOrganizationSnapshot st).databases.length + (buildOrganizationSnapshot st).organisms.length + (buildOrganizationSnapshot st).locations.length + (buildOrganizationSnapshot st).plasmids.length + (buildOrganizationSnapshot st).strains.length,
          clock := st.clock + (buildOrganizationSnapshot st).databases.length + (buildOrganizationSnapshot st).database_memberships.length + (buildOrganizationSnapshot st).strains.length },
       (idMapFrom (fun s => s.id) (st.nextId + (buildOrganizationSnapshot st).databases.length + (buildOrganizationSnapshot st).organisms.length + (buildOrganizationSnapshot st).locations.length + (buildOrganizationSnapshot st).plasmids.length) (buildOrganizationSnapshot st).strains)) := by
    rw [restoreStrains_spec st.users acting (idMapFrom (fun d => d.id) st.nextId (buildOrganizationSnapshot st).databases) (idMapFrom (fun o => o.id) (st.nextId + (buildOrganizationSnapshot st).databases.length) (buildOrganizationSnapshot st).organisms) (idMapFrom (fun l => l.id) (st.nextId + (buildOrganizationSnapshot st).databases.length + (buildOrganizationSnapshot st).organisms.length) (buildOrganizationSnapshot st).locations)
      (buildOrganizationSnapshot st).strains _ []
      (doc_strain_res st st.nextId (st.nextId + (buildOrganizationSnapshot st).databases.length) (st.nextId + (buildOrganizationSnapshot st).databases.length + (buildOrganizationSnapshot st).organisms.length) w6 w7 w10)]
    rfl
  have e8 : restoreStrainPlasmids (idMapFrom (fun s => s.id) (st.nextId + (buildOrganizationSnapshot st).databases.length + (buildOrganizationSnapshot st).organisms.length + (buildOrganizationSnapshot st).locations.length + (buildOrganizationSnapshot st).plasmids.length) (buildOrganizationSnapshot st).strains) (idMapFrom (fun p => p.id) (st.nextId + (buildOrganizationSnapshot st).databases.length + (buildOrganizationSnapshot st).organisms.length + (buildOrganizationSnapshot st).locations.length) (buildOrganizationSnapshot st).plasmids)
      { org := { st.org with name := (buildOrganizationSnapshot st).organization.name, slug := (buildOrganizationSnapshot st).organization.slug },
          users := st.users,
          members := st.members,
          databases := (dbRowsFrom st.users acting st.nextId st.clock (buildOrganizationSnapshot st).databases),
          dbMembers := (dbMemberRowsFrom st.users acting (idMapFrom (fun d => d.id) st.nextId (buildOrganizationSnapshot st).databases) (st.clock + (buildOrganizationSnapshot st).databases.length) (buildOrganizationSnapshot st).database_memberships),
          organisms := (organismRowsFrom (idMapFrom (fun d => d.id) st.nextId (buildOrganizationSnapshot st).databases) (st.nextId + (buildOrganizationSnapshot st).databases.length) (buildOrganizationSnapshot st).organisms),
          locations := (locationRowsFrom (idMapFrom (fun d => d.id) st.nextId (buildOrganizationSnapshot st).databases) (st.nextId + (buildOrganizationSnapshot st).databases.length + (buildOrganizationSnapshot st).organisms.length) (buildOrganizationSnapshot st).locations),
          plasmids := (plasmidRowsFrom (idMapFrom (fun d => d.id) st.nextId (buildOrganizationSnapshot st).databases) (st.nextId + (buildOrganizationSnapshot st).databases.length + (buildOrganizationSnapshot st).organisms.length + (buildOrganizationSnapshot st).locations.length) (buildOrganizationSnapshot st).plasmids),
          strains := (strainRowsFrom st.users acting (idMapFrom (fun d => d.id) st.nextId (buildOrganizationSnapshot st).databases) (idMapFrom (fun o => o.id) (st.nextId + (buildOrganizationSnapshot st).databases.length) (buildOrganizationSnapshot st).organisms) (idMapFrom (fun l => l.id) (st.nextId + (buildOrganizationSnapshot st).databases.length + (buildOrganizationSnapshot st).organisms.length) (buildOrganizationSnapshot st).locations) (st.nextId + (buildOrganizationSnapshot st).databases.length + (buildOrganizationSnapshot st).organisms.length + (buildOrganizationSnapshot st).locations.length + (buildOrganizationSnapshot st).plasmids.length) (st.clock + (buildOrganizationSnapshot st).databases.length + (buildOrganizationSnapshot st).database_memberships.length) (buildOrganizationSnapshot st).strains),
          strainPlasmids := [],
          fieldDefs := [],
          fieldValues := [],
          auditLogs := (st.auditLogs.filter fun a => (match a.database_id with | some d => !(st.databases.map fun d => d.id).contains d | Option.none => true)),
          nextId := st.nextId + (buildOrganizationSnapshot st).databases.length + (buildOrganizationSnapshot st).organisms.length + (buildOrganizationSnapshot st).locations.length + (buildOrganizationSnapshot st).plasmids.length + (buildOrganizationSnapshot st).strains.length,
          clock := st.clock + (buildOrganizationSnapshot st).databases.length + (buildOrganizationSnapshot st).database_memberships.length + (buildOrganizationSnapshot st).strains.length }
      (buildOrganizationSnapshot st).strain_plasmids =
      { org := { st.org with name := (buildOrganizationSnapshot st).organization.name, slug := (buildOrganizationSnapshot st).organization.slug },
          users := st.users,
          members := st.members,
          databases := (dbRowsFrom st.users acting st.nextId st.clock (buildOrganizationSnapshot st).databases),
          dbMembers := (dbMemberRowsFrom st.users acting (idMapFrom (fun d => d.id) st.nextId (buildOrganizationSnapshot st).databases) (st.clock + (buildOrganizationSnapshot st).databases.length) (buildOrganizationSnapshot st).database_memberships),
          organisms := (organismRowsFrom (idMapFrom (fun d => d.id) st.nextId (buildOrganizationSnapshot st).databases) (st.nextId + (buildOrganizationSnapshot st).databases.length) (buildOrganizationSnapshot st).organisms),
          locations := (locationRowsFrom (idMapFrom (fun d => d.id) st.nextId (buildOrganizationSnapshot st).databases) (st.nextId + (buildOrganizationSnapshot st).databases.length + (buildOrganizationSnapshot st).organisms.length) (buildOrganizationSnapshot st).locations),
          plasmids := (plasmidRowsFrom (idMapFrom (fun d => d.id) st.nextId (buildOrganizationSnapshot st).databases) (st.nextId + (buildOrganizationSnapshot st).databases.length + (buildOrganizationSnapshot st).organisms.length + (buildOrganizationSnapshot st).locations.length) (buildOrganizationSnapshot st).plasmids),
          strains := (strainRowsFrom st.users acting (idMapFrom (fun d => d.id) st.nextId (buildOrganizationSnapshot st).databases) (idMapFrom (fun o => o.id) (st.nextId + (buildOrganizationSnapshot st).databases.length) (buildOrganizationSnapshot st).organisms) (idMapFrom (fun l => l.id) (st.nextId + (buildOrganizationSnapshot st).databases.length + (buildOrganizationSnapshot st).organisms.length) (buildOrganizationSnapshot st).locations) (st.nextId + (buildOrganizationSnapshot st).databases.length + (buildOrganizationSnapshot st).organisms.length + (buildOrganizationSnapshot st).locations.length + (buildOrganizationSnapshot st).plasmids.length) (st.clock + (buildOrganizationSnapshot st).databases.length + (buildOrganizationSnapshot st).database_memberships.length) (buildOrganizationSnapshot st).strains),
          strainPlasmids := (strainPlasmidRowsFrom (idMapFrom (fun s => s.id) (st.nextId + (buildOrganizationSnapshot st).databases.length + (buildOrganizationSnapshot st).organisms.length + (buildOrganizationSnapshot st).locations.length + (buildOrganizationSnapshot st).plasmids.length) (buildOrganizationSnapshot st).strains) (idMapFrom (fun p => p.id) (st.nextId + (buildOrganizationSnapshot st).databases.length + (buildOrganizationSnapshot st).organisms.length + (buildOrganizationSnapshot st).locations.length) (buildOrganizationSnapshot st).plasmids) (buildOrganizationSnapshot st).strain_plasmids),
          fieldDefs := [],
          fieldValues := [],
          auditLogs := (st.auditLogs.filter fun a => (match a.database_id with | some d => !(st.databases.map fun d => d.id).contains d | Option.none => true)),
          nextId := st.nextId + (buildOrganizationSnapshot st).databases.length + (buildOrganizationSnapshot st).organisms.length + (buildOrganizationSnapshot st).locations.length + (buildOrganizationSnapshot st).plasmids.length + (buildOrganizationSnapshot st).strains.length,
          clock := st.clock + (buildOrganizationSnapshot st).databases.length + (buildOrganizationSnapshot st).database_memberships.length + (buildOrganizationSnapshot st).strains.length } := by
    rw [restoreStrainPlasmids_spec (idMapFrom (fun s => s.id) (st.nextId + (buildOrganizationSnapshot st).databases.length + (buildOrganizationSnapshot st).organisms.length + (buildOrganizationSnapshot st).locations.length + (buildOrganizationSnapshot st).plasmids.length) (buildOrganizationSnapshot st).strains) (idMapFrom (fun p => p.id) (st.nextId + (buildOrganizationSnapshot st).databases.length + (buildOrganizationSnapshot st).organisms.length + (buildOrganizationSnapshot st).locations.length) (buildOrganizationSnapshot st).plasmids) (buildOrganizationSnapshot st).strain_plasmids _
      (doc_sp_res st (st.nextId + (buildOrganizationSnapshot st).databases.length + (buildOrganizationSnapshot st).organisms.length + (buildOrganizationSnapshot st).locations.length + (buildOrganizationSnapshot st).plasmids.length) (st.nextId + (buildOrganizationSnapshot st).databases.length + (buildOrganizationSnapshot st).organisms.length + (buildOrganizationSnapshot st).locations.length) w8 w11)
      (by intro r hr x hx; exact absurd hx (List.not_mem_nil x))
      (doc_sp_pairs st (st.nextId + (buildOrganizationSnapshot st).databases.length + (buildOrganizationSnapshot st).organisms.length + (buildOrganizationSnapshot st).locations.length + (buildOrganizationSnapshot st).plasmids.length) (st.nextId + (buildOrganizationSnapshot st).databases.length + (buildOrganizationSnapshot st).organisms.length + (buildOrganizationSnapshot st).locations.length) w8 w11 w12')]
    rfl
  have e9 : restoreFieldDefs st.users acting (idMapFrom (fun d => d.id) st.nextId (buildOrganizationSnapshot st).databases)
      { org := { st.org with name := (buildOrganizationSnapshot st).organization.name, slug := (buildOrganizationSnapshot st).organization.slug },
          users := st.users,
          members := st.members,
          databases := (dbRowsFrom st.users acting st.nextId st.clock (buildOrganizationSnapshot st).databases),
          dbMembers := (dbMemberRowsFrom st.users acting (idMapFrom (fun d => d.id) st.nextId (buildOrganizationSnapshot st).databases) (st.clock + (buildOrganizationSnapshot st).databases.length) (buildOrganizationSnapshot st).database_memberships),
          organisms := (organismRowsFrom (idMapFrom (fun d => d.id) st.nextId (buildOrganizationSnapshot st).databases) (st.nextId + (buildOrganizationSnapshot st).databases.length) (buildOrganizationSnapshot st).organisms),
          locations := (locationRowsFrom (idMapFrom (fun d => d.id) st.nextId (buildOrganizationSnapshot st).databases) (st.nextId + (buildOrganizationSnapshot st).databases.length + (buildOrganizationSnapshot st).organisms.length) (buildOrganizationSnapshot st).locations),
          plasmids := (plasmidRowsFrom (idMapFrom (fun d => d.id) st.nextId (buildOrganizationSnapshot st).databases) (st.nextId + (buildOrganizationSnapshot st).databases.length + (buildOrganizationSnapshot st).organisms.length + (buildOrganizationSnapshot st).locations.length) (buildOrganizationSnapshot st).plasmids),
          strains := (strainRowsFrom st.users acting (idMapFrom (fun d => d.id) st.nextId (buildOrganizationSnapshot st).databases) (idMapFrom (fun o => o.id) (st.nextId + (buildOrganizationSnapshot st).databases.length) (buildOrganizationSnapshot st).organisms) (idMapFrom (fun l => l.id) (st.nextId + (buildOrganizationSnapshot st).databases.length + (buildOrganizationSnapshot st).organisms.length) (buildOrganizationSnapshot st).locations) (st.nextId + (buildOrganizationSnapshot st).databases.length + (buildOrganizationSnapshot st).organisms.length + (buildOrganizationSnapshot st).locations.length + (buildOrganizationSnapshot st).plasmids.length) (st.clock + (buildOrganizationSnapshot st).databases.length + (buildOrganizationSnapshot st).database_memberships.length) (buildOrganizationSnapshot st).strains),
          strainPlasmids := (strainPlasmidRowsFrom (idMapFrom (fun s => s.id) (st.nextId + (buildOrganizationSnapshot st).databases.length + (buildOrganizationSnapshot st).organisms.length + (buildOrganizationSnapshot st).locations.length + (buildOrganizationSnapshot st).plasmids.length) (buildOrganizationSnapshot st).strains) (idMapFrom (fun p => p.id) (st.nextId + (buildOrganizationSnapshot st).databases.length + (buildOrganizationSnapshot st).organisms.length + (buildOrganizationSnapshot st).locations.length) (buildOrganizationSnapshot st).plasmids) (buildOrganizationSnapshot st).strain_plasmids),
          fieldDefs := [],
          fieldValues := [],
          auditLogs := (st.auditLogs.filter fun a => (match a.database_id with | some d => !(st.databases.map fun d => d.id).contains d | Option.none => true)),
          nextId := st.nextId + (buildOrganizationSnapshot st).databases.length + (buildOrganizationSnapshot st).organisms.length + (buildOrganizationSnapshot st).locations.length + (buildOrganizationSnapshot st).plasmids.length + (buildOrganizationSnapshot st).strains.length,
          clock := st.clock + (buildOrganizationSnapshot st).databases.length + (buildOrganizationSnapshot st).database_memberships.length + (buildOrganizationSnapshot st).strains.length }
      [] (buildOrganizationSnapshot st).custom_fields =
      ({ org := { st.org with name := (buildOrganizationSnapshot st).organization.name, slug := (buildOrganizationSnapshot st).organization.slug },
          users := st.users,
          members := st.members,
          databases := (dbRowsFrom st.users acting st.nextId st.clock (buildOrganizationSnapshot st).databases),
          dbMembers := (dbMemberRowsFrom st.users acting (idMapFrom (fun d => d.id) st.nextId (buildOrganizationSnapshot st).databases) (st.clock + (buildOrganizationSnapshot st).databases.length) (buildOrganizationSnapshot st).database_memberships),
          organisms := (organismRowsFrom (idMapFrom (fun d => d.id) st.nextId (buildOrganizationSnapshot st).databases) (st.nextId + (buildOrganizationSnapshot st).databases.length) (buildOrganizationSnapshot st).organisms),
          locations := (locationRowsFrom (idMapFrom (fun d => d.id) st.nextId (buildOrganizationSnapshot st).databases) (st.nextId + (buildOrganizationSnapshot st).databases.length + (buildOrganizationSnapshot st).organisms.length) (buildOrganizationSnapshot st).locations),
          plasmids := (plasmidRowsFrom (idMapFrom (fun d => d.id) st.nextId (buildOrganizationSnapshot st).databases) (st.nextId + (buildOrganizationSnapshot st).databases.length + (buildOrganizationSnapshot st).organisms.length + (buildOrganizationSnapshot st).locations.length) (buildOrganizationSnapshot st).plasmids),
          strains := (strainRowsFrom st.users acting (idMapFrom (fun d => d.id) st.nextId (buildOrganizationSnapshot st).databases) (idMapFrom (fun o => o.id) (st.nextId + (buildOrganizationSnapshot st).databases.length) (buildOrganizationSnapshot st).organisms) (idMapFrom (fun l => l.id) (st.nextId + (buildOrganizationSnapshot st).databases.length + (buildOrganizationSnapshot st).organisms.length) (buildOrganizationSnapshot st).locations) (st.nextId + (buildOrganizationSnapshot st).databases.length + (buildOrganizationSnapshot st).organisms.length + (buildOrganizationSnapshot st).locations.length + (buildOrganizationSnapshot st).plasmids.length) (st.clock + (buildOrganizationSnapshot st).databases.length + (buildOrganizationSnapshot st).database_memberships.length) (buildOrganizationSnapshot st).strains),
          strainPlasmids := (strainPlasmidRowsFrom (idMapFrom (fun s => s.id) (st.nextId + (buildOrganizationSnapshot st).databases.length + (buildOrganizationSnapshot st).organisms.length + (buildOrganizationSnapshot st).locations.length + (buildOrganizationSnapshot st).plasmids.length) (buildOrganizationSnapshot st).strains) (idMapFrom (fun p => p.id) (st.nextId + (buildOrganizationSnapshot st).databases.length + (buildOrganizationSnapshot st).organisms.length + (buildOrganizationSnapshot st).locations.length) (buildOrganizationSnapshot st).plasmids) (buildOrganizationSnapshot st).strain_plasmids),
          fieldDefs := (fieldDefRowsFrom st.users acting (idMapFrom (fun d => d.id) st.nextId (buildOrganizationSnapshot st).databases) (st.nextId + (buildOrganizationSnapshot st).databases.length + (buildOrganizationSnapshot st).organisms.length + (buildOrganizationSnapshot st).locations.length + (buildOrganizationSnapshot st).plasmids.length + (buildOrganizationSnapshot st).strains.length) (st.clock + (buildOrganizationSnapshot st).databases.length + (buildOrganizationSnapshot st).database_memberships.length + (buildOrganizationSnapshot st).strains.length) (buildOrganizationSnapshot st).custom_fields),
          fieldValues := [],
          auditLogs := (st.auditLogs.filter fun a => (match a.database_id with | some d => !(st.databases.map fun d => d.id).contains d | Option.none => true)),
          nextId := st.nextId + (buildOrganizationSnapshot st).databases.length + (buildOrganizationSnapshot st).organisms.length + (buildOrganizationSnapshot st).locations.length + (buildOrganizationSnapshot st).plasmids.length + (buildOrganizationSnapshot st).strains.length + (buildOrganizationSnapshot st).custom_fields.length,
          clock := st.clock + (buildOrganizationSnapshot st).databases.length + (buildOrganizationSnapshot st).database_memberships.length + (buildOrganizationSnapshot st).strains.length + (buildOrganizationSnapshot st).custom_fields.length },
       (idMapFrom (fun f => f.id) (st.nextId + (buildOrganizationSnapshot st).databases.length + (buildOrganizationSnapshot st).organisms.length + (buildOrganizationSnapshot st).locations.length + (buildOrganizationSnapshot st).plasmids.length + (buildOrganizationSnapshot st).strains.length) (buildOrganizationSnapshot st).custom_fields)) := by
    rw [restoreFieldDefs_spec st.users acting (idMapFrom (fun d => d.id) st.nextId (buildOrganizationSnapshot st).databases) (buildOrganizationSnapshot st).custom_fields _ []
      (doc_field_res st st.nextId)]
    rfl
  have e10 : restoreFieldValues (idMapFrom (fun s => s.id) (st.nextId + (buildOrganizationSnapshot st).databases.length + (buildOrganizationSnapshot st).organisms.length + (buildOrganizationSnapshot st).locations.length + (buildOrganizationSnapshot st).plasmids.length) (buildOrganizationSnapshot st).strains) (idMapFrom (fun f => f.id) (st.nextId + (buildOrganizationSnapshot st).databases.length + (buildOrganizationSnapshot st).organisms.length + (buildOrganizationSnapshot st).locations.length + (buildOrganizationSnapshot st).plasmids.length + (buildOrganizationSnapshot st).strains.length) (buildOrganizationSnapshot st).custom_fields)
      { org := { st.org with name := (buildOrganizationSnapshot st).organization.name, slug := (buildOrganizationSnapshot st).organization.slug },
          users := st.users,
          members := st.members,
          databases := (dbRowsFrom st.users acting st.nextId st.clock (buildOrganizationSnapshot st).databases),
          dbMembers := (dbMemberRowsFrom st.users acting (idMapFrom (fun d => d.id) st.nextId (buildOrganizationSnapshot st).databases) (st.clock + (buildOrganizationSnapshot st).databases.length) (buildOrganizationSnapshot st).database_memberships),
          organisms := (organismRowsFrom (idMapFrom (fun d => d.id) st.nextId (buildOrganizationSnapshot st).databases) (st.nextId + (buildOrganizationSnapshot st).databases.length) (buildOrganizationSnapshot st).organisms),
          locations := (locationRowsFrom (idMapFrom (fun d => d.id) st.nextId (buildOrganizationSnapshot st).databases) (st.nextId + (buildOrganizationSnapshot st).databases.length + (buildOrganizationSnapshot st).organisms.length) (buildOrganizationSnapshot st).locations),
          plasmids := (plasmidRowsFrom (idMapFrom (fun d => d.id) st.nextId (buildOrganizationSnapshot st).databases) (st.nextId + (buildOrganizationSnapshot st).databases.length + (buildOrganizationSnapshot st).organisms.length + (buildOrganizationSnapshot st).locations.length) (buildOrganizationSnapshot st).plasmids),
          strains := (strainRowsFrom st.users acting (idMapFrom (fun d => d.id) st.nextId (buildOrganizationSnapshot st).databases) (idMapFrom (fun o => o.id) (st.nextId + (buildOrganizationSnapshot st).databases.length) (buildOrganizationSnapshot st).organisms) (idMapFrom (fun l => l.id) (st.nextId + (buildOrganizationSnapshot st).databases.length + (buildOrganizationSnapshot st).organisms.length) (buildOrganizationSnapshot st).locations) (st.nextId + (buildOrganizationSnapshot st).databases.length + (buildOrganizationSnapshot st).organisms.length + (buildOrganizationSnapshot st).locations.length + (buildOrganizationSnapshot st).plasmids.length) (st.clock + (buildOrganizationSnapshot st).databases.length + (buildOrganizationSnapshot st).database_memberships.length) (buildOrganizationSnapshot st).strains),
          strainPlasmids := (strainPlasmidRowsFrom (idMapFrom (fun s => s.id) (st.nextId + (buildOrganizationSnapshot st).databases.length + (buildOrganizationSnapshot st).organisms.length + (buildOrganizationSnapshot st).locations.length + (buildOrganizationSnapshot st).plasmids.length) (buildOrganizationSnapshot st).strains) (idMapFrom (fun p => p.id) (st.nextId + (buildOrganizationSnapshot st).databases.length + (buildOrganizationSnapshot st).organisms.length + (buildOrganizationSnapshot st).locations.length) (buildOrganizationSnapshot st).plasmids) (buildOrganizationSnapshot st).strain_plasmids),
          fieldDefs := (fieldDefRowsFrom st.users acting (idMapFrom (fun d => d.id) st.nextId (buildOrganizationSnapshot st).databases) (st.nextId + (buildOrganizationSnapshot st).databases.length + (buildOrganizationSnapshot st).organisms.length + (buildOrganizationSnapshot st).locations.length + (buildOrganizationSnapshot st).plasmids.length + (buildOrganizationSnapshot st).strains.length) (st.clock + (buildOrganizationSnapshot st).databases.length + (buildOrganizationSnapshot st).database_memberships.length + (buildOrganizationSnapshot st).strains.length) (buildOrganizationSnapshot st).custom_fields),
          fieldValues := [],
          auditLogs := (st.auditLogs.filter fun a => (match a.database_id with | some d => !(st.databases.map fun d => d.id).contains d | Option.none => true)),
          nextId := st.nextId + (buildOrganizationSnapshot st).databases.length + (buildOrganizationSnapshot st).organisms.length + (buildOrganizationSnapshot st).locations.length + (buildOrganizationSnapshot st).plasmids.length + (buildOrganizationSnapshot st).strains.length + (buildOrganizationSnapshot st).custom_fields.length,
          clock := st.clock + (buildOrganizationSnapshot st).databases.length + (buildOrganizationSnapshot st).database_memberships.length + (buildOrganizationSnapshot st).strains.length + (buildOrganizationSnapshot st).custom_fields.length }
      (buildOrganizationSnapshot st).field_values =
      { org := { st.org with name := (buildOrganizationSnapshot st).organization.name, slug := (buildOrganizationSnapshot st).organization.slug },
          users := st.users,
          members := st.members,
          databases := (dbRowsFrom st.users acting st.nextId st.clock (buildOrganizationSnapshot st).databases),
          dbMembers := (dbMemberRowsFrom st.users acting (idMapFrom (fun d => d.id) st.nextId (buildOrganizationSnapshot st).databases) (st.clock + (buildOrganizationSnapshot st).databases.length) (buildOrganizationSnapshot st).database_memberships),
          organisms := (organismRowsFrom (idMapFrom (fun d => d.id) st.nextId (buildOrganizationSnapshot st).databases) (st.nextId + (buildOrganizationSnapshot st).databases.length) (buildOrganizationSnapshot st).organisms),
          locations := (locationRowsFrom (idMapFrom (fun d => d.id) st.nextId (buildOrganizationSnapshot st).databases) (st.nextId + (buildOrganizationSnapshot st).databases.length + (buildOrganizationSnapshot st).organisms.length) (buildOrganizationSnapshot st).locations),
          plasmids := (plasmidRowsFrom (idMapFrom (fun d => d.id) st.nextId (buildOrganizationSnapshot st).databases) (st.nextId + (buildOrganizationSnapshot st).databases.length + (buildOrganizationSnapshot st).organisms.length + (buildOrganizationSnapshot st).locations.length) (buildOrganizationSnapshot st).plasmids),
          strains := (strainRowsFrom st.users acting (idMapFrom (fun d => d.id) st.nextId (buildOrganizationSnapshot st).databases) (idMapFrom (fun o => o.id) (st.nextId + (buildOrganizationSnapshot st).databases.length) (buildOrganizationSnapshot st).organisms) (idMapFrom (fun l => l.id) (st.nextId + (buildOrganizationSnapshot st).databases.length + (buildOrganizationSnapshot st).organisms.length) (buildOrganizationSnapshot st).locations) (st.nextId + (buildOrganizationSnapshot st).databases.length + (buildOrganizationSnapshot st).organisms.length + (buildOrganizationSnapshot st).locations.length + (buildOrganizationSnapshot st).plasmids.length) (st.clock + (buildOrganizationSnapshot st).databases.length + (buildOrganizationSnapshot st).database_memberships.length) (buildOrganizationSnapshot st).strains),
          strainPlasmids := (strainPlasmidRowsFrom (idMapFrom (fun s => s.id) (st.nextId + (buildOrganizationSnapshot st).databases.length + (buildOrganizationSnapshot st).organisms.length + (buildOrganizationSnapshot st).locations.length + (buildOrganizationSnapshot st).plasmids.length) (buildOrganizationSnapshot st).strains) (idMapFrom (fun p => p.id) (st.nextId + (buildOrganizationSnapshot st).databases.length + (buildOrganizationSnapshot st).organisms.length + (buildOrganizationSnapshot st).locations.length) (buildOrganizationSnapshot st).plasmids) (buildOrganizationSnapshot st).strain_plasmids),
          fieldDefs := (fieldDefRowsFrom st.users acting (idMapFrom (fun d => d.id) st.nextId (buildOrganizationSnapshot st).databases) (st.nextId + (buildOrganizationSnapshot st).databases.length + (buildOrganizationSnapshot st).organisms.length + (buildOrganizationSnapshot st).locations.length + (buildOrganizationSnapshot st).plasmids.length + (buildOrganizationSnapshot st).strains.length) (st.clock + (buildOrganizationSnapshot st).databases.length + (buildOrganizationSnapshot st).database_memberships.length + (buildOrganizationSnapshot st).strains.length) (buildOrganizationSnapshot st).custom_fields),
          fieldValues := (fieldValueRowsFrom (idMapFrom (fun s => s.id) (st.nextId + (buildOrganizationSnapshot st).databases.length + (buildOrganizationSnapshot st).organisms.length + (buildOrganizationSnapshot st).locations.length + (buildOrganizationSnapshot st).plasmids.length) (buildOrganizationSnapshot st).strains) (idMapFrom (fun f => f.id) (st.nextId + (buildOrganizationSnapshot st).databases.length + (buildOrganizationSnapshot st).organisms.length + (buildOrganizationSnapshot st).locations.length + (buildOrganizationSnapshot st).plasmids.length + (buildOrganizationSnapshot st).strains.length) (buildOrganizationSnapshot st).custom_fields) (buildOrganizationSnapshot st).field_values),
          auditLogs := (st.auditLogs.filter fun a => (match a.database_id with | some d => !(st.databases.map fun d => d.id).contains d | Option.none => true)),
          nextId := st.nextId + (buildOrganizationSnapshot st).databases.length + (buildOrganizationSnapshot st).organisms.length + (buildOrganizationSnapshot st).locations.length + (buildOrganizationSnapshot st).plasmids.length + (buildOrganizationSnapshot st).strains.length + (buildOrganizationSnapshot st).custom_fields.length,
          clock := st.clock + (buildOrganizationSnapshot st).databases.length + (buildOrganizationSnapshot st).database_memberships.length + (buildOrganizationSnapshot st).strains.length + (buildOrganizationSnapshot st).custom_fields.length } := by
    rw [restoreFieldValues_spec (idMapFrom (fun s => s.id) (st.nextId + (buildOrganizationSnapshot st).databases.length + (buildOrganizationSnapshot st).organisms.length + (buildOrganizationSnapshot st).locations.length + (buildOrganizationSnapshot st).plasmids.length) (buildOrganizationSnapshot st).strains) (idMapFrom (fun f => f.id) (st.nextId + (buildOrganizationSnapshot st).databases.length + (buildOrganizationSnapshot st).organisms.length + (buildOrganizationSnapshot st).locations.length + (buildOrganizationSnapshot st).plasmids.length + (buildOrganizationSnapshot st).strains.length) (buildOrganizationSnapshot st).custom_fields) (buildOrganizationSnapshot st).field_values _
      (doc_fv_res st (st.nextId + (buildOrganizationSnapshot st).databases.length + (buildOrganizationSnapshot st).organisms.length + (buildOrganizationSnapshot st).locations.length + (buildOrganizationSnapshot st).plasmids.length) (st.nextId + (buildOrganizationSnapshot st).databases.length + (buildOrganizationSnapshot st).organisms.length + (buildOrganizationSnapshot st).locations.length + (buildOrganizationSnapshot st).plasmids.length + (buildOrganizationSnapshot st).strains.length))
      (by intro v hv x hx; exact absurd hx (List.not_mem_nil x))
      (doc_fv_pairs st (st.nextId + (buildOrganizationSnapshot st).databases.length + (buildOrganizationSnapshot st).organisms.length + (buildOrganizationSnapshot st).locations.length + (buildOrganizationSnapshot st).plasmids.length) (st.nextId + (buildOrganizationSnapshot st).databases.length + (buildOrganizationSnapshot st).organisms.length + (buildOrganizationSnapshot st).locations.length + (buildOrganizationSnapshot st).plasmids.length + (buildOrganizationSnapshot st).strains.length) w15')]
    rfl
  have e11 : restoreAudits st.users (idMapFrom (fun d => d.id) st.nextId (buildOrganizationSnapshot st).databases)
      { org := { st.org with name := (buildOrganizationSnapshot st).organization.name, slug := (buildOrganizationSnapshot st).organization.slug },
          users := st.users,
          members := st.members,
          databases := (dbRowsFrom st.users acting st.nextId st.clock (buildOrganizationSnapshot st).databases),
          dbMembers := (dbMemberRowsFrom st.users acting (idMapFrom (fun d => d.id) st.nextId (buildOrganizationSnapshot st).databases) (st.clock + (buildOrganizationSnapshot st).databases.length) (buildOrganizationSnapshot st).database_memberships),
          organisms := (organismRowsFrom (idMapFrom (fun d => d.id) st.nextId (buildOrganizationSnapshot st).databases) (st.nextId + (buildOrganizationSnapshot st).databases.length) (buildOrganizationSnapshot st).organisms),
          locations := (locationRowsFrom (idMapFrom (fun d => d.id) st.nextId (buildOrganizationSnapshot st).databases) (st.nextId + (buildOrganizationSnapshot st).databases.length + (buildOrganizationSnapshot st).organisms.length) (buildOrganizationSnapshot st).locations),
          plasmids := (plasmidRowsFrom (idMapFrom (fun d => d.id) st.nextId (buildOrganizationSnapshot st).databases) (st.nextId + (buildOrganizationSnapshot st).databases.length + (buildOrganizationSnapshot st).organisms.length + (buildOrganizationSnapshot st).locations.length) (buildOrganizationSnapshot st).plasmids),
          strains := (strainRowsFrom st.users acting (idMapFrom (fun d => d.id) st.nextId (buildOrganizationSnapshot st).databases) (idMapFrom (fun o => o.id) (st.nextId + (buildOrganizationSnapshot st).databases.length) (buildOrganizationSnapshot st).organisms) (idMapFrom (fun l => l.id) (st.nextId + (buildOrganizationSnapshot st).databases.length + (buildOrganizationSnapshot st).organisms.length) (buildOrganizationSnapshot st).locations) (st.nextId + (buildOrganizationSnapshot st).databases.length + (buildOrganizationSnapshot st).organisms.length + (buildOrganizationSnapshot st).locations.length + (buildOrganizationSnapshot st).plasmids.length) (st.clock + (buildOrganizationSnapshot st).databases.length + (buildOrganizationSnapshot st).database_memberships.length) (buildOrganizationSnapshot st).strains),
          strainPlasmids := (strainPlasmidRowsFrom (idMapFrom (fun s => s.id) (st.nextId + (buildOrganizationSnapshot st).databases.length + (buildOrganizationSnapshot st).organisms.length + (buildOrganizationSnapshot st).locations.length + (buildOrganizationSnapshot st).plasmids.length) (buildOrganizationSnapshot st).strains) (idMapFrom (fun p => p.id) (st.nextId + (buildOrganizationSnapshot st).databases.length + (buildOrganizationSnapshot st).organisms.length + (buildOrganizationSnapshot st).locations.length) (buildOrganizationSnapshot st).plasmids) (buildOrganizationSnapshot st).strain_plasmids),
          fieldDefs := (fieldDefRowsFrom st.users acting (idMapFrom (fun d => d.id) st.nextId (buildOrganizationSnapshot st).databases) (st.nextId + (buildOrganizationSnapshot st).databases.length + (buildOrganizationSnapshot st).organisms.length + (buildOrganizationSnapshot st).locations.length + (buildOrganizationSnapshot st).plasmids.length + (buildOrganizationSnapshot st).strains.length) (st.clock + (buildOrganizationSnapshot st).databases.length + (buildOrganizationSnapshot st).database_memberships.length + (buildOrganizationSnapshot st).strains.length) (buildOrganizationSnapshot st).custom_fields),
          fieldValues := (fieldValueRowsFrom (idMapFrom (fun s => s.id) (st.nextId + (buildOrganizationSnapshot st).databases.length + (buildOrganizationSnapshot st).organisms.length + (buildOrganizationSnapshot st).locations.length + (buildOrganizationSnapshot st).plasmids.length) (buildOrganizationSnapshot st).strains) (idMapFrom (fun f => f.id) (st.nextId + (buildOrganizationSnapshot st).databases.length + (buildOrganizationSnapshot st).organisms.length + (buildOrganizationSnapshot st).locations.length + (buildOrganizationSnapshot st).plasmids.length + (buildOrganizationSnapshot st).strains.length) (buildOrganizationSnapshot st).custom_fields) (buildOrganizationSnapshot st).field_values),
          auditLogs := (st.auditLogs.filter fun a => (match a.database_id with | some d => !(st.databases.map fun d => d.id).contains d | Option.none => true)),
          nextId := st.nextId + (buildOrganizationSnapshot st).databases.length + (buildOrganizationSnapshot st).organisms.length + (buildOrganizationSnapshot st).locations.length + (buildOrganizationSnapshot st).plasmids.length + (buildOrganizationSnapshot st).strains.length + (buildOrganizationSnapshot st).custom_fields.length,
          clock := st.clock + (buildOrganizationSnapshot st).databases.length + (buildOrganizationSnapshot st).database_memberships.length + (buildOrganizationSnapshot st).strains.length + (buildOrganizationSnapshot st).custom_fields.length }
      (buildOrganizationSnapshot st).audit_logs =
      { org := { st.org with name := (buildOrganizationSnapshot st).organization.name, slug := (buildOrganizationSnapshot st).organization.slug },
          users := st.users,
          members := st.members,
          databases := (dbRowsFrom st.users acting st.nextId st.clock (buildOrganizationSnapshot st).databases),
          dbMembers := (dbMemberRowsFrom st.users acting (idMapFrom (fun d => d.id) st.nextId (buildOrganizationSnapshot st).databases) (st.clock + (buildOrganizationSnapshot st).databases.length) (buildOrganizationSnapshot st).database_memberships),
          organisms := (organismRowsFrom (idMapFrom (fun d => d.id) st.nextId (buildOrganizationSnapshot st).databases) (st.nextId + (buildOrganizationSnapshot st).databases.length) (buildOrganizationSnapshot st).organisms),
          locations := (locationRowsFrom (idMapFrom (fun d => d.id) st.nextId (buildOrganizationSnapshot st).databases) (st.nextId + (buildOrganizationSnapshot st).databases.length + (buildOrganizationSnapshot st).organisms.length) (buildOrganizationSnapshot st).locations),
          plasmids := (plasmidRowsFrom (idMapFrom (fun d => d.id) st.nextId (buildOrganizationSnapshot st).databases) (st.nextId + (buildOrganizationSnapshot st).databases.length + (buildOrganizationSnapshot st).organisms.length + (buildOrganizationSnapshot st).locations.length) (buildOrganizationSnapshot st).plasmids),
          strains := (strainRowsFrom st.users acting (idMapFrom (fun d => d.id) st.nextId (buildOrganizationSnapshot st).databases) (idMapFrom (fun o => o.id) (st.nextId + (buildOrganizationSnapshot st).databases.length) (buildOrganizationSnapshot st).organisms) (idMapFrom (fun l => l.id) (st.nextId + (buildOrganizationSnapshot st).databases.length + (buildOrganizationSnapshot st).organisms.length) (buildOrganizationSnapshot st).locations) (st.nextId + (buildOrganizationSnapshot st).databases.length + (buildOrganizationSnapshot st).organisms.length + (buildOrganizationSnapshot st).locations.length + (buildOrganizationSnapshot st).plasmids.length) (st.clock + (buildOrganizationSnapshot st).databases.length + (buildOrganizationSnapshot st).database_memberships.length) (buildOrganizationSnapshot st).strains),
          strainPlasmids := (strainPlasmidRowsFrom (idMapFrom (fun s => s.id) (st.nextId + (buildOrganizationSnapshot st).databases.length + (buildOrganizationSnapshot st).organisms.length + (buildOrganizationSnapshot st).locations.length + (buildOrganizationSnapshot st).plasmids.length) (buildOrganizationSnapshot st).strains) (idMapFrom (fun p => p.id) (st.nextId + (buildOrganizationSnapshot st).databases.length + (buildOrganizationSnapshot st).organisms.length + (buildOrganizationSnapshot st).locations.length) (buildOrganizationSnapshot st).plasmids) (buildOrganizationSnapshot st).strain_plasmids),
          fieldDefs := (fieldDefRowsFrom st.users acting (idMapFrom (fun d => d.id) st.nextId (buildOrganizationSnapshot st).databases) (st.nextId + (buildOrganizationSnapshot st).databases.length + (buildOrganizationSnapshot st).organisms.length + (buildOrganizationSnapshot st).locations.length + (buildOrganizationSnapshot st).plasmids.length + (buildOrganizationSnapshot st).strains.length) (st.clock + (buildOrganizationSnapshot st).databases.length + (buildOrganizationSnapshot st).database_memberships.length + (buildOrganizationSnapshot st).strains.length) (buildOrganizationSnapshot st).custom_fields),
          fieldValues := (fieldValueRowsFrom (idMapFrom (fun s => s.id) (st.nextId + (buildOrganizationSnapshot st).databases.length + (buildOrganizationSnapshot st).organisms.length + (buildOrganizationSnapshot st).locations.length + (buildOrganizationSnapshot st).plasmids.length) (buildOrganizationSnapshot st).strains) (idMapFrom (fun f => f.id) (st.nextId + (buildOrganizationSnapshot st).databases.length + (buildOrganizationSnapshot st).organisms.length + (buildOrganizationSnapshot st).locations.length + (buildOrganizationSnapshot st).plasmids.length + (buildOrganizationSnapshot st).strains.length) (buildOrganizationSnapshot st).custom_fields) (buildOrganizationSnapshot st).field_values),
          auditLogs := (st.auditLogs.filter fun a => (match a.database_id with | some d => !(st.databases.map fun d => d.id).contains d | Option.none => true)) ++ (auditRowsFrom st.users (idMapFrom (fun d => d.id) st.nextId (buildOrganizationSnapshot st).databases) (st.clock + (buildOrganizationSnapshot st).databases.length + (buildOrganizationSnapshot st).database_memberships.length + (buildOrganizationSnapshot st).strains.length + (buildOrganizationSnapshot st).custom_fields.length) (buildOrganizationSnapshot st).audit_logs),
          nextId := st.nextId + (buildOrganizationSnapshot st).databases.length + (buildOrganizationSnapshot st).organisms.length + (buildOrganizationSnapshot st).locations.length + (buildOrganizationSnapshot st).plasmids.length + (buildOrganizationSnapshot st).strains.length + (buildOrganizationSnapshot st).custom_fields.length,
          clock := st.clock + (buildOrganizationSnapshot st).databases.length + (buildOrganizationSnapshot st).database_memberships.length + (buildOrganizationSnapshot st).strains.length + (buildOrganizationSnapshot st).custom_fields.length + (buildOrganizationSnapshot st).audit_logs.length } := by
    rw [restoreAudits_spec]
  rw [restoreOrganizationSnapshot,
    if_neg (by simp [build_version]),
    if_neg (by simp [build_organization])]
  dsimp only
  rw [e1, e2]
  dsimp only
  rw [e3]
  rw [e4]
  dsimp only
  rw [e5]
  dsimp only
  rw [e6]
  dsimp only
  rw [e7]
  dsimp only
  rw [e8, e9]
  dsimp only
  rw [e10, e11]
  rfl


/-- Membership-restricted variant of `rowsFromG_map`: the projection may use
facts about the document entry. -/
theorem rowsFromG_map_mem {δ ρ γ : Type} (mk : δ → Nat → Nat → ρ) (g : ρ → γ)
    (g' : δ → γ) :
    ∀ (ds : List δ) (nid clock : Nat),
      (∀ d ∈ ds, ∀ n c : Nat, g (mk d n c) = g' d) →
      (rowsFromG mk nid clock ds).map g = ds.map g' := by
  intro ds
  induction ds with
  | nil => intro nid clock _; rfl
  | cons d rest ih =>
      intro nid clock h
      rw [rowsFromG, List.map_cons, List.map_cons, h d (by simp) nid clock,
        ih _ _ fun x hx n c => h x (by simp [hx]) n c]

/-- `find?` through a sort and a map, when the matching element is unique. -/
theorem find_over_sorted_map {α β : Type} (f : α → β) (le : α → α → Bool)
    (l : List α) (p : β → Bool) (q : α → Bool)
    (hpq : (fun a => p (f a)) = q)
    (huniq : ∀ x ∈ l, ∀ y ∈ l, q x = true → q y = true → x = y) :
    ((sortBy le l).map f).find? p = (l.find? q).map f := by
  rw [list_find?_map, hpq]
  rw [list_find?_congr_unique q (sortBy le l) l
    (fun x => (sortBy_perm le l).mem_iff)
    (fun x hx y hy hqx hqy =>
      huniq x ((sortBy_perm le l).mem_iff.mp hx) y
        ((sortBy_perm le l).mem_iff.mp hy) hqx hqy)]

/-- The organization block survives a round trip verbatim: ids, uuid, name,
slug, creator and creation time all come back unchanged. -/
theorem rt_organization (st : OrgState) (acting : Nat) :
    (buildOrganizationSnapshot (roundTripState st acting)).organization =
      (buildOrganizationSnapshot st).organization := rfl

/-- The organization-membership section survives a round trip verbatim:
restore updates each member in place with the role it already has. -/
theorem rt_members (st : OrgState) (acting : Nat) :
    (buildOrganizationSnapshot (roundTripState st acting)).members =
      (buildOrganizationSnapshot st).members := rfl

/-- Looking a database up in the export by id is looking it up in the state. -/
theorem docdb_find_st (st : OrgState)
    (w1 : (st.databases.map fun d => d.id).Nodup) (k : Nat) :
    ((buildOrganizationSnapshot st).databases.find? fun d => d.id == k) =
      (st.databases.find? fun d => d.id == k).map fun r =>
        ({ id := r.id, name := r.name, description := r.description,
           created_by_id := r.created_by_id,
           created_at := r.created_at } : DocDb) := by
  rw [build_databases]
  refine find_over_sorted_map _ _ _ _ _ rfl ?_
  intro x hx y hy hqx hqy
  refine inj_of_nodup_map _ _ w1 x hx y hy ?_
  have hx' : x.id = k := by simpa using hqx
  have hy' : y.id = k := by simpa using hqy
  rw [hx', hy']

theorem dbNameOf_doc1 (st : OrgState)
    (w1 : (st.databases.map fun d => d.id).Nodup) (k : Nat) :
    dbNameOf (buildOrganizationSnapshot st) k =
      ((st.databases.find? fun d => d.id == k).map fun d => d.name).getD "" := by
  rw [dbNameOf, docdb_find_st st w1 k, Option.map_map]
  rfl

theorem chain'_of_map {α β : Type} (f : α → β) (R : β → β → Prop) (l : List α)
    (h : List.Chain' R (l.map f)) : List.Chain' (fun a b => R (f a) (f b)) l :=
  (List.chain'_map f).mp h

theorem chain'_map_of {α β : Type} (f : α → β) (R : β → β → Prop) (l : List α)
    (h : List.Chain' (fun a b => R (f a) (f b)) l) : List.Chain' R (l.map f) :=
  (List.chain'_map f).mpr h

theorem rt_databases_rows (st : OrgState) (acting : Nat) :
    (roundTripState st acting).databases =
      dbRowsFrom st.users acting st.nextId st.clock
        (buildOrganizationSnapshot st).databases := rfl

/-- Every exported database's creator exists among the organization's
users. -/
theorem doc_db_creator (st : OrgState)
    (w9 : (st.databases.all fun d =>
      st.users.any fun u => u.id == d.created_by_id) = true) :
    ∀ d ∈ (buildOrganizationSnapshot st).databases,
      ∃ u ∈ st.users, u.id = d.created_by_id := by
  intro d hd
  rw [build_databases, List.mem_map] at hd
  obtain ⟨r, hr, rfl⟩ := hd
  obtain ⟨u, hu, huid⟩ := List.any_eq_true.mp
    ((List.all_eq_true.mp w9) r ((mem_sortBy _ _ _).mp hr))
  exact ⟨u, hu, by simpa using huid⟩

/-- The restored databases come back already sorted: export sorted them by
name and restore recreated them in that order with the same names. -/
theorem rt_databases (st : OrgState) (acting : Nat) :
    (buildOrganizationSnapshot (roundTripState st acting)).databases =
      (dbRowsFrom st.users acting st.nextId st.clock
        (buildOrganizationSnapshot st).databases).map fun d =>
        ({ id := d.id, name := d.name, description := d.description,
           created_by_id := d.created_by_id,
           created_at := d.created_at } : DocDb) := by
  have hds : List.Chain' (fun a b : DocDb => strLeB a.name b.name = true)
      (buildOrganizationSnapshot st).databases := by
    rw [build_databases]
    exact chain'_map_of _ _ _
      (sortBy_chain (fun a b : DbRow => strLeB a.name b.name)
        (fun a b => strLeB_total a.name b.name) _)
  have hnames : (dbRowsFrom st.users acting st.nextId st.clock
      (buildOrganizationSnapshot st).databases).map (fun r => r.name) =
      (buildOrganizationSnapshot st).databases.map (fun d => d.name) := by
    unfold dbRowsFrom
    refine rowsFromG_map _ _ _ ?_ _ _ _
    intro d n c
    rfl
  have h1 : List.Chain' (fun x y : String => strLeB x y = true)
      ((buildOrganizationSnapshot st).databases.map fun d => d.name) :=
    chain'_map_of _ _ _ hds
  rw [← hnames] at h1
  have hrows : List.Chain' (fun a b : DbRow => strLeB a.name b.name = true)
      (dbRowsFrom st.users acting st.nextId st.clock
        (buildOrganizationSnapshot st).databases) :=
    chain'_of_map (fun r : DbRow => r.name) (fun x y => strLeB x y = true) _ h1
  rw [build_databases, rt_databases_rows, sortBy_eq_self_of_chain _ _ hrows]

/-- Database content (name, description, creator) survives the round trip. -/
theorem rt_databases_content (st : OrgState) (acting : Nat)
    (w9 : (st.databases.all fun d =>
      st.users.any fun u => u.id == d.created_by_id) = true) :
    (buildOrganizationSnapshot (roundTripState st acting)).databases.map dbContent =
      (buildOrganizationSnapshot st).databases.map dbContent := by
  rw [rt_databases st acting, List.map_map]
  unfold dbRowsFrom
  refine rowsFromG_map_mem _ _ _ _ _ _ ?_
  intro d hd n c
  obtain ⟨u, hu, huid⟩ := doc_db_creator st w9 d hd
  show ((d.name, d.description,
    (resolveUser st.users (some d.created_by_id) Option.none Option.none
      (some acting)).getD acting) : String × String × Nat) = dbContent d
  rw [resolveUser_by_id st.users d.created_by_id _ _ _ ⟨u, hu, huid⟩]
  rfl

theorem rt_organisms_rows (st : OrgState) (acting : Nat) :
    (roundTripState st acting).organisms =
      organismRowsFrom
        (idMapFrom (fun d => d.id) st.nextId
          (buildOrganizationSnapshot st).databases)
        (st.nextId + (buildOrganizationSnapshot st).databases.length)
        (buildOrganizationSnapshot st).organisms := rfl

theorem rt_locations_rows (st : OrgState) (acting : Nat) :
    (roundTripState st acting).locations =
      locationRowsFrom
        (idMapFrom (fun d => d.id) st.nextId
          (buildOrganizationSnapshot st).databases)
        (st.nextId + (buildOrganizationSnapshot st).databases.length +
          (buildOrganizationSnapshot st).organisms.length)
        (buildOrganizationSnapshot st).locations := rfl

theorem rt_plasmids_rows (st : OrgState) (acting : Nat) :
    (roundTripState st acting).plasmids =
      plasmidRowsFrom
        (idMapFrom (fun d => d.id) st.nextId
          (buildOrganizationSnapshot st).databases)
        (st.nextId + (buildOrganizationSnapshot st).databases.length +
          (buildOrganizationSnapshot st).organisms.length +
          (buildOrganizationSnapshot st).locations.length)
        (buildOrganizationSnapshot st).plasmids := rfl

/-- The fresh database ids are the consecutive block starting at the old
`nextId`. -/
theorem rt_dbIds (st : OrgState) (acting : Nat) :
    (roundTripState st acting).databases.map (fun d => d.id) =
      natsFrom st.nextId (buildOrganizationSnapshot st).databases.length := by
  rw [rt_databases_rows]
  unfold dbRowsFrom
  refine rowsFromG_map_id _ _ ?_ _ _ _
  intro d n c
  rfl

/-- A fresh database id resolves to the database that carried the old id:
same name on both sides of the round trip. -/
theorem dbNameOf_rt (st : OrgState) (acting : Nat) (k v : Nat)
    (h : mapLookup (idMapFrom (fun d => d.id) st.nextId
      (buildOrganizationSnapshot st).databases) k = some v) :
    dbNameOf (buildOrganizationSnapshot (roundTripState st acting)) v =
      dbNameOf (buildOrganizationSnapshot st) k := by
  have hfp : ((dbRowsFrom st.users acting st.nextId st.clock
      (buildOrganizationSnapshot st).databases).find? fun r => r.id == v).map
        (fun r : DbRow => r.name) =
      ((buildOrganizationSnapshot st).databases.find? fun d => d.id == k).map
        (fun d : DocDb => d.name) := by
    unfold dbRowsFrom
    refine rowsFromG_find_proj _ _ _ _ _ ?_ ?_ _ _ _ _ _ h
    · intro d n c
      rfl
    · intro d n c
      rfl
  rw [dbNameOf, dbNameOf, rt_databases st acting, list_find?_map, Option.map_map]
  show (((dbRowsFrom st.users acting st.nextId st.clock
      (buildOrganizationSnapshot st).databases).find? fun r => r.id == v).map
        (fun r : DbRow => r.name)).getD "" = _
  rw [hfp]

/-- The restored organisms all survive the export filter. -/
theorem rt_organisms (st : OrgState) (acting : Nat) :
    (buildOrganizationSnapshot (roundTripState st acting)).organisms =
      (organismRowsFrom
        (idMapFrom (fun d => d.id) st.nextId
          (buildOrganizationSnapshot st).databases)
        (st.nextId + (buildOrganizationSnapshot st).databases.length)
        (buildOrganizationSnapshot st).organisms).map fun o =>
        ({ id := o.id, research_database_id := o.research_database_id,
           name := o.name } : DocOrganism) := by
  rw [build_organisms, rt_dbIds, rt_organisms_rows]
  rw [List.filter_eq_self.mpr ?_]
  intro r hr
  obtain ⟨o, ho, n, c, rfl⟩ := mem_rowsFromG _ _ _ _ r hr
  obtain ⟨v, hv⟩ := doc_org_res st st.nextId o ho
  have hb := mapLookup_idMapFrom_bounds _ _ _ _ _ hv
  show (natsFrom st.nextId _).contains ((mapLookup _ _).getD 0) = true
  rw [hv]
  exact natsFrom_contains _ _ _ hb.1 hb.2

/-- Organism content (database name, organism name) survives the round
trip. -/
theorem rt_organisms_content (st : OrgState) (acting : Nat) :
    (buildOrganizationSnapshot (roundTripState st acting)).organisms.map
      (organismContent (buildOrganizationSnapshot (roundTripState st acting))) =
    (buildOrganizationSnapshot st).organisms.map
      (organismContent (buildOrganizationSnapshot st)) := by
  rw [rt_organisms st acting, List.map_map]
  unfold organismRowsFrom
  refine rowsFromG_map_mem _ _ _ _ _ _ ?_
  intro o ho n c
  obtain ⟨v, hv⟩ := doc_org_res st st.nextId o ho
  show (dbNameOf _ ((mapLookup _ _).getD 0), o.name) = organismContent _ o
  rw [hv, Option.getD_some, dbNameOf_rt st acting _ _ hv]
  rfl

/-- The restored locations all survive the export filter. -/
theorem rt_locations (st : OrgState) (acting : Nat) :
    (buildOrganizationSnapshot (roundTripState st acting)).locations =
      (locationRowsFrom
        (idMapFrom (fun d => d.id) st.nextId
          (buildOrganizationSnapshot st).databases)
        (st.nextId + (buildOrganizationSnapshot st).databases.length +
          (buildOrganizationSnapshot st).organisms.length)
        (buildOrganizationSnapshot st).locations).map fun l =>
        ({ id := l.id, research_database_id := l.research_database_id,
           building := l.building, room := l.room, freezer := l.freezer,
           box := l.box, position := l.position } : DocLocation) := by
  rw [build_locations, rt_dbIds, rt_locations_rows]
  rw [List.filter_eq_self.mpr ?_]
  intro r hr
  obtain ⟨l, hl, n, c, rfl⟩ := mem_rowsFromG _ _ _ _ r hr
  obtain ⟨v, hv⟩ := doc_loc_res st st.nextId l hl
  have hb := mapLookup_idMapFrom_bounds _ _ _ _ _ hv
  show (natsFrom st.nextId _).contains ((mapLookup _ _).getD 0) = true
  rw [hv]
  exact natsFrom_contains _ _ _ hb.1 hb.2

/-- Location content (database name plus the five location components)
survives the round trip. -/
theorem rt_locations_content (st : OrgState) (acting : Nat) :
    (buildOrganizationSnapshot (roundTripState st acting)).locations.map
      (locationContent (buildOrganizationSnapshot (roundTripState st acting))) =
    (buildOrganizationSnapshot st).locations.map
      (locationContent (buildOrganizationSnapshot st)) := by
  rw [rt_locations st acting, List.map_map]
  unfold locationRowsFrom
  refine rowsFromG_map_mem _ _ _ _ _ _ ?_
  intro l hl n c
  obtain ⟨v, hv⟩ := doc_loc_res st st.nextId l hl
  show (dbNameOf _ ((mapLookup _ _).getD 0),
    [l.building, l.room, l.freezer, l.box, l.position]) = locationContent _ l
  rw [hv, Option.getD_some, dbNameOf_rt st acting _ _ hv]
  rfl

/-- The restored plasmids all survive the export filter. -/
theorem rt_plasmids (st : OrgState) (acting : Nat) :
    (buildOrganizationSnapshot (roundTripState st acting)).plasmids =
      (plasmidRowsFrom
        (idMapFrom (fun d => d.id) st.nextId
          (buildOrganizationSnapshot st).databases)
        (st.nextId + (buildOrganizationSnapshot st).databases.length +
          (buildOrganizationSnapshot st).organisms.length +
          (buildOrganizationSnapshot st).locations.length)
        (buildOrganizationSnapshot st).plasmids).map fun p =>
        ({ id := p.id, research_database_id := p.research_database_id,
           name := p.name, resistance_marker := p.resistance_marker,
           notes := p.notes } : DocPlasmid) := by
  rw [build_plasmids, rt_dbIds, rt_plasmids_rows]
  rw [List.filter_eq_self.mpr ?_]
  intro r hr
  obtain ⟨p, hp, n, c, rfl⟩ := mem_rowsFromG _ _ _ _ r hr
  obtain ⟨v, hv⟩ := doc_plas_res st st.nextId p hp
  have hb := mapLookup_idMapFrom_bounds _ _ _ _ _ hv
  show (natsFrom st.nextId _).contains ((mapLookup _ _).getD 0) = true
  rw [hv]
  exact natsFrom_contains _ _ _ hb.1 hb.2

/-- Plasmid content (database name, name, marker, notes) survives the round
trip. -/
theorem rt_plasmids_content (st : OrgState) (acting : Nat) :
    (buildOrganizationSnapshot (roundTripState st acting)).plasmids.map
      (plasmidContent (buildOrganizationSnapshot (roundTripState st acting))) =
    (buildOrganizationSnapshot st).plasmids.map
      (plasmidContent (buildOrganizationSnapshot st)) := by
  rw [rt_plasmids st acting, List.map_map]
  unfold plasmidRowsFrom
  refine rowsFromG_map_mem _ _ _ _ _ _ ?_
  intro p hp n c
  obtain ⟨v, hv⟩ := doc_plas_res st st.nextId p hp
  show (dbNameOf _ ((mapLookup _ _).getD 0), p.name, p.resistance_marker,
    p.notes) = plasmidContent _ p
  rw [hv, Option.getD_some, dbNameOf_rt st acting _ _ hv]
  rfl

theorem rt_dbMembers_rows (st : OrgState) (acting : Nat) :
    (roundTripState st acting).dbMembers =
      dbMemberRowsFrom st.users acting
        (idMapFrom (fun d => d.id) st.nextId
          (buildOrganizationSnapshot st).databases)
        (st.clock + (buildOrganizationSnapshot st).databases.length)
        (buildOrganizationSnapshot st).database_memberships := rfl

/-- The membership ordering key is total. -/
theorem dbmCmp_total (na nb ua ub : String) :
    (charsLt na.data nb.data || (na == nb && strLeB ua ub)) = true ∨
    (charsLt nb.data na.data || (nb == na && strLeB ub ua)) = true := by
  by_cases h1 : charsLt na.data nb.data = true
  · left
    simp [h1]
  · by_cases h2 : charsLt nb.data na.data = true
    · right
      simp [h2]
    · have hdata : na.data = nb.data :=
        charsLt_trichotomy _ _ (by simpa using h1) (by simpa using h2)
      have hnanb : na = nb := String.ext hdata
      rcases strLeB_total ua ub with h | h
      · left
        simp [hnanb, h]
      · right
        simp [hnanb, h]

/-- The exported membership's username and email are its user's. -/
theorem doc_dbm_fields (st : OrgState) :
    ∀ m ∈ (buildOrganizationSnapshot st).database_memberships,
      m.username = (userOf st m.user_id).username ∧
      m.email = (userOf st m.user_id).email := by
  intro m hm
  rw [build_database_memberships, List.mem_map] at hm
  obtain ⟨r, _, rfl⟩ := hm
  exact ⟨rfl, rfl⟩

/-- The restored memberships come back already sorted and all survive the
export filter. -/
theorem rt_dbMembers (st : OrgState) (acting : Nat)
    (w1 : (st.databases.map fun d => d.id).Nodup)
    (w4 : (st.dbMembers.all fun m =>
      (st.databases.map fun d => d.id).contains m.research_database_id &&
      (st.users.any fun u => u.id == m.user_id)) = true) :
    (buildOrganizationSnapshot (roundTripState st acting)).database_memberships =
      (dbMemberRowsFrom st.users acting
        (idMapFrom (fun d => d.id) st.nextId
          (buildOrganizationSnapshot st).databases)
        (st.clock + (buildOrganizationSnapshot st).databases.length)
        (buildOrganizationSnapshot st).database_memberships).map fun m =>
        ({ research_database_id := m.research_database_id, user_id := m.user_id,
           username := (userOf st m.user_id).username,
           email := (userOf st m.user_id).email, role := m.role,
           created_at := m.created_at } : DocDbMember) := by
  have hk : (dbMemberRowsFrom st.users acting
      (idMapFrom (fun d => d.id) st.nextId
        (buildOrganizationSnapshot st).databases)
      (st.clock + (buildOrganizationSnapshot st).databases.length)
      (buildOrganizationSnapshot st).database_memberships).map
        (fun x : DbMemberRow =>
          (((((roundTripState st acting).databases.find? fun d =>
            d.id == x.research_database_id).map fun d => d.name).getD "",
           (userOf st x.user_id).username))) =
      (buildOrganizationSnapshot st).database_memberships.map
        (fun m : DocDbMember =>
          ((((st.databases.find? fun d =>
            d.id == m.research_database_id).map fun d => d.name).getD "",
           (userOf st m.user_id).username))) := by
    unfold dbMemberRowsFrom
    refine rowsFromG_map_mem _ _ _ _ _ _ ?_
    intro m hm n c
    obtain ⟨v, hv⟩ := doc_dbm_res st st.nextId m hm
    obtain ⟨u, hu, huid⟩ := doc_dbm_user st w4 m hm
    have hfp : ((dbRowsFrom st.users acting st.nextId st.clock
        (buildOrganizationSnapshot st).databases).find? fun r => r.id == v).map
          (fun r : DbRow => r.name) =
        ((buildOrganizationSnapshot st).databases.find? fun d =>
          d.id == m.research_database_id).map (fun d : DocDb => d.name) := by
      unfold dbRowsFrom
      refine rowsFromG_find_proj _ _ _ _ _ ?_ ?_ _ _ _ _ _ hv
      · intro d n' c'
        rfl
      · intro d n' c'
        rfl
    show ((((roundTripState st acting).databases.find? fun d =>
        d.id == (mapLookup (idMapFrom (fun d => d.id) st.nextId
          (buildOrganizationSnapshot st).databases)
            m.research_database_id).getD 0).map fun d => d.name).getD "",
      (userOf st ((resolveUser st.users (some m.user_id) (some m.username)
        (some m.email) (some acting)).getD acting)).username) = _
    rw [hv, Option.getD_some, rt_databases_rows, hfp, docdb_find_st st w1,
      Option.map_map,
      resolveUser_by_id st.users m.user_id _ _ _ ⟨u, hu, huid⟩]
    rfl
  have hch1 : List.Chain' (fun a b : DbMemberRow =>
      (let na := ((st.databases.find? fun d =>
          d.id == a.research_database_id).map fun d => d.name).getD ""
       let nb := ((st.databases.find? fun d =>
          d.id == b.research_database_id).map fun d => d.name).getD ""
       charsLt na.data nb.data ||
         (na == nb && strLeB (userOf st a.user_id).username
           (userOf st b.user_id).username)) = true)
      (sortBy (fun a b =>
        let na := ((st.databases.find? fun d =>
          d.id == a.research_database_id).map fun d => d.name).getD ""
        let nb := ((st.databases.find? fun d =>
          d.id == b.research_database_id).map fun d => d.name).getD ""
        charsLt na.data nb.data ||
          (na == nb && strLeB (userOf st a.user_id).username
            (userOf st b.user_id).username))
        (st.dbMembers.filter fun m =>
          (st.databases.map fun d => d.id).contains m.research_database_id)) := by
    refine sortBy_chain _ ?_ _
    intro a b
    exact dbmCmp_total _ _ _ _
  have hchP : List.Chain' (fun x y : String × String =>
      (charsLt x.1.data y.1.data || (x.1 == y.1 && strLeB x.2 y.2)) = true)
      ((buildOrganizationSnapshot st).database_memberships.map
        (fun m : DocDbMember =>
          ((((st.databases.find? fun d =>
            d.id == m.research_database_id).map fun d => d.name).getD "",
           (userOf st m.user_id).username)))) := by
    have hmapeq : (buildOrganizationSnapshot st).database_memberships.map
        (fun m : DocDbMember =>
          ((((st.databases.find? fun d =>
            d.id == m.research_database_id).map fun d => d.name).getD "",
           (userOf st m.user_id).username))) =
        (sortBy (fun a b =>
          let na := ((st.databases.find? fun d =>
            d.id == a.research_database_id).map fun d => d.name).getD ""
          let nb := ((st.databases.find? fun d =>
            d.id == b.research_database_id).map fun d => d.name).getD ""
          charsLt na.data nb.data ||
            (na == nb && strLeB (userOf st a.user_id).username
              (userOf st b.user_id).username))
          (st.dbMembers.filter fun m =>
            (st.databases.map fun d => d.id).contains m.research_database_id)).map
          (fun x : DbMemberRow =>
            ((((st.databases.find? fun d =>
              d.id == x.research_database_id).map fun d => d.name).getD "",
             (userOf st x.user_id).username))) := by
      rw [build_database_memberships, List.map_map]
      rfl
    rw [hmapeq]
    exact chain'_map_of _ _ _ hch1
  have hchain : List.Chain' (fun a b : DbMemberRow =>
      (let na := (((roundTripState st acting).databases.find? fun d =>
          d.id == a.research_database_id).map fun d => d.name).getD ""
       let nb := (((roundTripState st acting).databases.find? fun d =>
          d.id == b.research_database_id).map fun d => d.name).getD ""
       charsLt na.data nb.data ||
         (na == nb && strLeB (userOf (roundTripState st acting) a.user_id).username
           (userOf (roundTripState st acting) b.user_id).username)) = true)
      (dbMemberRowsFrom st.users acting
        (idMapFrom (fun d => d.id) st.nextId
          (buildOrganizationSnapshot st).databases)
        (st.clock + (buildOrganizationSnapshot st).databases.length)
        (buildOrganizationSnapshot st).database_memberships) := by
    have := chain'_of_map
      (fun x : DbMemberRow =>
        (((((roundTripState st acting).databases.find? fun d =>
          d.id == x.research_database_id).map fun d => d.name).getD "",
         (userOf st x.user_id).username)))
      (fun x y : String × String =>
        (charsLt x.1.data y.1.data || (x.1 == y.1 && strLeB x.2 y.2)) = true)
      (dbMemberRowsFrom st.users acting
        (idMapFrom (fun d => d.id) st.nextId
          (buildOrganizationSnapshot st).databases)
        (st.clock + (buildOrganizationSnapshot st).databases.length)
        (buildOrganizationSnapshot st).database_memberships)
      (by rw [hk]; exact hchP)
    exact this
  have hfilter : ((roundTripState st acting).dbMembers.filter fun m =>
      ((roundTripState st acting).databases.map fun d => d.id).contains
        m.research_database_id) = (roundTripState st acting).dbMembers := by
    rw [rt_dbIds, rt_dbMembers_rows]
    refine List.filter_eq_self.mpr ?_
    intro r hr
    obtain ⟨m, hm, n, c, rfl⟩ := mem_rowsFromG _ _ _ _ r hr
    obtain ⟨v, hv⟩ := doc_dbm_res st st.nextId m hm
    have hb := mapLookup_idMapFrom_bounds _ _ _ _ _ hv
    show (natsFrom st.nextId _).contains ((mapLookup _ _).getD 0) = true
    rw [hv]
    exact natsFrom_contains _ _ _ hb.1 hb.2
  rw [build_database_memberships, hfilter, rt_dbMembers_rows,
    sortBy_eq_self_of_chain _ _ hchain]
  rfl

/-- Membership content (database name, user, username, email, role)
survives the round trip. -/
theorem rt_dbMembers_content (st : OrgState) (acting : Nat)
    (w1 : (st.databases.map fun d => d.id).Nodup)
    (w4 : (st.dbMembers.all fun m =>
      (st.databases.map fun d => d.id).contains m.research_database_id &&
      (st.users.any fun u => u.id == m.user_id)) = true) :
    (buildOrganizationSnapshot (roundTripState st acting)).database_memberships.map
      (dbMemberContent (buildOrganizationSnapshot (roundTripState st acting))) =
    (buildOrganizationSnapshot st).database_memberships.map
      (dbMemberContent (buildOrganizationSnapshot st)) := by
  rw [rt_dbMembers st acting w1 w4, List.map_map]
  unfold dbMemberRowsFrom
  refine rowsFromG_map_mem _ _ _ _ _ _ ?_
  intro m hm n c
  obtain ⟨v, hv⟩ := doc_dbm_res st st.nextId m hm
  obtain ⟨u, hu, huid⟩ := doc_dbm_user st w4 m hm
  obtain ⟨husername, hemail⟩ := doc_dbm_fields st m hm
  show (dbNameOf (buildOrganizationSnapshot (roundTripState st acting))
      ((mapLookup (idMapFrom (fun d => d.id) st.nextId
        (buildOrganizationSnapshot st).databases) m.research_database_id).getD 0),
    (resolveUser st.users (some m.user_id) (some m.username) (some m.email)
      (some acting)).getD acting,
    (userOf st ((resolveUser st.users (some m.user_id) (some m.username)
      (some m.email) (some acting)).getD acting)).username,
    (userOf st ((resolveUser st.users (some m.user_id) (some m.username)
      (some m.email) (some acting)).getD acting)).email,
    m.role) = dbMemberContent (buildOrganizationSnapshot st) m
  rw [hv, Option.getD_some, dbNameOf_rt st acting _ _ hv,
    resolveUser_by_id st.users m.user_id _ _ _ ⟨u, hu, huid⟩]
  show (dbNameOf (buildOrganizationSnapshot st) m.research_database_id,
    (some m.user_id).getD acting,
    (userOf st ((some m.user_id).getD acting)).username,
    (userOf st ((some m.user_id).getD acting)).email, m.role) = _
  rw [Option.getD_some, ← husername, ← hemail]
  rfl

theorem rt_strains_rows (st : OrgState) (acting : Nat) :
    (roundTripState st acting).strains =
      strainRowsFrom st.users acting
        (idMapFrom (fun d => d.id) st.nextId
          (buildOrganizationSnapshot st).databases)
        (idMapFrom (fun o => o.id)
          (st.nextId + (buildOrganizationSnapshot st).databases.length)
          (buildOrganizationSnapshot st).organisms)
        (idMapFrom (fun l => l.id)
          (st.nextId + (buildOrganizationSnapshot st).databases.length +
            (buildOrganizationSnapshot st).organisms.length)
          (buildOrganizationSnapshot st).locations)
        (st.nextId + (buildOrganizationSnapshot st).databases.length +
          (buildOrganizationSnapshot st).organisms.length +
          (buildOrganizationSnapshot st).locations.length +
          (buildOrganizationSnapshot st).plasmids.length)
        (st.clock + (buildOrganizationSnapshot st).databases.length +
          (buildOrganizationSnapshot st).database_memberships.length)
        (buildOrganizationSnapshot st).strains := rfl

/-- A fresh organism id resolves back to the old organism's name. -/
theorem organismNameOf_rt (st : OrgState) (acting : Nat) (k v : Nat)
    (h : mapLookup (idMapFrom (fun o => o.id)
      (st.nextId + (buildOrganizationSnapshot st).databases.length)
      (buildOrganizationSnapshot st).organisms) k = some v) :
    organismNameOf (buildOrganizationSnapshot (roundTripState st acting)) v =
      organismNameOf (buildOrganizationSnapshot st) k := by
  have hfp : ((organismRowsFrom
      (idMapFrom (fun d => d.id) st.nextId
        (buildOrganizationSnapshot st).databases)
      (st.nextId + (buildOrganizationSnapshot st).databases.length)
      (buildOrganizationSnapshot st).organisms).find? fun r => r.id == v).map
        (fun r : OrganismRow => r.name) =
      ((buildOrganizationSnapshot st).organisms.find? fun o => o.id == k).map
        (fun o : DocOrganism => o.name) := by
    unfold organismRowsFrom
    refine rowsFromG_find_proj _ _ _ _ _ ?_ ?_ _ _ _ _ _ h
    · intro o n c
      rfl
    · intro o n c
      rfl
  rw [organismNameOf, organismNameOf, rt_organisms st acting, list_find?_map,
    Option.map_map]
  show (((organismRowsFrom
      (idMapFrom (fun d => d.id) st.nextId
        (buildOrganizationSnapshot st).databases)
      (st.nextId + (buildOrganizationSnapshot st).databases.length)
      (buildOrganizationSnapshot st).organisms).find? fun r => r.id == v).map
        (fun r : OrganismRow => r.name)).getD "" = _
  rw [hfp]

/-- A fresh location id resolves back to the old location's component
tuple. -/
theorem locationKeyOf_rt (st : OrgState) (acting : Nat) (k v : Nat)
    (h : mapLookup (idMapFrom (fun l => l.id)
      (st.nextId + (buildOrganizationSnapshot st).databases.length +
        (buildOrganizationSnapshot st).organisms.length)
      (buildOrganizationSnapshot st).locations) k = some v) :
    locationKeyOf (buildOrganizationSnapshot (roundTripState st acting)) v =
      locationKeyOf (buildOrganizationSnapshot st) k := by
  have hfp : ((locationRowsFrom
      (idMapFrom (fun d => d.id) st.nextId
        (buildOrganizationSnapshot st).databases)
      (st.nextId + (buildOrganizationSnapshot st).databases.length +
        (buildOrganizationSnapshot st).organisms.length)
      (buildOrganizationSnapshot st).locations).find? fun r => r.id == v).map
        (fun r : LocationRow =>
          [r.building, r.room, r.freezer, r.box, r.position]) =
      ((buildOrganizationSnapshot st).locations.find? fun l => l.id == k).map
        (fun l : DocLocation =>
          [l.building, l.room, l.freezer, l.box, l.position]) := by
    unfold locationRowsFrom
    refine rowsFromG_find_proj _ _ _ _ _ ?_ ?_ _ _ _ _ _ h
    · intro l n c
      rfl
    · intro l n c
      rfl
  rw [locationKeyOf, locationKeyOf, rt_locations st acting, list_find?_map,
    Option.map_map]
  show (((locationRowsFrom
      (idMapFrom (fun d => d.id) st.nextId
        (buildOrganizationSnapshot st).databases)
      (st.nextId + (buildOrganizationSnapshot st).databases.length +
        (buildOrganizationSnapshot st).organisms.length)
      (buildOrganizationSnapshot st).locations).find? fun r => r.id == v).map
        (fun r : LocationRow =>
          [r.building, r.room, r.freezer, r.box, r.position])).getD [] = _
  rw [hfp]

/-- Exported strains resolve their creator to themselves, and a present
archiver likewise. -/
theorem doc_strain_resolve (st : OrgState) (acting : Nat)
    (w10 : (st.strains.all fun s =>
      (st.databases.map fun d => d.id).contains s.research_database_id &&
      (st.organisms.map fun o => o.id).contains s.organism_id &&
      (st.locations.map fun l => l.id).contains s.location_id &&
      (st.users.any fun u => u.id == s.created_by_id) &&
      (match s.archived_by_id with
       | Option.none => true
       | some u => st.users.any fun w => w.id == u)) = true) :
    ∀ s ∈ (buildOrganizationSnapshot st).strains,
      (resolveUser st.users (some s.created_by_id) Option.none Option.none
        (some acting)).getD acting = s.created_by_id ∧
      resolveUser st.users s.archived_by_id Option.none Option.none
        Option.none = s.archived_by_id := by
  intro s hs
  rw [build_strains, List.mem_map] at hs
  obtain ⟨r, hr, rfl⟩ := hs
  have hrmem := (List.mem_filter.mp ((mem_sortBy _ _ _).mp hr)).1
  have hw := (List.all_eq_true.mp w10) r hrmem
  simp only [Bool.and_eq_true] at hw
  constructor
  · obtain ⟨u, hu, huid⟩ := List.any_eq_true.mp hw.1.2
    rw [resolveUser_by_id st.users r.created_by_id _ _ _
      ⟨u, hu, by simpa using huid⟩]
    rfl
  · show resolveUser st.users r.archived_by_id Option.none Option.none
      Option.none = r.archived_by_id
    cases harch : r.archived_by_id with
    | none => exact resolveUser_none st.users
    | some a =>
        rw [harch] at hw
        obtain ⟨u, hu, huid⟩ := List.any_eq_true.mp hw.2
        exact resolveUser_by_id st.users a _ _ _ ⟨u, hu, by simpa using huid⟩

/-- The restored strains all survive the export filter and come back in
reverse document order: export orders by descending `updated_at` and
restore reassigned strictly increasing stamps in document order. -/
theorem rt_strains (st : OrgState) (acting : Nat)
    (w6 : (st.organisms.all fun o =>
      (st.databases.map fun d => d.id).contains o.research_database_id) = true)
    (w7 : (st.locations.all fun l =>
      (st.databases.map fun d => d.id).contains l.research_database_id) = true)
    (w10 : (st.strains.all fun s =>
      (st.databases.map fun d => d.id).contains s.research_database_id &&
      (st.organisms.map fun o => o.id).contains s.organism_id &&
      (st.locations.map fun l => l.id).contains s.location_id &&
      (st.users.any fun u => u.id == s.created_by_id) &&
      (match s.archived_by_id with
       | Option.none => true
       | some u => st.users.any fun w => w.id == u)) = true) :
    (buildOrganizationSnapshot (roundTripState st acting)).strains =
      ((strainRowsFrom st.users acting
        (idMapFrom (fun d => d.id) st.nextId
          (buildOrganizationSnapshot st).databases)
        (idMapFrom (fun o => o.id)
          (st.nextId + (buildOrganizationSnapshot st).databases.length)
          (buildOrganizationSnapshot st).organisms)
        (idMapFrom (fun l => l.id)
          (st.nextId + (buildOrganizationSnapshot st).databases.length +
            (buildOrganizationSnapshot st).organisms.length)
          (buildOrganizationSnapshot st).locations)
        (st.nextId + (buildOrganizationSnapshot st).databases.length +
          (buildOrganizationSnapshot st).organisms.length +
          (buildOrganizationSnapshot st).locations.length +
          (buildOrganizationSnapshot st).plasmids.length)
        (st.clock + (buildOrganizationSnapshot st).databases.length +
          (buildOrganizationSnapshot st).database_memberships.length)
        (buildOrganizationSnapshot st).strains).reverse).map fun s =>
        ({ id := s.id, research_database_id := s.research_database_id,
           strain_id := s.strain_id, name := s.name,
           organism_id := s.organism_id, genotype := s.genotype,
           selective_marker := s.selective_marker, comments := s.comments,
           location_id := s.location_id, status := s.status,
           created_by_id := s.created_by_id, created_at := s.created_at,
           updated_at := s.updated_at, is_active := s.is_active,
           is_archived := s.is_archived, archived_at := s.archived_at,
           archived_by_id := s.archived_by_id } : DocStrain) := by
  have hts : (strainRowsFrom st.users acting
        (idMapFrom (fun d => d.id) st.nextId
          (buildOrganizationSnapshot st).databases)
        (idMapFrom (fun o => o.id)
          (st.nextId + (buildOrganizationSnapshot st).databases.length)
          (buildOrganizationSnapshot st).organisms)
        (idMapFrom (fun l => l.id)
          (st.nextId + (buildOrganizationSnapshot st).databases.length +
            (buildOrganizationSnapshot st).organisms.length)
          (buildOrganizationSnapshot st).locations)
        (st.nextId + (buildOrganizationSnapshot st).databases.length +
          (buildOrganizationSnapshot st).organisms.length +
          (buildOrganizationSnapshot st).locations.length +
          (buildOrganizationSnapshot st).plasmids.length)
        (st.clock + (buildOrganizationSnapshot st).databases.length +
          (buildOrganizationSnapshot st).database_memberships.length)
        (buildOrganizationSnapshot st).strains).map (fun r => r.updated_at) =
      natsFrom (st.clock + (buildOrganizationSnapshot st).databases.length +
        (buildOrganizationSnapshot st).database_memberships.length)
        (buildOrganizationSnapshot st).strains.length := by
    unfold strainRowsFrom
    refine rowsFromG_map_ts _ _ ?_ _ _ _
    intro s n c
    rfl
  have hlt : List.Pairwise (fun a b : StrainRow => a.updated_at < b.updated_at)
      (strainRowsFrom st.users acting
        (idMapFrom (fun d => d.id) st.nextId
          (buildOrganizationSnapshot st).databases)
        (idMapFrom (fun o => o.id)
          (st.nextId + (buildOrganizationSnapshot st).databases.length)
          (buildOrganizationSnapshot st).organisms)
        (idMapFrom (fun l => l.id)
          (st.nextId + (buildOrganizationSnapshot st).databases.length +
            (buildOrganizationSnapshot st).organisms.length)
          (buildOrganizationSnapshot st).locations)
        (st.nextId + (buildOrganizationSnapshot st).databases.length +
          (buildOrganizationSnapshot st).organisms.length +
          (buildOrganizationSnapshot st).locations.length +
          (buildOrganizationSnapshot st).plasmids.length)
        (st.clock + (buildOrganizationSnapshot st).databases.length +
          (buildOrganizationSnapshot st).database_memberships.length)
        (buildOrganizationSnapshot st).strains) := by
    have := natsFrom_pairwise_lt (buildOrganizationSnapshot st).strains.length
      (st.clock + (buildOrganizationSnapshot st).databases.length +
        (buildOrganizationSnapshot st).database_memberships.length)
    rw [← hts] at this
    exact List.pairwise_map.mp this
  have hneg : List.Pairwise (fun a b : StrainRow =>
      (decide (b.updated_at ≤ a.updated_at)) = false)
      (strainRowsFrom st.users acting
        (idMapFrom (fun d => d.id) st.nextId
          (buildOrganizationSnapshot st).databases)
        (idMapFrom (fun o => o.id)
          (st.nextId + (buildOrganizationSnapshot st).databases.length)
          (buildOrganizationSnapshot st).organisms)
        (idMapFrom (fun l => l.id)
          (st.nextId + (buildOrganizationSnapshot st).databases.length +
            (buildOrganizationSnapshot st).organisms.length)
          (buildOrganizationSnapshot st).locations)
        (st.nextId + (buildOrganizationSnapshot st).databases.length +
          (buildOrganizationSnapshot st).organisms.length +
          (buildOrganizationSnapshot st).locations.length +
          (buildOrganizationSnapshot st).plasmids.length)
        (st.clock + (buildOrganizationSnapshot st).databases.length +
          (buildOrganizationSnapshot st).database_memberships.length)
        (buildOrganizationSnapshot st).strains) := by
    refine hlt.imp ?_
    intro a b hab
    simp only [decide_eq_false_iff_not]
    omega
  have hfilter : ((strainRowsFrom st.users acting
        (idMapFrom (fun d => d.id) st.nextId
          (buildOrganizationSnapshot st).databases)
        (idMapFrom (fun o => o.id)
          (st.nextId + (buildOrganizationSnapshot st).databases.length)
          (buildOrganizationSnapshot st).organisms)
        (idMapFrom (fun l => l.id)
          (st.nextId + (buildOrganizationSnapshot st).databases.length +
            (buildOrganizationSnapshot st).organisms.length)
          (buildOrganizationSnapshot st).locations)
        (st.nextId + (buildOrganizationSnapshot st).databases.length +
          (buildOrganizationSnapshot st).organisms.length +
          (buildOrganizationSnapshot st).locations.length +
          (buildOrganizationSnapshot st).plasmids.length)
        (st.clock + (buildOrganizationSnapshot st).databases.length +
          (buildOrganizationSnapshot st).database_memberships.length)
        (buildOrganizationSnapshot st).strains).filter fun s =>
      ((roundTripState st acting).databases.map fun d => d.id).contains
        s.research_database_id) = (strainRowsFrom st.users acting
        (idMapFrom (fun d => d.id) st.nextId
          (buildOrganizationSnapshot st).databases)
        (idMapFrom (fun o => o.id)
          (st.nextId + (buildOrganizationSnapshot st).databases.length)
          (buildOrganizationSnapshot st).organisms)
        (idMapFrom (fun l => l.id)
          (st.nextId + (buildOrganizationSnapshot st).databases.length +
            (buildOrganizationSnapshot st).organisms.length)
          (buildOrganizationSnapshot st).locations)
        (st.nextId + (buildOrganizationSnapshot st).databases.length +
          (buildOrganizationSnapshot st).organisms.length +
          (buildOrganizationSnapshot st).locations.length +
          (buildOrganizationSnapshot st).plasmids.length)
        (st.clock + (buildOrganizationSnapshot st).databases.length +
          (buildOrganizationSnapshot st).database_memberships.length)
        (buildOrganizationSnapshot st).strains) := by
    rw [rt_dbIds]
    refine List.filter_eq_self.mpr ?_
    intro r hr
    obtain ⟨m, hm, n, c, rfl⟩ := mem_rowsFromG _ _ _ _ r hr
    obtain ⟨⟨v, hv⟩, _, _⟩ := doc_strain_res st st.nextId
      (st.nextId + (buildOrganizationSnapshot st).databases.length)
      (st.nextId + (buildOrganizationSnapshot st).databases.length +
        (buildOrganizationSnapshot st).organisms.length) w6 w7 w10 m hm
    have hb := mapLookup_idMapFrom_bounds _ _ _ _ _ hv
    show (natsFrom st.nextId _).contains ((mapLookup _ _).getD 0) = true
    rw [hv]
    exact natsFrom_contains _ _ _ hb.1 hb.2
  rw [build_strains, rt_strains_rows, hfilter,
    sortBy_eq_reverse_of_pairwise_neg _ _ hneg]

/-- Strain content (all scalar fields, with every foreign key replaced by
the referenced row's content) survives the round trip with the array
reversed. -/
theorem rt_strains_content (st : OrgState) (acting : Nat)
    (w6 : (st.organisms.all fun o =>
      (st.databases.map fun d => d.id).contains o.research_database_id) = true)
    (w7 : (st.locations.all fun l =>
      (st.databases.map fun d => d.id).contains l.research_database_id) = true)
    (w10 : (st.strains.all fun s =>
      (st.databases.map fun d => d.id).contains s.research_database_id &&
      (st.organisms.map fun o => o.id).contains s.organism_id &&
      (st.locations.map fun l => l.id).contains s.location_id &&
      (st.users.any fun u => u.id == s.created_by_id) &&
      (match s.archived_by_id with
       | Option.none => true
       | some u => st.users.any fun w => w.id == u)) = true) :
    (buildOrganizationSnapshot (roundTripState st acting)).strains.map
      (strainContent (buildOrganizationSnapshot (roundTripState st acting))) =
    ((buildOrganizationSnapshot st).strains.map
      (strainContent (buildOrganizationSnapshot st))).reverse := by
  have hmain : (strainRowsFrom st.users acting
        (idMapFrom (fun d => d.id) st.nextId
          (buildOrganizationSnapshot st).databases)
        (idMapFrom (fun o => o.id)
          (st.nextId + (buildOrganizationSnapshot st).databases.length)
          (buildOrganizationSnapshot st).organisms)
        (idMapFrom (fun l => l.id)
          (st.nextId + (buildOrganizationSnapshot st).databases.length +
            (buildOrganizationSnapshot st).organisms.length)
          (buildOrganizationSnapshot st).locations)
        (st.nextId + (buildOrganizationSnapshot st).databases.length +
          (buildOrganizationSnapshot st).organisms.length +
          (buildOrganizationSnapshot st).locations.length +
          (buildOrganizationSnapshot st).plasmids.length)
        (st.clock + (buildOrganizationSnapshot st).databases.length +
          (buildOrganizationSnapshot st).database_memberships.length)
        (buildOrganizationSnapshot st).strains).map
      (fun r : StrainRow =>
        strainContent (buildOrganizationSnapshot (roundTripState st acting))
          { id := r.id, research_database_id := r.research_database_id,
             strain_id := r.strain_id, name := r.name,
             organism_id := r.organism_id, genotype := r.genotype,
             selective_marker := r.selective_marker, comments := r.comments,
             location_id := r.location_id, status := r.status,
             created_by_id := r.created_by_id, created_at := r.created_at,
             updated_at := r.updated_at, is_active := r.is_active,
             is_archived := r.is_archived, archived_at := r.archived_at,
             archived_by_id := r.archived_by_id }) =
      (buildOrganizationSnapshot st).strains.map
        (strainContent (buildOrganizationSnapshot st)) := by
    unfold strainRowsFrom
    refine rowsFromG_map_mem _ _ _ _ _ _ ?_
    intro s hs n c
    obtain ⟨⟨v₁, hv₁⟩, ⟨v₂, hv₂⟩, ⟨v₃, hv₃⟩⟩ := doc_strain_res st st.nextId
      (st.nextId + (buildOrganizationSnapshot st).databases.length)
      (st.nextId + (buildOrganizationSnapshot st).databases.length +
        (buildOrganizationSnapshot st).organisms.length) w6 w7 w10 s hs
    obtain ⟨hcreator, harch⟩ := doc_strain_resolve st acting w10 s hs
    show ({
        database :=
          dbNameOf (buildOrganizationSnapshot (roundTripState st acting))
            ((mapLookup (idMapFrom (fun d => d.id) st.nextId
              (buildOrganizationSnapshot st).databases)
                s.research_database_id).getD 0),
        strain_id := s.strain_id, name := s.name,
        organism :=
          organismNameOf (buildOrganizationSnapshot (roundTripState st acting))
            ((mapLookup (idMapFrom (fun o => o.id)
              (st.nextId + (buildOrganizationSnapshot st).databases.length)
              (buildOrganizationSnapshot st).organisms) s.organism_id).getD 0),
        genotype := s.genotype, selective_marker := s.selective_marker,
        comments := s.comments,
        location :=
          locationKeyOf (buildOrganizationSnapshot (roundTripState st acting))
            ((mapLookup (idMapFrom (fun l => l.id)
              (st.nextId + (buildOrganizationSnapshot st).databases.length +
                (buildOrganizationSnapshot st).organisms.length)
              (buildOrganizationSnapshot st).locations) s.location_id).getD 0),
        status := s.status,
        created_by_id := (resolveUser st.users (some s.created_by_id)
          Option.none Option.none (some acting)).getD acting,
        is_active := s.is_active, is_archived := s.is_archived,
        archived_at := s.archived_at,
        archived_by_id := resolveUser st.users s.archived_by_id Option.none
          Option.none Option.none } : StrainContent) =
      strainContent (buildOrganizationSnapshot st) s
    rw [hv₁, hv₂, hv₃, Option.getD_some, Option.getD_some, Option.getD_some,
      dbNameOf_rt st acting _ _ hv₁, organismNameOf_rt st acting _ _ hv₂,
      locationKeyOf_rt st acting _ _ hv₃, hcreator, harch]
    rfl
  rw [rt_strains st acting w6 w7 w10, List.map_reverse, List.map_reverse,
    List.map_map]
  show ((strainRowsFrom st.users acting
        (idMapFrom (fun d => d.id) st.nextId
          (buildOrganizationSnapshot st).databases)
        (idMapFrom (fun o => o.id)
          (st.nextId + (buildOrganizationSnapshot st).databases.length)
          (buildOrganizationSnapshot st).organisms)
        (idMapFrom (fun l => l.id)
          (st.nextId + (buildOrganizationSnapshot st).databases.length +
            (buildOrganizationSnapshot st).organisms.length)
          (buildOrganizationSnapshot st).locations)
        (st.nextId + (buildOrganizationSnapshot st).databases.length +
          (buildOrganizationSnapshot st).organisms.length +
          (buildOrganizationSnapshot st).locations.length +
          (buildOrganizationSnapshot st).plasmids.length)
        (st.clock + (buildOrganizationSnapshot st).databases.length +
          (buildOrganizationSnapshot st).database_memberships.length)
        (buildOrganizationSnapshot st).strains).map
      (fun r : StrainRow =>
        strainContent (buildOrganizationSnapshot (roundTripState st acting))
          { id := r.id, research_database_id := r.research_database_id,
             strain_id := r.strain_id, name := r.name,
             organism_id := r.organism_id, genotype := r.genotype,
             selective_marker := r.selective_marker, comments := r.comments,
             location_id := r.location_id, status := r.status,
             created_by_id := r.created_by_id, created_at := r.created_at,
             updated_at := r.updated_at, is_active := r.is_active,
             is_archived := r.is_archived, archived_at := r.archived_at,
             archived_by_id := r.archived_by_id })).reverse = _
  rw [hmain]


/-- Rows a creation loop hands out are already ordered by any comparator
that only compares the fresh primary keys upward. -/
theorem rowsFromG_chain_le {δ ρ : Type} (mk : δ → Nat → Nat → ρ)
    (le : ρ → ρ → Bool)
    (hle : ∀ d₁ d₂ n₁ c₁ n₂ c₂, n₁ ≤ n₂ →
      le (mk d₁ n₁ c₁) (mk d₂ n₂ c₂) = true) :
    ∀ (ds : List δ) (nid clock : Nat),
      List.Chain' (fun a b => le a b = true) (rowsFromG mk nid clock ds) := by
  intro ds
  induction ds with
  | nil => intro nid clock; simp [rowsFromG]
  | cons d rest ih =>
      intro nid clock
      rw [rowsFromG]
      refine List.chain'_cons'.mpr ⟨?_, ih (nid + 1) (clock + 1)⟩
      intro c' hc'
      cases rest with
      | nil => simp [rowsFromG] at hc'
      | cons e es =>
          rw [rowsFromG] at hc'
          simp only [List.head?_cons, Option.mem_def, Option.some.injEq] at hc'
          rw [← hc']
          exact hle d e nid clock (nid + 1) (clock + 1) (by omega)

theorem rt_strainPlasmids_rows (st : OrgState) (acting : Nat) :
    (roundTripState st acting).strainPlasmids =
      strainPlasmidRowsFrom
        (idMapFrom (fun s => s.id)
        (st.nextId + (buildOrganizationSnapshot st).databases.length +
          (buildOrganizationSnapshot st).organisms.length +
          (buildOrganizationSnapshot st).locations.length +
          (buildOrganizationSnapshot st).plasmids.length)
        (buildOrganizationSnapshot st).strains)
        (idMapFrom (fun p => p.id)
        (st.nextId + (buildOrganizationSnapshot st).databases.length +
          (buildOrganizationSnapshot st).organisms.length +
          (buildOrganizationSnapshot st).locations.length)
        (buildOrganizationSnapshot st).plasmids)
        (buildOrganizationSnapshot st).strain_plasmids := rfl

theorem rt_fieldDefs_rows (st : OrgState) (acting : Nat) :
    (roundTripState st acting).fieldDefs =
      fieldDefRowsFrom st.users acting
        (idMapFrom (fun d => d.id) st.nextId
          (buildOrganizationSnapshot st).databases)
        (st.nextId + (buildOrganizationSnapshot st).databases.length +
          (buildOrganizationSnapshot st).organisms.length +
          (buildOrganizationSnapshot st).locations.length +
          (buildOrganizationSnapshot st).plasmids.length +
          (buildOrganizationSnapshot st).strains.length)
        (st.clock + (buildOrganizationSnapshot st).databases.length +
          (buildOrganizationSnapshot st).database_memberships.length +
          (buildOrganizationSnapshot st).strains.length)
        (buildOrganizationSnapshot st).custom_fields := rfl

theorem rt_fieldValues_rows (st : OrgState) (acting : Nat) :
    (roundTripState st acting).fieldValues =
      fieldValueRowsFrom
        (idMapFrom (fun s => s.id)
        (st.nextId + (buildOrganizationSnapshot st).databases.length +
          (buildOrganizationSnapshot st).organisms.length +
          (buildOrganizationSnapshot st).locations.length +
          (buildOrganizationSnapshot st).plasmids.length)
        (buildOrganizationSnapshot st).strains)
        (idMapFrom (fun f => f.id)
          (st.nextId + (buildOrganizationSnapshot st).databases.length +
            (buildOrganizationSnapshot st).organisms.length +
            (buildOrganizationSnapshot st).locations.length +
            (buildOrganizationSnapshot st).plasmids.length +
            (buildOrganizationSnapshot st).strains.length)
          (buildOrganizationSnapshot st).custom_fields)
        (buildOrganizationSnapshot st).field_values := rfl

/-- The sorted strain queryset of the restored state is the reverse of the
created rows. -/
theorem rt_sorted_strain_rows (st : OrgState) (acting : Nat)
    (w6 : (st.organisms.all fun o =>
      (st.databases.map fun d => d.id).contains o.research_database_id) = true)
    (w7 : (st.locations.all fun l =>
      (st.databases.map fun d => d.id).contains l.research_database_id) = true)
    (w10 : (st.strains.all fun s =>
      (st.databases.map fun d => d.id).contains s.research_database_id &&
      (st.organisms.map fun o => o.id).contains s.organism_id &&
      (st.locations.map fun l => l.id).contains s.location_id &&
      (st.users.any fun u => u.id == s.created_by_id) &&
      (match s.archived_by_id with
       | Option.none => true
       | some u => st.users.any fun w => w.id == u)) = true) :
    sortBy (fun a b => decide (b.updated_at ≤ a.updated_at))
      ((roundTripState st acting).strains.filter fun s =>
        ((roundTripState st acting).databases.map fun d => d.id).contains
          s.research_database_id) =
      (strainRowsFrom st.users acting
        (idMapFrom (fun d => d.id) st.nextId
          (buildOrganizationSnapshot st).databases)
        (idMapFrom (fun o => o.id)
          (st.nextId + (buildOrganizationSnapshot st).databases.length)
          (buildOrganizationSnapshot st).organisms)
        (idMapFrom (fun l => l.id)
          (st.nextId + (buildOrganizationSnapshot st).databases.length +
            (buildOrganizationSnapshot st).organisms.length)
          (buildOrganizationSnapshot st).locations)
        (st.nextId + (buildOrganizationSnapshot st).databases.length +
          (buildOrganizationSnapshot st).organisms.length +
          (buildOrganizationSnapshot st).locations.length +
          (buildOrganizationSnapshot st).plasmids.length)
        (st.clock + (buildOrganizationSnapshot st).databases.length +
          (buildOrganizationSnapshot st).database_memberships.length)
        (buildOrganizationSnapshot st).strains).reverse := by
  have hts : (strainRowsFrom st.users acting
        (idMapFrom (fun d => d.id) st.nextId
          (buildOrganizationSnapshot st).databases)
        (idMapFrom (fun o => o.id)
          (st.nextId + (buildOrganizationSnapshot st).databases.length)
          (buildOrganizationSnapshot st).organisms)
        (idMapFrom (fun l => l.id)
          (st.nextId + (buildOrganizationSnapshot st).databases.length +
            (buildOrganizationSnapshot st).organisms.length)
          (buildOrganizationSnapshot st).locations)
        (st.nextId + (buildOrganizationSnapshot st).databases.length +
          (buildOrganizationSnapshot st).organisms.length +
          (buildOrganizationSnapshot st).locations.length +
          (buildOrganizationSnapshot st).plasmids.length)
        (st.clock + (buildOrganizationSnapshot st).databases.length +
          (buildOrganizationSnapshot st).database_memberships.length)
        (buildOrganizationSnapshot st).strains).map (fun r => r.updated_at) =
      natsFrom (st.clock + (buildOrganizationSnapshot st).databases.length +
        (buildOrganizationSnapshot st).database_memberships.length)
        (buildOrganizationSnapshot st).strains.length := by
    unfold strainRowsFrom
    refine rowsFromG_map_ts _ _ ?_ _ _ _
    intro s n c
    rfl
  have hlt : List.Pairwise (fun a b : StrainRow => a.updated_at < b.updated_at)
      (strainRowsFrom st.users acting
        (idMapFrom (fun d => d.id) st.nextId
          (buildOrganizationSnapshot st).databases)
        (idMapFrom (fun o => o.id)
          (st.nextId + (buildOrganizationSnapshot st).databases.length)
          (buildOrganizationSnapshot st).organisms)
        (idMapFrom (fun l => l.id)
          (st.nextId + (buildOrganizationSnapshot st).databases.length +
            (buildOrganizationSnapshot st).organisms.length)
          (buildOrganizationSnapshot st).locations)
        (st.nextId + (buildOrganizationSnapshot st).databases.length +
          (buildOrganizationSnapshot st).organisms.length +
          (buildOrganizationSnapshot st).locations.length +
          (buildOrganizationSnapshot st).plasmids.length)
        (st.clock + (buildOrganizationSnapshot st).databases.length +
          (buildOrganizationSnapshot st).database_memberships.length)
        (buildOrganizationSnapshot st).strains) := by
    have := natsFrom_pairwise_lt (buildOrganizationSnapshot st).strains.length
      (st.clock + (buildOrganizationSnapshot st).databases.length +
        (buildOrganizationSnapshot st).database_memberships.length)
    rw [← hts] at this
    exact List.pairwise_map.mp this
  have hneg : List.Pairwise (fun a b : StrainRow =>
      (decide (b.updated_at ≤ a.updated_at)) = false)
      (strainRowsFrom st.users acting
        (idMapFrom (fun d => d.id) st.nextId
          (buildOrganizationSnapshot st).databases)
        (idMapFrom (fun o => o.id)
          (st.nextId + (buildOrganizationSnapshot st).databases.length)
          (buildOrganizationSnapshot st).organisms)
        (idMapFrom (fun l => l.id)
          (st.nextId + (buildOrganizationSnapshot st).databases.length +
            (buildOrganizationSnapshot st).organisms.length)
          (buildOrganizationSnapshot st).locations)
        (st.nextId + (buildOrganizationSnapshot st).databases.length +
          (buildOrganizationSnapshot st).organisms.length +
          (buildOrganizationSnapshot st).locations.length +
          (buildOrganizationSnapshot st).plasmids.length)
        (st.clock + (buildOrganizationSnapshot st).databases.length +
          (buildOrganizationSnapshot st).database_memberships.length)
        (buildOrganizationSnapshot st).strains) := by
    refine hlt.imp ?_
    intro a b hab
    simp only [decide_eq_false_iff_not]
    omega
  have hfilter : ((strainRowsFrom st.users acting
        (idMapFrom (fun d => d.id) st.nextId
          (buildOrganizationSnapshot st).databases)
        (idMapFrom (fun o => o.id)
          (st.nextId + (buildOrganizationSnapshot st).databases.length)
          (buildOrganizationSnapshot st).organisms)
        (idMapFrom (fun l => l.id)
          (st.nextId + (buildOrganizationSnapshot st).databases.length +
            (buildOrganizationSnapshot st).organisms.length)
          (buildOrganizationSnapshot st).locations)
        (st.nextId + (buildOrganizationSnapshot st).databases.length +
          (buildOrganizationSnapshot st).organisms.length +
          (buildOrganizationSnapshot st).locations.length +
          (buildOrganizationSnapshot st).plasmids.length)
        (st.clock + (buildOrganizationSnapshot st).databases.length +
          (buildOrganizationSnapshot st).database_memberships.length)
        (buildOrganizationSnapshot st).strains).filter fun s =>
      ((roundTripState st acting).databases.map fun d => d.id).contains
        s.research_database_id) = (strainRowsFrom st.users acting
        (idMapFrom (fun d => d.id) st.nextId
          (buildOrganizationSnapshot st).databases)
        (idMapFrom (fun o => o.id)
          (st.nextId + (buildOrganizationSnapshot st).databases.length)
          (buildOrganizationSnapshot st).organisms)
        (idMapFrom (fun l => l.id)
          (st.nextId + (buildOrganizationSnapshot st).databases.length +
            (buildOrganizationSnapshot st).organisms.length)
          (buildOrganizationSnapshot st).locations)
        (st.nextId + (buildOrganizationSnapshot st).databases.length +
          (buildOrganizationSnapshot st).organisms.length +
          (buildOrganizationSnapshot st).locations.length +
          (buildOrganizationSnapshot st).plasmids.length)
        (st.clock + (buildOrganizationSnapshot st).databases.length +
          (buildOrganizationSnapshot st).database_memberships.length)
        (buildOrganizationSnapshot st).strains) := by
    rw [rt_dbIds]
    refine List.filter_eq_self.mpr ?_
    intro r hr
    obtain ⟨m, hm, n, c, rfl⟩ := mem_rowsFromG _ _ _ _ r hr
    obtain ⟨⟨v, hv⟩, _, _⟩ := doc_strain_res st st.nextId
      (st.nextId + (buildOrganizationSnapshot st).databases.length)
      (st.nextId + (buildOrganizationSnapshot st).databases.length +
        (buildOrganizationSnapshot st).organisms.length) w6 w7 w10 m hm
    have hb := mapLookup_idMapFrom_bounds _ _ _ _ _ hv
    show (natsFrom st.nextId _).contains ((mapLookup _ _).getD 0) = true
    rw [hv]
    exact natsFrom_contains _ _ _ hb.1 hb.2
  rw [rt_strains_rows, hfilter, sortBy_eq_reverse_of_pairwise_neg _ _ hneg]

/-- The fresh strain ids of the restored state. -/
theorem rt_strain_ids (st : OrgState) (acting : Nat) :
    (strainRowsFrom st.users acting
        (idMapFrom (fun d => d.id) st.nextId
          (buildOrganizationSnapshot st).databases)
        (idMapFrom (fun o => o.id)
          (st.nextId + (buildOrganizationSnapshot st).databases.length)
          (buildOrganizationSnapshot st).organisms)
        (idMapFrom (fun l => l.id)
          (st.nextId + (buildOrganizationSnapshot st).databases.length +
            (buildOrganizationSnapshot st).organisms.length)
          (buildOrganizationSnapshot st).locations)
        (st.nextId + (buildOrganizationSnapshot st).databases.length +
          (buildOrganizationSnapshot st).organisms.length +
          (buildOrganizationSnapshot st).locations.length +
          (buildOrganizationSnapshot st).plasmids.length)
        (st.clock + (buildOrganizationSnapshot st).databases.length +
          (buildOrganizationSnapshot st).database_memberships.length)
        (buildOrganizationSnapshot st).strains).map (fun r => r.id) =
      natsFrom (st.nextId + (buildOrganizationSnapshot st).databases.length +
        (buildOrganizationSnapshot st).organisms.length +
        (buildOrganizationSnapshot st).locations.length +
        (buildOrganizationSnapshot st).plasmids.length)
        (buildOrganizationSnapshot st).strains.length := by
  unfold strainRowsFrom
  refine rowsFromG_map_id _ _ ?_ _ _ _
  intro s n c
  rfl

/-- The restored strain-plasmid links all survive the export filter. -/
theorem rt_strain_plasmids (st : OrgState) (acting : Nat)
    (w6 : (st.organisms.all fun o =>
      (st.databases.map fun d => d.id).contains o.research_database_id) = true)
    (w7 : (st.locations.all fun l =>
      (st.databases.map fun d => d.id).contains l.research_database_id) = true)
    (w8 : (st.plasmids.all fun p =>
      (st.databases.map fun d => d.id).contains p.research_database_id) = true)
    (w10 : (st.strains.all fun s =>
      (st.databases.map fun d => d.id).contains s.research_database_id &&
      (st.organisms.map fun o => o.id).contains s.organism_id &&
      (st.locations.map fun l => l.id).contains s.location_id &&
      (st.users.any fun u => u.id == s.created_by_id) &&
      (match s.archived_by_id with
       | Option.none => true
       | some u => st.users.any fun w => w.id == u)) = true)
    (w11 : (st.strainPlasmids.all fun r =>
      (st.strains.map fun s => s.id).contains r.strain_id &&
      (st.plasmids.map fun p => p.id).contains r.plasmid_id) = true) :
    (buildOrganizationSnapshot (roundTripState st acting)).strain_plasmids =
      (strainPlasmidRowsFrom
        (idMapFrom (fun s => s.id)
        (st.nextId + (buildOrganizationSnapshot st).databases.length +
          (buildOrganizationSnapshot st).organisms.length +
          (buildOrganizationSnapshot st).locations.length +
          (buildOrganizationSnapshot st).plasmids.length)
        (buildOrganizationSnapshot st).strains)
        (idMapFrom (fun p => p.id)
        (st.nextId + (buildOrganizationSnapshot st).databases.length +
          (buildOrganizationSnapshot st).organisms.length +
          (buildOrganizationSnapshot st).locations.length)
        (buildOrganizationSnapshot st).plasmids)
        (buildOrganizationSnapshot st).strain_plasmids).map fun r =>
        ({ strain_id := r.strain_id, plasmid_id := r.plasmid_id } :
          DocStrainPlasmid) := by
  rw [build_strain_plasmids, rt_sorted_strain_rows st acting w6 w7 w10,
    rt_strainPlasmids_rows, List.map_reverse, rt_strain_ids]
  rw [List.filter_eq_self.mpr ?_]
  intro r hr
  rw [strainPlasmidRowsFrom, List.mem_map] at hr
  obtain ⟨x, hx, rfl⟩ := hr
  obtain ⟨⟨v, hv⟩, _⟩ := doc_sp_res st
    (st.nextId + (buildOrganizationSnapshot st).databases.length +
      (buildOrganizationSnapshot st).organisms.length +
      (buildOrganizationSnapshot st).locations.length +
      (buildOrganizationSnapshot st).plasmids.length)
    (st.nextId + (buildOrganizationSnapshot st).databases.length +
      (buildOrganizationSnapshot st).organisms.length +
      (buildOrganizationSnapshot st).locations.length) w8 w11 x hx
  have hb := mapLookup_idMapFrom_bounds _ _ _ _ _ hv
  show ((natsFrom _ _).reverse).contains ((mapLookup _ _).getD 0) = true
  rw [hv]
  refine List.elem_eq_true_of_mem ?_
  rw [List.mem_reverse]
  exact (mem_natsFrom _ _ _).mpr ⟨hb.1, hb.2⟩


/-- A fresh plasmid id resolves back to the old plasmid's name. -/
theorem plasmidNameOf_rt (st : OrgState) (acting : Nat) (k v : Nat)
    (h : mapLookup (idMapFrom (fun p => p.id)
        (st.nextId + (buildOrganizationSnapshot st).databases.length +
          (buildOrganizationSnapshot st).organisms.length +
          (buildOrganizationSnapshot st).locations.length)
        (buildOrganizationSnapshot st).plasmids) k = some v) :
    plasmidNameOf (buildOrganizationSnapshot (roundTripState st acting)) v =
      plasmidNameOf (buildOrganizationSnapshot st) k := by
  have hfp : ((plasmidRowsFrom
      (idMapFrom (fun d => d.id) st.nextId
        (buildOrganizationSnapshot st).databases)
      (st.nextId + (buildOrganizationSnapshot st).databases.length +
        (buildOrganizationSnapshot st).organisms.length +
        (buildOrganizationSnapshot st).locations.length)
      (buildOrganizationSnapshot st).plasmids).find? fun r => r.id == v).map
        (fun r : PlasmidRow => r.name) =
      ((buildOrganizationSnapshot st).plasmids.find? fun p => p.id == k).map
        (fun p : DocPlasmid => p.name) := by
    unfold plasmidRowsFrom
    refine rowsFromG_find_proj _ _ _ _ _ ?_ ?_ _ _ _ _ _ h
    · intro p n c
      rfl
    · intro p n c
      rfl
  rw [plasmidNameOf, plasmidNameOf, rt_plasmids st acting, list_find?_map,
    Option.map_map]
  show (((plasmidRowsFrom
      (idMapFrom (fun d => d.id) st.nextId
        (buildOrganizationSnapshot st).databases)
      (st.nextId + (buildOrganizationSnapshot st).databases.length +
        (buildOrganizationSnapshot st).organisms.length +
        (buildOrganizationSnapshot st).locations.length)
      (buildOrganizationSnapshot st).plasmids).find? fun r => r.id == v).map
        (fun r : PlasmidRow => r.name)).getD "" = _
  rw [hfp]

/-- A fresh strain id resolves back to the old strain's identifier, even
though the restored strains are listed in reverse order. -/
theorem strainKeyOf_rt (st : OrgState) (acting : Nat)
    (w6 : (st.organisms.all fun o =>
      (st.databases.map fun d => d.id).contains o.research_database_id) = true)
    (w7 : (st.locations.all fun l =>
      (st.databases.map fun d => d.id).contains l.research_database_id) = true)
    (w10 : (st.strains.all fun s =>
      (st.databases.map fun d => d.id).contains s.research_database_id &&
      (st.organisms.map fun o => o.id).contains s.organism_id &&
      (st.locations.map fun l => l.id).contains s.location_id &&
      (st.users.any fun u => u.id == s.created_by_id) &&
      (match s.archived_by_id with
       | Option.none => true
       | some u => st.users.any fun w => w.id == u)) = true)
    (k v : Nat)
    (h : mapLookup (idMapFrom (fun s => s.id)
        (st.nextId + (buildOrganizationSnapshot st).databases.length +
          (buildOrganizationSnapshot st).organisms.length +
          (buildOrganizationSnapshot st).locations.length +
          (buildOrganizationSnapshot st).plasmids.length)
        (buildOrganizationSnapshot st).strains) k = some v) :
    strainKeyOf (buildOrganizationSnapshot (roundTripState st acting)) v =
      strainKeyOf (buildOrganizationSnapshot st) k := by
  have hnodup : ((strainRowsFrom st.users acting
        (idMapFrom (fun d => d.id) st.nextId
          (buildOrganizationSnapshot st).databases)
        (idMapFrom (fun o => o.id)
          (st.nextId + (buildOrganizationSnapshot st).databases.length)
          (buildOrganizationSnapshot st).organisms)
        (idMapFrom (fun l => l.id)
          (st.nextId + (buildOrganizationSnapshot st).databases.length +
            (buildOrganizationSnapshot st).organisms.length)
          (buildOrganizationSnapshot st).locations)
        (st.nextId + (buildOrganizationSnapshot st).databases.length +
          (buildOrganizationSnapshot st).organisms.length +
          (buildOrganizationSnapshot st).locations.length +
          (buildOrganizationSnapshot st).plasmids.length)
        (st.clock + (buildOrganizationSnapshot st).databases.length +
          (buildOrganizationSnapshot st).database_memberships.length)
        (buildOrganizationSnapshot st).strains).map fun r => r.id).Nodup := by
    rw [rt_strain_ids]
    exact natsFrom_nodup _ _
  have hrev : ((strainRowsFrom st.users acting
        (idMapFrom (fun d => d.id) st.nextId
          (buildOrganizationSnapshot st).databases)
        (idMapFrom (fun o => o.id)
          (st.nextId + (buildOrganizationSnapshot st).databases.length)
          (buildOrganizationSnapshot st).organisms)
        (idMapFrom (fun l => l.id)
          (st.nextId + (buildOrganizationSnapshot st).databases.length +
            (buildOrganizationSnapshot st).organisms.length)
          (buildOrganizationSnapshot st).locations)
        (st.nextId + (buildOrganizationSnapshot st).databases.length +
          (buildOrganizationSnapshot st).organisms.length +
          (buildOrganizationSnapshot st).locations.length +
          (buildOrganizationSnapshot st).plasmids.length)
        (st.clock + (buildOrganizationSnapshot st).databases.length +
          (buildOrganizationSnapshot st).database_memberships.length)
        (buildOrganizationSnapshot st).strains).reverse).find? (fun r => r.id == v) =
      (strainRowsFrom st.users acting
        (idMapFrom (fun d => d.id) st.nextId
          (buildOrganizationSnapshot st).databases)
        (idMapFrom (fun o => o.id)
          (st.nextId + (buildOrganizationSnapshot st).databases.length)
          (buildOrganizationSnapshot st).organisms)
        (idMapFrom (fun l => l.id)
          (st.nextId + (buildOrganizationSnapshot st).databases.length +
            (buildOrganizationSnapshot st).organisms.length)
          (buildOrganizationSnapshot st).locations)
        (st.nextId + (buildOrganizationSnapshot st).databases.length +
          (buildOrganizationSnapshot st).organisms.length +
          (buildOrganizationSnapshot st).locations.length +
          (buildOrganizationSnapshot st).plasmids.length)
        (st.clock + (buildOrganizationSnapshot st).databases.length +
          (buildOrganizationSnapshot st).database_memberships.length)
        (buildOrganizationSnapshot st).strains).find? (fun r => r.id == v) := by
    refine list_find?_congr_unique _ _ _ (fun x => List.mem_reverse) ?_
    intro x hx y hy hqx hqy
    refine inj_of_nodup_map _ _ hnodup x (List.mem_reverse.mp hx) y
      (List.mem_reverse.mp hy) ?_
    have hx' : x.id = v := by simpa using hqx
    have hy' : y.id = v := by simpa using hqy
    rw [hx', hy']
  have hfp : ((strainRowsFrom st.users acting
        (idMapFrom (fun d => d.id) st.nextId
          (buildOrganizationSnapshot st).databases)
        (idMapFrom (fun o => o.id)
          (st.nextId + (buildOrganizationSnapshot st).databases.length)
          (buildOrganizationSnapshot st).organisms)
        (idMapFrom (fun l => l.id)
          (st.nextId + (buildOrganizationSnapshot st).databases.length +
            (buildOrganizationSnapshot st).organisms.length)
          (buildOrganizationSnapshot st).locations)
        (st.nextId + (buildOrganizationSnapshot st).databases.length +
          (buildOrganizationSnapshot st).organisms.length +
          (buildOrganizationSnapshot st).locations.length +
          (buildOrganizationSnapshot st).plasmids.length)
        (st.clock + (buildOrganizationSnapshot st).databases.length +
          (buildOrganizationSnapshot st).database_memberships.length)
        (buildOrganizationSnapshot st).strains).find? fun r => r.id == v).map
        (fun r : StrainRow => r.strain_id) =
      ((buildOrganizationSnapshot st).strains.find? fun s => s.id == k).map
        (fun s : DocStrain => s.strain_id) := by
    unfold strainRowsFrom
    refine rowsFromG_find_proj _ _ _ _ _ ?_ ?_ _ _ _ _ _ h
    · intro s n c
      rfl
    · intro s n c
      rfl
  rw [strainKeyOf, strainKeyOf, rt_strains st acting w6 w7 w10, list_find?_map,
    Option.map_map]
  show ((((strainRowsFrom st.users acting
        (idMapFrom (fun d => d.id) st.nextId
          (buildOrganizationSnapshot st).databases)
        (idMapFrom (fun o => o.id)
          (st.nextId + (buildOrganizationSnapshot st).databases.length)
          (buildOrganizationSnapshot st).organisms)
        (idMapFrom (fun l => l.id)
          (st.nextId + (buildOrganizationSnapshot st).databases.length +
            (buildOrganizationSnapshot st).organisms.length)
          (buildOrganizationSnapshot st).locations)
        (st.nextId + (buildOrganizationSnapshot st).databases.length +
          (buildOrganizationSnapshot st).organisms.length +
          (buildOrganizationSnapshot st).locations.length +
          (buildOrganizationSnapshot st).plasmids.length)
        (st.clock + (buildOrganizationSnapshot st).databases.length +
          (buildOrganizationSnapshot st).database_memberships.length)
        (buildOrganizationSnapshot st).strains).reverse).find? fun r => r.id == v).map
      (fun r : StrainRow => r.strain_id)).getD "" = _
  rw [hrev, hfp]

/-- Link content (strain identifier, plasmid name) survives the round
trip. -/
theorem rt_strain_plasmids_content (st : OrgState) (acting : Nat)
    (w6 : (st.organisms.all fun o =>
      (st.databases.map fun d => d.id).contains o.research_database_id) = true)
    (w7 : (st.locations.all fun l =>
      (st.databases.map fun d => d.id).contains l.research_database_id) = true)
    (w8 : (st.plasmids.all fun p =>
      (st.databases.map fun d => d.id).contains p.research_database_id) = true)
    (w10 : (st.strains.all fun s =>
      (st.databases.map fun d => d.id).contains s.research_database_id &&
      (st.organisms.map fun o => o.id).contains s.organism_id &&
      (st.locations.map fun l => l.id).contains s.location_id &&
      (st.users.any fun u => u.id == s.created_by_id) &&
      (match s.archived_by_id with
       | Option.none => true
       | some u => st.users.any fun w => w.id == u)) = true)
    (w11 : (st.strainPlasmids.all fun r =>
      (st.strains.map fun s => s.id).contains r.strain_id &&
      (st.plasmids.map fun p => p.id).contains r.plasmid_id) = true) :
    (buildOrganizationSnapshot (roundTripState st acting)).strain_plasmids.map
      (strainPlasmidContent (buildOrganizationSnapshot (roundTripState st acting))) =
    (buildOrganizationSnapshot st).strain_plasmids.map
      (strainPlasmidContent (buildOrganizationSnapshot st)) := by
  rw [rt_strain_plasmids st acting w6 w7 w8 w10 w11, List.map_map,
    strainPlasmidRowsFrom, List.map_map]
  refine List.map_congr_left ?_
  intro r hr
  obtain ⟨⟨v₁, hv₁⟩, ⟨v₂, hv₂⟩⟩ := doc_sp_res st
    (st.nextId + (buildOrganizationSnapshot st).databases.length +
      (buildOrganizationSnapshot st).organisms.length +
      (buildOrganizationSnapshot st).locations.length +
      (buildOrganizationSnapshot st).plasmids.length)
    (st.nextId + (buildOrganizationSnapshot st).databases.length +
      (buildOrganizationSnapshot st).organisms.length +
      (buildOrganizationSnapshot st).locations.length) w8 w11 r hr
  show (strainKeyOf (buildOrganizationSnapshot (roundTripState st acting))
      ((mapLookup (idMapFrom (fun s => s.id)
        (st.nextId + (buildOrganizationSnapshot st).databases.length +
          (buildOrganizationSnapshot st).organisms.length +
          (buildOrganizationSnapshot st).locations.length +
          (buildOrganizationSnapshot st).plasmids.length)
        (buildOrganizationSnapshot st).strains) r.strain_id).getD 0),
    plasmidNameOf (buildOrganizationSnapshot (roundTripState st acting))
      ((mapLookup (idMapFrom (fun p => p.id)
        (st.nextId + (buildOrganizationSnapshot st).databases.length +
          (buildOrganizationSnapshot st).organisms.length +
          (buildOrganizationSnapshot st).locations.length)
        (buildOrganizationSnapshot st).plasmids) r.plasmid_id).getD 0)) =
    strainPlasmidContent (buildOrganizationSnapshot st) r
  rw [hv₁, hv₂, Option.getD_some, Option.getD_some,
    strainKeyOf_rt st acting w6 w7 w10 _ _ hv₁,
    plasmidNameOf_rt st acting _ _ hv₂]
  rfl


/-- The sorted definition queryset of the restored state is the created
rows unchanged: every restored definition has `order` 0 and ascending ids. -/
theorem rt_sorted_field_rows (st : OrgState) (acting : Nat) :
    sortBy (fun a b =>
      decide (a.order < b.order) || (a.order == b.order && decide (a.id ≤ b.id)))
      ((roundTripState st acting).fieldDefs.filter fun f =>
        ((roundTripState st acting).databases.map fun d => d.id).contains
          f.research_database_id) =
      fieldDefRowsFrom st.users acting
        (idMapFrom (fun d => d.id) st.nextId
          (buildOrganizationSnapshot st).databases)
        (st.nextId + (buildOrganizationSnapshot st).databases.length +
          (buildOrganizationSnapshot st).organisms.length +
          (buildOrganizationSnapshot st).locations.length +
          (buildOrganizationSnapshot st).plasmids.length +
          (buildOrganizationSnapshot st).strains.length)
        (st.clock + (buildOrganizationSnapshot st).databases.length +
          (buildOrganizationSnapshot st).database_memberships.length +
          (buildOrganizationSnapshot st).strains.length)
        (buildOrganizationSnapshot st).custom_fields := by
  have hfilter : ((fieldDefRowsFrom st.users acting
        (idMapFrom (fun d => d.id) st.nextId
          (buildOrganizationSnapshot st).databases)
        (st.nextId + (buildOrganizationSnapshot st).databases.length +
          (buildOrganizationSnapshot st).organisms.length +
          (buildOrganizationSnapshot st).locations.length +
          (buildOrganizationSnapshot st).plasmids.length +
          (buildOrganizationSnapshot st).strains.length)
        (st.clock + (buildOrganizationSnapshot st).databases.length +
          (buildOrganizationSnapshot st).database_memberships.length +
          (buildOrganizationSnapshot st).strains.length)
        (buildOrganizationSnapshot st).custom_fields).filter fun f =>
      ((roundTripState st acting).databases.map fun d => d.id).contains
        f.research_database_id) = (fieldDefRowsFrom st.users acting
        (idMapFrom (fun d => d.id) st.nextId
          (buildOrganizationSnapshot st).databases)
        (st.nextId + (buildOrganizationSnapshot st).databases.length +
          (buildOrganizationSnapshot st).organisms.length +
          (buildOrganizationSnapshot st).locations.length +
          (buildOrganizationSnapshot st).plasmids.length +
          (buildOrganizationSnapshot st).strains.length)
        (st.clock + (buildOrganizationSnapshot st).databases.length +
          (buildOrganizationSnapshot st).database_memberships.length +
          (buildOrganizationSnapshot st).strains.length)
        (buildOrganizationSnapshot st).custom_fields) := by
    rw [rt_dbIds]
    refine List.filter_eq_self.mpr ?_
    intro r hr
    obtain ⟨m, hm, n, c, rfl⟩ := mem_rowsFromG _ _ _ _ r hr
    obtain ⟨v, hv⟩ := doc_field_res st st.nextId m hm
    have hb := mapLookup_idMapFrom_bounds _ _ _ _ _ hv
    show (natsFrom st.nextId _).contains ((mapLookup _ _).getD 0) = true
    rw [hv]
    exact natsFrom_contains _ _ _ hb.1 hb.2
  have hchain : List.Chain' (fun a b : FieldDefRow =>
      (decide (a.order < b.order) ||
        (a.order == b.order && decide (a.id ≤ b.id))) = true)
      (fieldDefRowsFrom st.users acting
        (idMapFrom (fun d => d.id) st.nextId
          (buildOrganizationSnapshot st).databases)
        (st.nextId + (buildOrganizationSnapshot st).databases.length +
          (buildOrganizationSnapshot st).organisms.length +
          (buildOrganizationSnapshot st).locations.length +
          (buildOrganizationSnapshot st).plasmids.length +
          (buildOrganizationSnapshot st).strains.length)
        (st.clock + (buildOrganizationSnapshot st).databases.length +
          (buildOrganizationSnapshot st).database_memberships.length +
          (buildOrganizationSnapshot st).strains.length)
        (buildOrganizationSnapshot st).custom_fields) := by
    unfold fieldDefRowsFrom
    refine rowsFromG_chain_le _ _ ?_ _ _ _
    intro f g n₁ c₁ n₂ c₂ hn
    show (decide ((0 : Nat) < 0) ||
      ((0 : Nat) == 0 && decide (n₁ ≤ n₂))) = true
    simp [hn]
  rw [rt_fieldDefs_rows, hfilter, sortBy_eq_self_of_chain _ _ hchain]

/-- The restored definitions section. -/
theorem rt_custom_fields (st : OrgState) (acting : Nat) :
    (buildOrganizationSnapshot (roundTripState st acting)).custom_fields =
      (fieldDefRowsFrom st.users acting
        (idMapFrom (fun d => d.id) st.nextId
          (buildOrganizationSnapshot st).databases)
        (st.nextId + (buildOrganizationSnapshot st).databases.length +
          (buildOrganizationSnapshot st).organisms.length +
          (buildOrganizationSnapshot st).locations.length +
          (buildOrganizationSnapshot st).plasmids.length +
          (buildOrganizationSnapshot st).strains.length)
        (st.clock + (buildOrganizationSnapshot st).databases.length +
          (buildOrganizationSnapshot st).database_memberships.length +
          (buildOrganizationSnapshot st).strains.length)
        (buildOrganizationSnapshot st).custom_fields).map fun f =>
        ({ id := f.id, research_database_id := f.research_database_id,
           name := f.name, field_type := f.field_type, choices := f.choices,
           created_by_id := f.created_by_id,
           created_at := f.created_at } : DocField) := by
  rw [build_custom_fields, rt_sorted_field_rows st acting]

/-- A fresh definition id resolves back to the old definition's name. -/
theorem fieldNameOf_rt (st : OrgState) (acting : Nat) (k v : Nat)
    (h : mapLookup (idMapFrom (fun f => f.id)
      (st.nextId + (buildOrganizationSnapshot st).databases.length +
        (buildOrganizationSnapshot st).organisms.length +
        (buildOrganizationSnapshot st).locations.length +
        (buildOrganizationSnapshot st).plasmids.length +
        (buildOrganizationSnapshot st).strains.length)
      (buildOrganizationSnapshot st).custom_fields) k = some v) :
    fieldNameOf (buildOrganizationSnapshot (roundTripState st acting)) v =
      fieldNameOf (buildOrganizationSnapshot st) k := by
  have hfp : ((fieldDefRowsFrom st.users acting
        (idMapFrom (fun d => d.id) st.nextId
          (buildOrganizationSnapshot st).databases)
        (st.nextId + (buildOrganizationSnapshot st).databases.length +
          (buildOrganizationSnapshot st).organisms.length +
          (buildOrganizationSnapshot st).locations.length +
          (buildOrganizationSnapshot st).plasmids.length +
          (buildOrganizationSnapshot st).strains.length)
        (st.clock + (buildOrganizationSnapshot st).databases.length +
          (buildOrganizationSnapshot st).database_memberships.length +
          (buildOrganizationSnapshot st).strains.length)
        (buildOrganizationSnapshot st).custom_fields).find? fun r => r.id == v).map
        (fun r : FieldDefRow => r.name) =
      ((buildOrganizationSnapshot st).custom_fields.find? fun f => f.id == k).map
        (fun f : DocField => f.name) := by
    unfold fieldDefRowsFrom
    refine rowsFromG_find_proj _ _ _ _ _ ?_ ?_ _ _ _ _ _ h
    · intro f n c
      rfl
    · intro f n c
      rfl
  rw [fieldNameOf, fieldNameOf, rt_custom_fields st acting, list_find?_map,
    Option.map_map]
  show (((fieldDefRowsFrom st.users acting
        (idMapFrom (fun d => d.id) st.nextId
          (buildOrganizationSnapshot st).databases)
        (st.nextId + (buildOrganizationSnapshot st).databases.length +
          (buildOrganizationSnapshot st).organisms.length +
          (buildOrganizationSnapshot st).locations.length +
          (buildOrganizationSnapshot st).plasmids.length +
          (buildOrganizationSnapshot st).strains.length)
        (st.clock + (buildOrganizationSnapshot st).databases.length +
          (buildOrganizationSnapshot st).database_memberships.length +
          (buildOrganizationSnapshot st).strains.length)
        (buildOrganizationSnapshot st).custom_fields).find? fun r => r.id == v).map
      (fun r : FieldDefRow => r.name)).getD "" = _
  rw [hfp]

/-- Every exported definition's creator exists among the organization's
users. -/
theorem doc_field_creator (st : OrgState)
    (w13 : (st.fieldDefs.all fun f =>
      (st.databases.map fun d => d.id).contains f.research_database_id &&
      (st.users.any fun u => u.id == f.created_by_id)) = true) :
    ∀ f ∈ (buildOrganizationSnapshot st).custom_fields,
      ∃ u ∈ st.users, u.id = f.created_by_id := by
  intro f hf
  rw [build_custom_fields, List.mem_map] at hf
  obtain ⟨r, hr, rfl⟩ := hf
  have hrmem := (List.mem_filter.mp ((mem_sortBy _ _ _).mp hr)).1
  have hw := (List.all_eq_true.mp w13) r hrmem
  simp only [Bool.and_eq_true] at hw
  obtain ⟨u, hu, huid⟩ := List.any_eq_true.mp hw.2
  exact ⟨u, hu, by simpa using huid⟩

/-- Definition content (database name, name, type, choices, creator)
survives the round trip. -/
theorem rt_custom_fields_content (st : OrgState) (acting : Nat)
    (w13 : (st.fieldDefs.all fun f =>
      (st.databases.map fun d => d.id).contains f.research_database_id &&
      (st.users.any fun u => u.id == f.created_by_id)) = true) :
    (buildOrganizationSnapshot (roundTripState st acting)).custom_fields.map
      (fieldContent (buildOrganizationSnapshot (roundTripState st acting))) =
    (buildOrganizationSnapshot st).custom_fields.map
      (fieldContent (buildOrganizationSnapshot st)) := by
  rw [rt_custom_fields st acting, List.map_map]
  unfold fieldDefRowsFrom
  refine rowsFromG_map_mem _ _ _ _ _ _ ?_
  intro f hf n c
  obtain ⟨v, hv⟩ := doc_field_res st st.nextId f hf
  obtain ⟨u, hu, huid⟩ := doc_field_creator st w13 f hf
  show (dbNameOf (buildOrganizationSnapshot (roundTripState st acting))
      ((mapLookup (idMapFrom (fun d => d.id) st.nextId
        (buildOrganizationSnapshot st).databases) f.research_database_id).getD 0),
    f.name, f.field_type, f.choices,
    (resolveUser st.users (some f.created_by_id) Option.none Option.none
      (some acting)).getD acting) =
    fieldContent (buildOrganizationSnapshot st) f
  rw [hv, Option.getD_some, dbNameOf_rt st acting _ _ hv,
    resolveUser_by_id st.users f.created_by_id _ _ _ ⟨u, hu, huid⟩]
  rfl


theorem rt_field_ids (st : OrgState) (acting : Nat) :
    (fieldDefRowsFrom st.users acting
        (idMapFrom (fun d => d.id) st.nextId
          (buildOrganizationSnapshot st).databases)
        (st.nextId + (buildOrganizationSnapshot st).databases.length +
          (buildOrganizationSnapshot st).organisms.length +
          (buildOrganizationSnapshot st).locations.length +
          (buildOrganizationSnapshot st).plasmids.length +
          (buildOrganizationSnapshot st).strains.length)
        (st.clock + (buildOrganizationSnapshot st).databases.length +
          (buildOrganizationSnapshot st).database_memberships.length +
          (buildOrganizationSnapshot st).strains.length)
        (buildOrganizationSnapshot st).custom_fields).map (fun r => r.id) =
      natsFrom (st.nextId + (buildOrganizationSnapshot st).databases.length +
        (buildOrganizationSnapshot st).organisms.length +
        (buildOrganizationSnapshot st).locations.length +
        (buildOrganizationSnapshot st).plasmids.length +
        (buildOrganizationSnapshot st).strains.length)
        (buildOrganizationSnapshot st).custom_fields.length := by
  unfold fieldDefRowsFrom
  refine rowsFromG_map_id _ _ ?_ _ _ _
  intro f n c
  rfl

/-- The restored values all survive the export filter. -/
theorem rt_field_values (st : OrgState) (acting : Nat)
    (w6 : (st.organisms.all fun o =>
      (st.databases.map fun d => d.id).contains o.research_database_id) = true)
    (w7 : (st.locations.all fun l =>
      (st.databases.map fun d => d.id).contains l.research_database_id) = true)
    (w10 : (st.strains.all fun s =>
      (st.databases.map fun d => d.id).contains s.research_database_id &&
      (st.organisms.map fun o => o.id).contains s.organism_id &&
      (st.locations.map fun l => l.id).contains s.location_id &&
      (st.users.any fun u => u.id == s.created_by_id) &&
      (match s.archived_by_id with
       | Option.none => true
       | some u => st.users.any fun w => w.id == u)) = true) :
    (buildOrganizationSnapshot (roundTripState st acting)).field_values =
      (fieldValueRowsFrom
        (idMapFrom (fun s => s.id)
        (st.nextId + (buildOrganizationSnapshot st).databases.length +
          (buildOrganizationSnapshot st).organisms.length +
          (buildOrganizationSnapshot st).locations.length +
          (buildOrganizationSnapshot st).plasmids.length)
        (buildOrganizationSnapshot st).strains)
        (idMapFrom (fun f => f.id)
        (st.nextId + (buildOrganizationSnapshot st).databases.length +
          (buildOrganizationSnapshot st).organisms.length +
          (buildOrganizationSnapshot st).locations.length +
          (buildOrganizationSnapshot st).plasmids.length +
          (buildOrganizationSnapshot st).strains.length)
        (buildOrganizationSnapshot st).custom_fields)
        (buildOrganizationSnapshot st).field_values).map fun v =>
        ({ strain_id := v.strain_id,
           field_definition_id := v.field_definition_id,
           value_text := v.value_text, value_number := v.value_number,
           value_date := v.value_date, value_boolean := v.value_boolean,
           value_choice := v.value_choice } : DocFieldValue) := by
  rw [build_field_values, rt_sorted_strain_rows st acting w6 w7 w10,
    rt_sorted_field_rows st acting, rt_fieldValues_rows, List.map_reverse,
    rt_strain_ids, rt_field_ids]
  rw [List.filter_eq_self.mpr ?_]
  intro r hr
  rw [fieldValueRowsFrom, List.mem_map] at hr
  obtain ⟨x, hx, rfl⟩ := hr
  obtain ⟨⟨v₁, hv₁⟩, ⟨v₂, hv₂⟩⟩ := doc_fv_res st
    (st.nextId + (buildOrganizationSnapshot st).databases.length +
      (buildOrganizationSnapshot st).organisms.length +
      (buildOrganizationSnapshot st).locations.length +
      (buildOrganizationSnapshot st).plasmids.length)
    (st.nextId + (buildOrganizationSnapshot st).databases.length +
      (buildOrganizationSnapshot st).organisms.length +
      (buildOrganizationSnapshot st).locations.length +
      (buildOrganizationSnapshot st).plasmids.length +
      (buildOrganizationSnapshot st).strains.length) x hx
  have hb₁ := mapLookup_idMapFrom_bounds _ _ _ _ _ hv₁
  have hb₂ := mapLookup_idMapFrom_bounds _ _ _ _ _ hv₂
  show (((natsFrom _ _).reverse).contains ((mapLookup _ _).getD 0) &&
    (natsFrom _ _).contains ((mapLookup _ _).getD 0)) = true
  rw [hv₁, hv₂]
  simp only [Bool.and_eq_true]
  constructor
  · refine List.elem_eq_true_of_mem ?_
    rw [List.mem_reverse]
    exact (mem_natsFrom _ _ _).mpr ⟨hb₁.1, hb₁.2⟩
  · exact natsFrom_contains _ _ _ hb₂.1 hb₂.2

/-- Value content: the (strain, definition) reference by content plus the
five legacy columns survive the round trip. -/
theorem rt_field_values_content (st : OrgState) (acting : Nat)
    (w6 : (st.organisms.all fun o =>
      (st.databases.map fun d => d.id).contains o.research_database_id) = true)
    (w7 : (st.locations.all fun l =>
      (st.databases.map fun d => d.id).contains l.research_database_id) = true)
    (w10 : (st.strains.all fun s =>
      (st.databases.map fun d => d.id).contains s.research_database_id &&
      (st.organisms.map fun o => o.id).contains s.organism_id &&
      (st.locations.map fun l => l.id).contains s.location_id &&
      (st.users.any fun u => u.id == s.created_by_id) &&
      (match s.archived_by_id with
       | Option.none => true
       | some u => st.users.any fun w => w.id == u)) = true) :
    (buildOrganizationSnapshot (roundTripState st acting)).field_values.map
      (fieldValueContent (buildOrganizationSnapshot (roundTripState st acting))) =
    (buildOrganizationSnapshot st).field_values.map
      (fieldValueContent (buildOrganizationSnapshot st)) := by
  rw [rt_field_values st acting w6 w7 w10, List.map_map,
    fieldValueRowsFrom, List.map_map]
  refine List.map_congr_left ?_
  intro x hx
  obtain ⟨⟨v₁, hv₁⟩, ⟨v₂, hv₂⟩⟩ := doc_fv_res st
    (st.nextId + (buildOrganizationSnapshot st).databases.length +
      (buildOrganizationSnapshot st).organisms.length +
      (buildOrganizationSnapshot st).locations.length +
      (buildOrganizationSnapshot st).plasmids.length)
    (st.nextId + (buildOrganizationSnapshot st).databases.length +
      (buildOrganizationSnapshot st).organisms.length +
      (buildOrganizationSnapshot st).locations.length +
      (buildOrganizationSnapshot st).plasmids.length +
      (buildOrganizationSnapshot st).strains.length) x hx
  show (strainKeyOf (buildOrganizationSnapshot (roundTripState st acting))
      ((mapLookup (idMapFrom (fun s => s.id)
        (st.nextId + (buildOrganizationSnapshot st).databases.length +
          (buildOrganizationSnapshot st).organisms.length +
          (buildOrganizationSnapshot st).locations.length +
          (buildOrganizationSnapshot st).plasmids.length)
        (buildOrganizationSnapshot st).strains) x.strain_id).getD 0),
    fieldNameOf (buildOrganizationSnapshot (roundTripState st acting))
      ((mapLookup (idMapFrom (fun f => f.id)
        (st.nextId + (buildOrganizationSnapshot st).databases.length +
          (buildOrganizationSnapshot st).organisms.length +
          (buildOrganizationSnapshot st).locations.length +
          (buildOrganizationSnapshot st).plasmids.length +
          (buildOrganizationSnapshot st).strains.length)
        (buildOrganizationSnapshot st).custom_fields) x.field_definition_id).getD 0),
    x.value_text, x.value_number, x.value_date, x.value_boolean,
    x.value_choice) =
    fieldValueContent (buildOrganizationSnapshot st) x
  rw [hv₁, hv₂, Option.getD_some, Option.getD_some,
    strainKeyOf_rt st acting w6 w7 w10 _ _ hv₁,
    fieldNameOf_rt st acting _ _ hv₂]
  rfl

/-- After the round trip every stored value row carries data only in the
five legacy columns: every other typed column is at its model default. -/
theorem rt_values_only_legacy (st : OrgState) (acting : Nat) :
    ∀ v ∈ (roundTripState st acting).fieldValues,
      v.value_long_text = Option.none ∧ v.value_integer = Option.none ∧
      v.value_decimal = Option.none ∧ v.value_single_select = Option.none ∧
      v.value_multi_select = [] ∧ v.value_fk_content_type = Option.none ∧
      v.value_fk_object_id = Option.none ∧ v.value_file = Option.none ∧
      v.value_url = Option.none ∧ v.value_email = Option.none := by
  intro v hv
  rw [rt_fieldValues_rows, fieldValueRowsFrom, List.mem_map] at hv
  obtain ⟨x, _, rfl⟩ := hv
  exact ⟨rfl, rfl, rfl, rfl, rfl, rfl, rfl, rfl, rfl, rfl⟩


theorem rt_auditLogs_rows (st : OrgState) (acting : Nat) :
    (roundTripState st acting).auditLogs =
      ((st.auditLogs.filter fun a =>
        (match a.database_id with
         | some d => !(st.databases.map fun d => d.id).contains d
         | Option.none => true)) ++
        (auditRowsFrom st.users
        (idMapFrom (fun d => d.id) st.nextId
        (buildOrganizationSnapshot st).databases)
        (st.clock + (buildOrganizationSnapshot st).databases.length +
          (buildOrganizationSnapshot st).database_memberships.length +
          (buildOrganizationSnapshot st).strains.length +
          (buildOrganizationSnapshot st).custom_fields.length)
        (buildOrganizationSnapshot st).audit_logs)) ++
      [({
         database_id := Option.none, user_id := some acting,
         action := "organization_snapshot_restore",
         object_type := "Organization",
         object_id := some (st.org.id : Int),
         metadata := [("organization_uuid", st.org.uuid),
                      ("restored_at", toString
                        (st.clock +
                          (buildOrganizationSnapshot st).databases.length +
                          (buildOrganizationSnapshot st).database_memberships.length +
                          (buildOrganizationSnapshot st).strains.length +
                          (buildOrganizationSnapshot st).custom_fields.length +
                          (buildOrganizationSnapshot st).audit_logs.length)),
                      ("version", (buildOrganizationSnapshot st).version)],
         timestamp := st.clock +
           (buildOrganizationSnapshot st).databases.length +
           (buildOrganizationSnapshot st).database_memberships.length +
           (buildOrganizationSnapshot st).strains.length +
           (buildOrganizationSnapshot st).custom_fields.length +
           (buildOrganizationSnapshot st).audit_logs.length } : AuditRow)] := rfl

/-- Each exported audit entry references an exported database. -/
theorem doc_audit_res (st : OrgState) (base : Nat) :
    ∀ a ∈ (buildOrganizationSnapshot st).audit_logs,
      ∃ v, mapLookup (idMapFrom (fun d => d.id) base
        (buildOrganizationSnapshot st).databases) a.database_id = some v := by
  intro a ha
  rw [build_audit_logs, List.mem_map] at ha
  obtain ⟨r, hr, rfl⟩ := ha
  have hcond := (List.mem_filter.mp ((mem_sortBy _ _ _).mp hr)).2
  cases hdb : r.database_id with
  | none => rw [hdb] at hcond; simp at hcond
  | some d =>
      rw [hdb] at hcond
      show ∃ v, mapLookup (idMapFrom (fun d => d.id) base
        (buildOrganizationSnapshot st).databases) ((some d).getD 0) = some v
      exact docdb_key st base d (by simpa using hcond)

/-- Each exported audit entry's user resolves to itself (or stays null). -/
theorem doc_audit_user (st : OrgState)
    (w16 : (st.auditLogs.all fun a =>
      (match a.database_id with
       | Option.none => true
       | some d => (st.databases.map fun x => x.id).contains d) &&
      (match a.user_id with
       | Option.none => true
       | some u => st.users.any fun w => w.id == u)) = true) :
    ∀ a ∈ (buildOrganizationSnapshot st).audit_logs,
      resolveUser st.users a.user_id Option.none Option.none Option.none =
        a.user_id := by
  intro a ha
  rw [build_audit_logs, List.mem_map] at ha
  obtain ⟨r, hr, rfl⟩ := ha
  have hrmem := (List.mem_filter.mp ((mem_sortBy _ _ _).mp hr)).1
  have hw := (List.all_eq_true.mp w16) r hrmem
  simp only [Bool.and_eq_true] at hw
  show resolveUser st.users r.user_id Option.none Option.none Option.none =
    r.user_id
  cases huid : r.user_id with
  | none => exact resolveUser_none st.users
  | some u =>
      rw [huid] at hw
      obtain ⟨w, hwmem, hwid⟩ := List.any_eq_true.mp hw.2
      exact resolveUser_by_id st.users u _ _ _ ⟨w, hwmem, by simpa using hwid⟩

/-- The restored audit log section: the preserved out-of-scope logs and the
synthetic restore entry are filtered out (no database), and the replayed
entries come back in reverse order under the fresh timestamps. -/
theorem rt_audit_logs (st : OrgState) (acting : Nat)
    (w16 : (st.auditLogs.all fun a =>
      (match a.database_id with
       | Option.none => true
       | some d => (st.databases.map fun x => x.id).contains d) &&
      (match a.user_id with
       | Option.none => true
       | some u => st.users.any fun w => w.id == u)) = true) :
    (buildOrganizationSnapshot (roundTripState st acting)).audit_logs =
      ((auditRowsFrom st.users
        (idMapFrom (fun d => d.id) st.nextId
        (buildOrganizationSnapshot st).databases)
        (st.clock + (buildOrganizationSnapshot st).databases.length +
          (buildOrganizationSnapshot st).database_memberships.length +
          (buildOrganizationSnapshot st).strains.length +
          (buildOrganizationSnapshot st).custom_fields.length)
        (buildOrganizationSnapshot st).audit_logs).reverse).map fun a =>
        ({ database_id := a.database_id.getD 0, user_id := a.user_id,
           action := a.action, object_type := a.object_type,
           object_id := a.object_id, metadata := a.metadata,
           timestamp := a.timestamp } : DocAudit) := by
  have hts : (auditRowsFrom st.users
        (idMapFrom (fun d => d.id) st.nextId
        (buildOrganizationSnapshot st).databases)
        (st.clock + (buildOrganizationSnapshot st).databases.length +
          (buildOrganizationSnapshot st).database_memberships.length +
          (buildOrganizationSnapshot st).strains.length +
          (buildOrganizationSnapshot st).custom_fields.length)
        (buildOrganizationSnapshot st).audit_logs).map (fun r => r.timestamp) =
      natsFrom (st.clock + (buildOrganizationSnapshot st).databases.length +
          (buildOrganizationSnapshot st).database_memberships.length +
          (buildOrganizationSnapshot st).strains.length +
          (buildOrganizationSnapshot st).custom_fields.length)
        (buildOrganizationSnapshot st).audit_logs.length := by
    unfold auditRowsFrom
    refine rowsFromG_map_ts _ _ ?_ _ _ _
    intro a n c
    rfl
  have hneg : List.Pairwise (fun a b : AuditRow =>
      (decide (b.timestamp ≤ a.timestamp)) = false)
      (auditRowsFrom st.users
        (idMapFrom (fun d => d.id) st.nextId
        (buildOrganizationSnapshot st).databases)
        (st.clock + (buildOrganizationSnapshot st).databases.length +
          (buildOrganizationSnapshot st).database_memberships.length +
          (buildOrganizationSnapshot st).strains.length +
          (buildOrganizationSnapshot st).custom_fields.length)
        (buildOrganizationSnapshot st).audit_logs) := by
    have hlt := natsFrom_pairwise_lt
      (buildOrganizationSnapshot st).audit_logs.length (st.clock + (buildOrganizationSnapshot st).databases.length +
          (buildOrganizationSnapshot st).database_memberships.length +
          (buildOrganizationSnapshot st).strains.length +
          (buildOrganizationSnapshot st).custom_fields.length)
    rw [← hts] at hlt
    refine (List.pairwise_map.mp hlt).imp ?_
    intro a b hab
    simp only [decide_eq_false_iff_not]
    omega
  rw [build_audit_logs, rt_auditLogs_rows, rt_dbIds, List.filter_append,
    List.filter_append]
  have h1 : ((st.auditLogs.filter fun a =>
        (match a.database_id with
         | some d => !(st.databases.map fun d => d.id).contains d
         | Option.none => true)) :
      List AuditRow).filter (fun a =>
        match a.database_id with
        | some d => (natsFrom st.nextId
            (buildOrganizationSnapshot st).databases.length).contains d
        | Option.none => false) = [] := by
    refine List.filter_eq_nil.mpr ?_
    intro a ha
    have hamem := (List.mem_filter.mp ha).1
    have hacond := (List.mem_filter.mp ha).2
    have hw := (List.all_eq_true.mp w16) a hamem
    simp only [Bool.and_eq_true] at hw
    cases hdb : a.database_id with
    | none => simp [hdb]
    | some d =>
        have hc : (st.databases.map fun x => x.id).contains d = true := by
          have h := hw.1
          rw [hdb] at h
          simpa using h
        rw [hdb] at hacond
        simp at hacond
        have hd : d ∈ st.databases.map fun x => x.id :=
          List.mem_of_elem_eq_true hc
        rw [List.mem_map] at hd
        obtain ⟨x, hx, hxid⟩ := hd
        exact absurd hxid (hacond x hx)
  have h2 : ((auditRowsFrom st.users
        (idMapFrom (fun d => d.id) st.nextId
        (buildOrganizationSnapshot st).databases)
        (st.clock + (buildOrganizationSnapshot st).databases.length +
          (buildOrganizationSnapshot st).database_memberships.length +
          (buildOrganizationSnapshot st).strains.length +
          (buildOrganizationSnapshot st).custom_fields.length)
        (buildOrganizationSnapshot st).audit_logs) :
      List AuditRow).filter (fun a =>
        match a.database_id with
        | some d => (natsFrom st.nextId
            (buildOrganizationSnapshot st).databases.length).contains d
        | Option.none => false) = (auditRowsFrom st.users
        (idMapFrom (fun d => d.id) st.nextId
        (buildOrganizationSnapshot st).databases)
        (st.clock + (buildOrganizationSnapshot st).databases.length +
          (buildOrganizationSnapshot st).database_memberships.length +
          (buildOrganizationSnapshot st).strains.length +
          (buildOrganizationSnapshot st).custom_fields.length)
        (buildOrganizationSnapshot st).audit_logs) := by
    refine List.filter_eq_self.mpr ?_
    intro r hr
    have hr' : r ∈ rowsFromG _ _ _ (buildOrganizationSnapshot st).audit_logs := hr
    obtain ⟨a, ha, n, c, rfl⟩ := mem_rowsFromG _ _ _ _ r hr'
    obtain ⟨v, hv⟩ := doc_audit_res st st.nextId a ha
    have hb := mapLookup_idMapFrom_bounds _ _ _ _ _ hv
    show (match mapLookup _ a.database_id with
      | some d => (natsFrom st.nextId
          (buildOrganizationSnapshot st).databases.length).contains d
      | Option.none => false) = true
    rw [hv]
    exact natsFrom_contains _ _ _ hb.1 hb.2
  have h3 : ([({
         database_id := Option.none, user_id := some acting,
         action := "organization_snapshot_restore",
         object_type := "Organization",
         object_id := some (st.org.id : Int),
         metadata := [("organization_uuid", st.org.uuid),
                      ("restored_at", toString
                        (st.clock +
                          (buildOrganizationSnapshot st).databases.length +
                          (buildOrganizationSnapshot st).database_memberships.length +
                          (buildOrganizationSnapshot st).strains.length +
                          (buildOrganizationSnapshot st).custom_fields.length +
                          (buildOrganizationSnapshot st).audit_logs.length)),
                      ("version", (buildOrganizationSnapshot st).version)],
         timestamp := st.clock +
           (buildOrganizationSnapshot st).databases.length +
           (buildOrganizationSnapshot st).database_memberships.length +
           (buildOrganizationSnapshot st).strains.length +
           (buildOrganizationSnapshot st).custom_fields.length +
           (buildOrganizationSnapshot st).audit_logs.length } : AuditRow)]).filter (fun a =>
        match a.database_id with
        | some d => (natsFrom st.nextId
            (buildOrganizationSnapshot st).databases.length).contains d
        | Option.none => false) = [] := rfl
  rw [h1, h2, h3, List.nil_append, List.append_nil,
    sortBy_eq_reverse_of_pairwise_neg _ _ hneg]

/-- Audit content (database name, user, action, object, metadata) survives
the round trip with the array reversed. -/
theorem rt_audit_logs_content (st : OrgState) (acting : Nat)
    (w16 : (st.auditLogs.all fun a =>
      (match a.database_id with
       | Option.none => true
       | some d => (st.databases.map fun x => x.id).contains d) &&
      (match a.user_id with
       | Option.none => true
       | some u => st.users.any fun w => w.id == u)) = true) :
    (buildOrganizationSnapshot (roundTripState st acting)).audit_logs.map
      (auditContent (buildOrganizationSnapshot (roundTripState st acting))) =
    ((buildOrganizationSnapshot st).audit_logs.map
      (auditContent (buildOrganizationSnapshot st))).reverse := by
  have hmain : (auditRowsFrom st.users
        (idMapFrom (fun d => d.id) st.nextId
        (buildOrganizationSnapshot st).databases)
        (st.clock + (buildOrganizationSnapshot st).databases.length +
          (buildOrganizationSnapshot st).database_memberships.length +
          (buildOrganizationSnapshot st).strains.length +
          (buildOrganizationSnapshot st).custom_fields.length)
        (buildOrganizationSnapshot st).audit_logs).map
      (fun r : AuditRow =>
        auditContent (buildOrganizationSnapshot (roundTripState st acting))
          { database_id := r.database_id.getD 0, user_id := r.user_id,
             action := r.action, object_type := r.object_type,
             object_id := r.object_id, metadata := r.metadata,
             timestamp := r.timestamp }) =
      (buildOrganizationSnapshot st).audit_logs.map
        (auditContent (buildOrganizationSnapshot st)) := by
    unfold auditRowsFrom
    refine rowsFromG_map_mem _ _ _ _ _ _ ?_
    intro a ha n c
    obtain ⟨v, hv⟩ := doc_audit_res st st.nextId a ha
    have huser := doc_audit_user st w16 a ha
    show (dbNameOf (buildOrganizationSnapshot (roundTripState st acting))
        ((mapLookup (idMapFrom (fun d => d.id) st.nextId
        (buildOrganizationSnapshot st).databases) a.database_id).getD 0),
      resolveUser st.users a.user_id Option.none Option.none Option.none,
      a.action, a.object_type, a.object_id, a.metadata) =
      auditContent (buildOrganizationSnapshot st) a
    rw [hv, Option.getD_some, dbNameOf_rt st acting _ _ hv, huser]
    rfl
  rw [rt_audit_logs st acting w16, List.map_reverse, List.map_reverse,
    List.map_map]
  show ((auditRowsFrom st.users
        (idMapFrom (fun d => d.id) st.nextId
        (buildOrganizationSnapshot st).databases)
        (st.clock + (buildOrganizationSnapshot st).databases.length +
          (buildOrganizationSnapshot st).database_memberships.length +
          (buildOrganizationSnapshot st).strains.length +
          (buildOrganizationSnapshot st).custom_fields.length)
        (buildOrganizationSnapshot st).audit_logs).map
      (fun r : AuditRow =>
        auditContent (buildOrganizationSnapshot (roundTripState st acting))
          { database_id := r.database_id.getD 0, user_id := r.user_id,
             action := r.action, object_type := r.object_type,
             object_id := r.object_id, metadata := r.metadata,
             timestamp := r.timestamp })).reverse = _
  rw [hmain]


/-- C5 (amended): restoring a well-formed organization's own export
succeeds and reproduces every section's content — organization block and
member list verbatim, every other section equal up to the reassigned
surrogate ids and timestamps, with each foreign key compared through the
referenced row's own content (database name, organism name, location tuple,
plasmid name, strain identifier, field name).  The deviations from a
verbatim reproduction are exactly: the `strains` and `audit_logs` arrays
come back reversed (restore reassigns ascending `auto_now` stamps in
document order and export orders both sections descending), and in the
restored rows only the five legacy value columns can carry data — every
other typed column of every restored custom value is NULL, so a LONG_TEXT,
INTEGER, DECIMAL, SINGLE/MULTI_SELECT, URL, EMAIL, FILE or FOREIGN_KEY
value does not survive (`c5_counterexample` exhibits both failures), which
refutes the claim's "identical except for ids/timestamps" reading. -/
theorem c5_round_trip_preserves_content (st : OrgState) (acting : Nat)
    (hwf : SnapWF st = true) :
    ∃ st', restoreOrganizationSnapshot st (buildOrganizationSnapshot st) acting =
        Except.ok st' ∧
      (buildOrganizationSnapshot st').organization =
        (buildOrganizationSnapshot st).organization ∧
      (buildOrganizationSnapshot st').members =
        (buildOrganizationSnapshot st).members ∧
      (buildOrganizationSnapshot st').databases.map dbContent =
        (buildOrganizationSnapshot st).databases.map dbContent ∧
      (buildOrganizationSnapshot st').database_memberships.map
          (dbMemberContent (buildOrganizationSnapshot st')) =
        (buildOrganizationSnapshot st).database_memberships.map
          (dbMemberContent (buildOrganizationSnapshot st)) ∧
      (buildOrganizationSnapshot st').organisms.map
          (organismContent (buildOrganizationSnapshot st')) =
        (buildOrganizationSnapshot st).organisms.map
          (organismContent (buildOrganizationSnapshot st)) ∧
      (buildOrganizationSnapshot st').locations.map
          (locationContent (buildOrganizationSnapshot st')) =
        (buildOrganizationSnapshot st).locations.map
          (locationContent (buildOrganizationSnapshot st)) ∧
      (buildOrganizationSnapshot st').plasmids.map
          (plasmidContent (buildOrganizationSnapshot st')) =
        (buildOrganizationSnapshot st).plasmids.map
          (plasmidContent (buildOrganizationSnapshot st)) ∧
      (buildOrganizationSnapshot st').strains.map
          (strainContent (buildOrganizationSnapshot st')) =
        ((buildOrganizationSnapshot st).strains.map
          (strainContent (buildOrganizationSnapshot st))).reverse ∧
      (buildOrganizationSnapshot st').strain_plasmids.map
          (strainPlasmidContent (buildOrganizationSnapshot st')) =
        (buildOrganizationSnapshot st).strain_plasmids.map
          (strainPlasmidContent (buildOrganizationSnapshot st)) ∧
      (buildOrganizationSnapshot st').custom_fields.map
          (fieldContent (buildOrganizationSnapshot st')) =
        (buildOrganizationSnapshot st).custom_fields.map
          (fieldContent (buildOrganizationSnapshot st)) ∧
      (buildOrganizationSnapshot st').field_values.map
          (fieldValueContent (buildOrganizationSnapshot st')) =
        (buildOrganizationSnapshot st).field_values.map
          (fieldValueContent (buildOrganizationSnapshot st)) ∧
      (buildOrganizationSnapshot st').audit_logs.map
          (auditContent (buildOrganizationSnapshot st')) =
        ((buildOrganizationSnapshot st).audit_logs.map
          (auditContent (buildOrganizationSnapshot st))).reverse ∧
      (∀ v ∈ st'.fieldValues,
        v.value_long_text = Option.none ∧ v.value_integer = Option.none ∧
        v.value_decimal = Option.none ∧ v.value_single_select = Option.none ∧
        v.value_multi_select = [] ∧ v.value_fk_content_type = Option.none ∧
        v.value_fk_object_id = Option.none ∧ v.value_file = Option.none ∧
        v.value_url = Option.none ∧ v.value_email = Option.none) := by
  have hwf' := hwf
  simp only [SnapWF, Bool.and_eq_true] at hwf'
  obtain ⟨⟨⟨⟨⟨⟨⟨⟨⟨⟨⟨⟨⟨⟨⟨w1, w2⟩, w3⟩, w4⟩, w5⟩, w6⟩, w7⟩, w8⟩, w9⟩, w10⟩,
    w11⟩, w12⟩, w13⟩, w14⟩, w15⟩, w16⟩ := hwf'
  exact ⟨roundTripState st acting, restore_steps st acting hwf,
    rt_organization st acting, rt_members st acting,
    rt_databases_content st acting w9,
    rt_dbMembers_content st acting (of_decide_eq_true w1) w4,
    rt_organisms_content st acting, rt_locations_content st acting,
    rt_plasmids_content st acting, rt_strains_content st acting w6 w7 w10,
    rt_strain_plasmids_content st acting w6 w7 w8 w10 w11,
    rt_custom_fields_content st acting w13,
    rt_field_values_content st acting w6 w7 w10,
    rt_audit_logs_content st acting w16, rt_values_only_legacy st acting⟩

/-- C5 witness: the fixture organization is well-formed and its round trip
satisfies the amended content-preservation statement. -/
theorem c5_round_trip_preserves_content_witness :
    SnapWF snapOrgState = true ∧
    (∃ st', restoreOrganizationSnapshot snapOrgState (buildOrganizationSnapshot snapOrgState) 1 =
        Except.ok st' ∧
      (buildOrganizationSnapshot st').organization =
        (buildOrganizationSnapshot snapOrgState).organization ∧
      (buildOrganizationSnapshot st').members =
        (buildOrganizationSnapshot snapOrgState).members ∧
      (buildOrganizationSnapshot st').databases.map dbContent =
        (buildOrganizationSnapshot snapOrgState).databases.map dbContent ∧
      (buildOrganizationSnapshot st').database_memberships.map
          (dbMemberContent (buildOrganizationSnapshot st')) =
        (buildOrganizationSnapshot snapOrgState).database_memberships.map
          (dbMemberContent (buildOrganizationSnapshot snapOrgState)) ∧
      (buildOrganizationSnapshot st').organisms.map
          (organismContent (buildOrganizationSnapshot st')) =
        (buildOrganizationSnapshot snapOrgState).organisms.map
          (organismContent (buildOrganizationSnapshot snapOrgState)) ∧
      (buildOrganizationSnapshot st').locations.map
          (locationContent (buildOrganizationSnapshot st')) =
        (buildOrganizationSnapshot snapOrgState).locations.map
          (locationContent (buildOrganizationSnapshot snapOrgState)) ∧
      (buildOrganizationSnapshot st').plasmids.map
          (plasmidContent (buildOrganizationSnapshot st')) =
        (buildOrganizationSnapshot snapOrgState).plasmids.map
          (plasmidContent (buildOrganizationSnapshot snapOrgState)) ∧
      (buildOrganizationSnapshot st').strains.map
          (strainContent (buildOrganizationSnapshot st')) =
        ((buildOrganizationSnapshot snapOrgState).strains.map
          (strainContent (buildOrganizationSnapshot snapOrgState))).reverse ∧
      (buildOrganizationSnapshot st').strain_plasmids.map
          (strainPlasmidContent (buildOrganizationSnapshot st')) =
        (buildOrganizationSnapshot snapOrgState).strain_plasmids.map
          (strainPlasmidContent (buildOrganizationSnapshot snapOrgState)) ∧
      (buildOrganizationSnapshot st').custom_fields.map
          (fieldContent (buildOrganizationSnapshot st')) =
        (buildOrganizationSnapshot snapOrgState).custom_fields.map
          (fieldContent (buildOrganizationSnapshot snapOrgState)) ∧
      (buildOrganizationSnapshot st').field_values.map
          (fieldValueContent (buildOrganizationSnapshot st')) =
        (buildOrganizationSnapshot snapOrgState).field_values.map
          (fieldValueContent (buildOrganizationSnapshot snapOrgState)) ∧
      (buildOrganizationSnapshot st').audit_logs.map
          (auditContent (buildOrganizationSnapshot st')) =
        ((buildOrganizationSnapshot snapOrgState).audit_logs.map
          (auditContent (buildOrganizationSnapshot snapOrgState))).reverse ∧
      (∀ v ∈ st'.fieldValues,
        v.value_long_text = Option.none ∧ v.value_integer = Option.none ∧
        v.value_decimal = Option.none ∧ v.value_single_select = Option.none ∧
        v.value_multi_select = [] ∧ v.value_fk_content_type = Option.none ∧
        v.value_fk_object_id = Option.none ∧ v.value_file = Option.none ∧
        v.value_url = Option.none ∧ v.value_email = Option.none)) :=
  ⟨by decide, c5_round_trip_preserves_content snapOrgState 1 (by decide)⟩

end HelixMapr
